import Mathlib

/-!
# Calico/VPP dataplane agent: pod provisioning and the CNI state store

A shallow embedding of

* `calico-vpp-agent/cni/storage/storage.go` (pod specs, keys, tags, the
  saved-state file), and
* `calico-vpp-agent/cni/network_vpp_routes.go` (per-pod VRFs and routes),

followed by theorems about them.

Conventions.  A Go `string` / `[]byte` is a list of bytes (`GoString`); Go
`len` and slicing are `List.length` and `List.take`.  Unsigned machine
integers are `Nat`, Go `int` is `Int`.  A Go method with a pointer receiver
that mutates its receiver returns the updated value.  Loops over slices are
structural recursions over lists.
-/

namespace CalicoVpp

/-! ## Go strings -/

/-- One byte. -/
abbrev Byte := Fin 256

/-- A Go string: an immutable sequence of bytes. -/
abbrev GoString := List Byte

/-- The byte `'/'`, the path separator of `path/filepath` on Linux. -/
def slash : Byte := 47

/-- The byte `'-'`. -/
def dash : Byte := 45

/-- The byte `','`. -/
def comma : Byte := 44

/-- The byte `':'`. -/
def colon : Byte := 58

/-- Go standard library `filepath.Base` (Linux: separator `'/'`, no volume
name): `"."` for the empty path; otherwise trailing slashes are stripped and
the last element is returned, `"/"` when nothing is left. -/
def filepathBase (path : GoString) : GoString :=
  if path = [] then [46]
  else
    let stripped := (path.reverse.dropWhile (fun b => b == slash)).reverse
    let last := (stripped.reverse.takeWhile (fun b => b != slash)).reverse
    if last = [] then [slash] else last

/-- The part of Go's `crypto/sha512` and `encoding/base64` that `hash` uses:
`encode text` stands for
`base64.StdEncoding.EncodeToString(sha512.Sum512([]byte(text))[:])`, the
base64 text of a 64-byte digest, which always has 88 characters.  The digest
itself is a parameter of the development. -/
structure Sha512Base64 where
  encode : GoString → GoString
  length_encode : ∀ text, (encode text).length = 88

/-! ## `storage.go`: constants and the pod spec -/

/-- Used to ensure compatibility when data is reloaded. -/
def CniServerStateFileVersion : Int := 9

/-- No more than 64 characters in API tags. -/
def MaxAPITagLen : Nat := 63

/-- How many hash characters (base64) of the name go in the tag prefix. -/
def VrfTagHashLen : Nat := 8

/-- Go `net.IP`: a byte slice (4 or 16 bytes when well formed). -/
abbrev IP := GoString

/-- Go `net.IPMask`. -/
abbrev IPMask := GoString

/-- Go `net.IPNet`. -/
structure IPNet where
  IP : IP := []
  Mask : IPMask := []
deriving DecidableEq, Repr

/-- The struct `LocalIPNet`. -/
structure LocalIPNet where
  MaskSize : Int := 0
  IP : IP := []
  Mask : IPMask := []
deriving DecidableEq, Repr

/-- The struct `LocalIP`. -/
structure LocalIP where
  IP : IP := []
deriving DecidableEq, Repr

/-- The type `VppInterfaceType` (a `uint8`). -/
inductive VppInterfaceType where
  | VppIfTypeUnknown
  | VppIfTypeTunTap
  | VppIfTypeMemif
  | VppIfTypeVCL
deriving DecidableEq, Repr

/-- The struct `LocalIfPortConfigs`; `Proto` is a `types.IPProto`. -/
structure LocalIfPortConfigs where
  Start : Nat := 0
  End : Nat := 0
  Proto : Nat := 0
deriving DecidableEq, Repr

/-- The struct `HostPortBinding`. -/
structure HostPortBinding where
  HostPort : Nat := 0
  HostIP6 : IP := []
  HostIP4 : IP := []
  ContainerPort : Nat := 0
  EntryID : Nat := 0
  Protocol : Nat := 0
deriving DecidableEq, Repr

/-- Modelled from the spec: `config.InterfaceSpec` is declared in a package
that is not embedded here; the only field the sources read is the `*bool` `IsL3`
(`none` is the nil pointer). -/
structure InterfaceSpec where
  IsL3 : Option Bool := none
deriving DecidableEq, Repr

/-- The struct `LocalPodSpec`, field for field; the defaults are Go's zero
values. -/
structure LocalPodSpec where
  InterfaceNameSize : Int := 0
  InterfaceName : GoString := []
  NetnsNameSize : Int := 0
  NetnsName : GoString := []
  AllowIPForwarding : Bool := false
  RoutesSize : Int := 0
  Routes : List LocalIPNet := []
  ContainerIpsSize : Int := 0
  ContainerIps : List LocalIP := []
  Mtu : Int := 0
  OrchestratorIDSize : Int := 0
  OrchestratorID : GoString := []
  WorkloadIDSize : Int := 0
  WorkloadID : GoString := []
  EndpointIDSize : Int := 0
  EndpointID : GoString := []
  HostPortsSize : Int := 0
  HostPorts : List HostPortBinding := []
  IfPortConfigsLen : Int := 0
  IfPortConfigs : List LocalIfPortConfigs := []
  PortFilteredIfType : VppInterfaceType := .VppIfTypeUnknown
  DefaultIfType : VppInterfaceType := .VppIfTypeUnknown
  EnableVCL : Bool := false
  EnableMemif : Bool := false
  IfSpec : InterfaceSpec := {}
  PBLMemifSpec : InterfaceSpec := {}
  MemifSocketID : Nat := 0
  TunTapSwIfIndex : Nat := 0
  MemifSwIfIndex : Nat := 0
  LoopbackSwIfIndex : Nat := 0
  PblIndex : Nat := 0
  V4VrfID : Nat := 0
  V6VrfID : Nat := 0
  NeedsSnat : Bool := false
  NetworkNameSize : Int := 0
  NetworkName : GoString := []
  AllowedSpoofingPrefixesSize : Int := 0
  AllowedSpoofingPrefixes : GoString := []
  V4RPFVrfID : Nat := 0
  V6RPFVrfID : Nat := 0
deriving DecidableEq, Repr

/-- Modelled from the spec: `vpplink.IPFamily` is declared in a file that
is not embedded here; the sources read `Str`, `ShortStr` and `IsIP6`. -/
structure IPFamily where
  Str : GoString
  ShortStr : GoString
  IsIP6 : Bool
deriving DecidableEq, Repr

/-- Modelled from the spec: `vpplink.IPFamilyV4` ("ip4", "4"). -/
def IPFamilyV4 : IPFamily := { Str := [105, 112, 52], ShortStr := [52], IsIP6 := false }

/-- Modelled from the spec: `vpplink.IPFamilyV6` ("ip6", "6"). -/
def IPFamilyV6 : IPFamily := { Str := [105, 112, 54], ShortStr := [54], IsIP6 := true }

/-- Modelled from the spec: `vpplink.IPFamilies`, "for each IP family":
IPv4 first, then IPv6. -/
def IPFamilies : List IPFamily := [IPFamilyV4, IPFamilyV6]

/-- The literal `"netns:"`. -/
def keyNetns : GoString := [110, 101, 116, 110, 115, 58]

/-- The literal `",if:"`. -/
def keyIf : GoString := [44, 105, 102, 58]

/-- `(ps *LocalPodSpec) Key`: `fmt.Sprintf("netns:%s,if:%s", NetnsName, InterfaceName)`. -/
def LocalPodSpec.Key (ps : LocalPodSpec) : GoString :=
  keyNetns ++ ps.NetnsName ++ keyIf ++ ps.InterfaceName

/-- `hash`: the first `VrfTagHashLen` characters of the base64 text of the
SHA-512 digest. -/
def hash (lib : Sha512Base64) (text : GoString) : GoString :=
  (lib.encode text).take VrfTagHashLen

/-- `TruncateStr`. -/
def TruncateStr (text : GoString) (size : Nat) : GoString :=
  if text.length > size then text.take size else text

/-- `(ps *LocalPodSpec) GetVrfTag`. -/
def LocalPodSpec.GetVrfTag (lib : Sha512Base64) (ps : LocalPodSpec) (ipFamily : IPFamily)
    (custom : GoString) : GoString :=
  let h := hash lib (ipFamily.ShortStr ++ ps.NetnsName ++ ps.InterfaceName ++ custom)
  let s := h ++ [dash] ++ ipFamily.ShortStr ++ [dash] ++ ps.InterfaceName ++ custom ++ [dash]
    ++ filepathBase ps.NetnsName
  TruncateStr s MaxAPITagLen

/-- `(ps *LocalPodSpec) GetInterfaceTag`. -/
def LocalPodSpec.GetInterfaceTag (lib : Sha512Base64) (ps : LocalPodSpec) (pfx : GoString) :
    GoString :=
  let h := hash lib (pfx ++ ps.NetnsName ++ ps.InterfaceName)
  let s := h ++ [dash] ++ ps.InterfaceName ++ [dash] ++ filepathBase ps.NetnsName
  TruncateStr s MaxAPITagLen

/-- `(ps *LocalPodSpec) GetVrfID`. -/
def LocalPodSpec.GetVrfID (ps : LocalPodSpec) (ipFamily : IPFamily) : Nat :=
  if ipFamily.IsIP6 then ps.V6VrfID else ps.V4VrfID

/-- `(ps *LocalPodSpec) GetRPFVrfID`. -/
def LocalPodSpec.GetRPFVrfID (ps : LocalPodSpec) (ipFamily : IPFamily) : Nat :=
  if ipFamily.IsIP6 then ps.V6RPFVrfID else ps.V4RPFVrfID

/-- `(ps *LocalPodSpec) SetVrfID`. -/
def LocalPodSpec.SetVrfID (ps : LocalPodSpec) (id : Nat) (ipFamily : IPFamily) : LocalPodSpec :=
  if ipFamily.IsIP6 then { ps with V6VrfID := id } else { ps with V4VrfID := id }

/-- `(ps *LocalPodSpec) SetRPFVrfID`. -/
def LocalPodSpec.SetRPFVrfID (ps : LocalPodSpec) (id : Nat) (ipFamily : IPFamily) :
    LocalPodSpec :=
  if ipFamily.IsIP6 then { ps with V6RPFVrfID := id } else { ps with V4RPFVrfID := id }

/-! ## Go errors and results -/

/-- A Go `error` value.  `lib` is an error returned by code that is not
embedded here (the operating system, the struc library, the dataplane
client), with whether `errors.Is(err, os.ErrNotExist)` holds of it; `errorf`
is `fmt.Errorf` / `errors.Errorf` and `wrapf` is `errors.Wrap` /
`errors.Wrapf`, each identified by its format string (the formatted
arguments are not part of the model). -/
inductive GoError where
  | lib (msg : String) (notExist : Bool)
  | errorf (format : String)
  | wrapf (cause : GoError) (format : String)
deriving DecidableEq, Repr

/-- `errors.Is(err, os.ErrNotExist)`: follows the chain of causes. -/
def GoError.IsErrNotExist : GoError → Bool
  | .lib _ notExist => notExist
  | .errorf _ => false
  | .wrapf cause _ => cause.IsErrNotExist

/-- How a call of a method with result type `error` ends: it returns `nil`,
returns an error, or panics. -/
inductive GoResult where
  | nil
  | error (err : GoError)
  | panic (msg : String)
deriving DecidableEq, Repr

/-! ## `storage.go`: the saved-state file -/

/-- The struct `SavedState`. -/
structure SavedState where
  Version : Int := 0
  SpecsCount : Int := 0
  Specs : List LocalPodSpec := []
deriving DecidableEq, Repr

/-- Modelled from the spec: a node of the file system, "a map from path to
content".  A path holds no file, a file with its content, or something that
cannot be read (a directory, a file without read permission). -/
inductive FileNode where
  | absent
  | file (content : GoString)
  | unreadable (reason : String)
deriving DecidableEq, Repr

/-- Modelled from the spec: the file system, a map from path to node. -/
abbrev FileSystem := GoString → FileNode

/-- Modelled from the spec: Go standard library `os.ReadFile` on the file
system model.  A missing file gives an error of which
`errors.Is(err, os.ErrNotExist)` holds; any other failure gives an error of
which it does not. -/
def ReadFile (fs : FileSystem) (name : GoString) : Except GoError GoString :=
  match fs name with
  | .absent => .error (.lib "no such file or directory" true)
  | .file content => .ok content
  | .unreadable reason => .error (.lib reason false)

/-- What a call of `struc.Unpack` into a `SavedState` does with a content:
it decodes a state, it returns an error, or it panics. -/
inductive Unpacked where
  | ok (state : SavedState)
  | error (err : GoError)
  | panic (msg : String)
deriving DecidableEq, Repr

/-- The type of `struc.Unpack` at `SavedState`.  The struc library
(github.com/lunixbochs/struc) is a third-party library, so the decoder
is a parameter of `LoadCniServerState`. -/
abbrev Unpacker := GoString → Unpacked

/-- How a call of `LoadCniServerState` ends: it returns the pair
`([]LocalPodSpec, error)` (the nil slice is `[]` and the nil error is
`none`), or it panics with the given message. -/
inductive Loaded where
  | returned (specs : List LocalPodSpec) (err : Option GoError)
  | panic (msg : String)
deriving DecidableEq, Repr

/-- `LoadCniServerState`.  A panic of `struc.Unpack` is not recovered, so it
ends the call. -/
def LoadCniServerState (Unpack : Unpacker) (fs : FileSystem) (fname : GoString) : Loaded :=
  match ReadFile fs fname with
  | .error err =>
    if err.IsErrNotExist then
      .returned [] none
    else
      .returned [] (some (.wrapf err "Error reading file %s"))
  | .ok data =>
    match Unpack data with
    | .panic msg => .panic msg
    | .error err => .returned [] (some (.wrapf err "Error unpacking"))
    | .ok state =>
      if state.Version ≠ CniServerStateFileVersion then
        .returned [] (some (.errorf "unsupported save file version: %d"))
      else
        .returned state.Specs none

/-- A big-endian two's-complement 32-bit integer (struc's default byte
order), the encoding of the `int32` fields `Version` and `SpecsCount`. -/
def int32BE (b0 b1 b2 b3 : Byte) : Int :=
  let n : Nat := ((b0.val * 256 + b1.val) * 256 + b2.val) * 256 + b3.val
  if n < 2 ^ 31 then (n : Int) else (n : Int) - 2 ^ 32

/-- Modelled from the spec: `struc.Unpack` into a `SavedState` as far as the
header goes.  "A 4-byte format-version integer, a record count, and that
many fixed+variable-length records".  Each of the two integers is read with
`io.ReadFull`: a content that ends where an integer starts gives `io.EOF`,
one that ends inside an integer gives `io.ErrUnexpectedEOF`.  A negative
record count makes the allocation of the slice of records panic
(`reflect.MakeSlice`).  What happens to a content with a complete header and
a record count that is not negative is the parameter `records`, given the
two decoded integers and the remaining bytes; it may panic as well. -/
def strucUnpackHeader (records : Int → Int → GoString → Unpacked) (content : GoString) :
    Unpacked :=
  match content with
  | v0 :: v1 :: v2 :: v3 :: c0 :: c1 :: c2 :: c3 :: rest =>
    if int32BE c0 c1 c2 c3 < 0 then .panic "reflect.MakeSlice: negative len"
    else records (int32BE v0 v1 v2 v3) (int32BE c0 c1 c2 c3) rest
  | short =>
    if short.length = 0 ∨ short.length = 4 then .error (.lib "EOF" false)
    else .error (.lib "unexpected EOF" false)

/-! ## The dataplane client (`vpplink`) -/

/-- Go standard library `net.IP.To4`: the 4-byte form of an IPv4 address
(given in 4 bytes, or in 16 bytes as an IPv4-mapped address), `none` (nil)
for anything else. -/
def To4 (ip : IP) : Option IP :=
  if ip.length = 4 then some ip
  else if ip.length = 16 ∧ ip.take 10 = List.replicate 10 0 ∧ (ip.drop 10).take 2 = [255, 255]
  then some (ip.drop 12)
  else none

/-- Modelled from the spec: `vpplink.IsIP6`, whether the address is not an
IPv4 address. -/
def IsIP6 (ip : IP) : Bool := (To4 ip).isNone

/-- Modelled from the spec: `vpplink.IPFamilyFromIPNet` (for a non-nil
`*net.IPNet`), the family of the address of the prefix. -/
def IPFamilyFromIPNet (ipNet : IPNet) : IPFamily :=
  if (To4 ipNet.IP).isNone then IPFamilyV6 else IPFamilyV4

/-- Modelled from the spec: `common.GetMaxCIDRMask`, "each implicitly a
host-sized prefix": the /32 mask for an IPv4 address, the /128 mask
otherwise. -/
def GetMaxCIDRMask (ip : IP) : IPMask :=
  if (To4 ip).isNone then List.replicate 16 255 else List.replicate 4 255

/-- `(ps *LocalPodSpec) GetContainerIps`. -/
def LocalPodSpec.GetContainerIps (ps : LocalPodSpec) : List IPNet :=
  ps.ContainerIps.map (fun containerIP =>
    { IP := containerIP.IP, Mask := GetMaxCIDRMask containerIP.IP })

/-- Modelled from the spec: `types.RoutePath`, "(egress interface or gateway
address, optional route-table target)". -/
structure RoutePath where
  Gw : IP := []
  SwIfIndex : Nat := 0
  Table : Nat := 0
deriving DecidableEq, Repr

/-- Modelled from the spec: `types.Route`, "destination prefix, list of
paths", in a table.  `Dst` is a `*net.IPNet` that the sources never leave
nil. -/
structure Route where
  Dst : IPNet := {}
  Paths : List RoutePath := []
  Table : Nat := 0
deriving DecidableEq, Repr

/-- Modelled from the spec: `types.IPNeighborFlags`. -/
inductive IPNeighborFlags where
  | IPNeighborNone
  | IPNeighborStatic
deriving DecidableEq, Repr

/-- Modelled from the spec: `types.Neighbor`, "(interface, IP, fixed hardware
address, static flag)". -/
structure Neighbor where
  SwIfIndex : Nat := 0
  IP : IP := []
  HardwareAddr : GoString := []
  Flags : IPNeighborFlags := .IPNeighborNone
deriving DecidableEq, Repr

/-- Modelled from the spec: `types.PblPortRange`. -/
structure PblPortRange where
  Start : Nat := 0
  End : Nat := 0
  Proto : Nat := 0
deriving DecidableEq, Repr

/-- Modelled from the spec: `types.PblClient`, "(table, address, path,
port-range list)". -/
structure PblClient where
  ID : Nat := 0
  TableID : Nat := 0
  Addr : IP := []
  Path : RoutePath := {}
  PortRanges : List PblPortRange := []
deriving DecidableEq, Repr

/-- Modelled from the spec: `common.ContainerSideMacAddress`, the "fixed
synthetic container-side hardware address" (02:00:00:00:00:02). -/
def ContainerSideMacAddress : GoString := [2, 0, 0, 0, 0, 2]

/-- Modelled from the spec: `common.PodVRFIndex`, "the node's shared
pod-VRF-index". -/
def PodVRFIndex : Nat := 2

/-- Modelled from the spec: `common.PuntTableID`, the "fixed punt-table ID". -/
def PuntTableID : Nat := 1

/-- Modelled from the spec: `types.InvalidID` (`^uint32(0)`), also
`vpplink.InvalidID` and `vpplink.InvalidSwIfIndex`. -/
def InvalidID : Nat := 4294967295

/-- A call of the dataplane client, with its arguments: §6, "route
add/delete; VRF allocate/delete; neighbor add; port-filter client
add/delete; strict-RPF set/unset; default-route-via-table add/delete;
default-multicast-route-via-table add/delete". -/
inductive Call where
  | RouteAdd (route : Route)
  | RouteDel (route : Route)
  | AddNeighbor (neighbor : Neighbor)
  | AddPblClient (client : PblClient)
  | DelPblClient (id : Nat)
  | AllocateVRF (isIP6 : Bool) (tag : GoString)
  | DelVRF (id : Nat) (isIP6 : Bool)
  | AddDefaultRouteViaTable (sourceTable dstTable : Nat) (isIP6 : Bool)
  | DelDefaultRouteViaTable (sourceTable dstTable : Nat) (isIP6 : Bool)
  | AddDefaultMRouteViaTable (sourceTable dstTable : Nat) (isIP6 : Bool)
  | DelDefaultMRouteViaTable (sourceTable dstTable : Nat) (isIP6 : Bool)
  | SetCustomURPF (swIfIndex tableID : Nat)
  | UnsetURPF (swIfIndex : Nat)
deriving DecidableEq, Repr

/-- An allocated VRF of the dataplane. -/
structure VRFEntry where
  id : Nat
  isIP6 : Bool
  tag : GoString
deriving DecidableEq, Repr

/-- Modelled from the spec: the state of the dataplane, the resources the
client calls create and delete. -/
structure Dataplane where
  vrfs : List VRFEntry := []
  routes : List Route := []
  defaultRoutes : List (Nat × Nat × Bool) := []
  defaultMRoutes : List (Nat × Nat × Bool) := []
  neighbors : List Neighbor := []
  pblClients : List (Nat × PblClient) := []
  urpf : List (Nat × Nat) := []
deriving DecidableEq, Repr

/-- The ID given to the next allocated VRF: one above every ID in use and
above the fixed tables (the punt table and the shared pod VRF). -/
def Dataplane.freshVrfID (dp : Dataplane) : Nat :=
  (dp.vrfs.map (fun e => e.id)).foldr max (max PuntTableID PodVRFIndex) + 1

/-- The index given to the next port-filter client. -/
def Dataplane.freshPblIndex (dp : Dataplane) : Nat :=
  (dp.pblClients.map (fun e => e.1)).foldr max 0 + 1

/-- Modelled from the spec: what a call that succeeds does to the dataplane
("every mutating call either fully applies or fails with no partial effect")
and the value it returns (the VRF ID or client index of an allocation, 0
otherwise).  An add puts the resource in front; a delete removes the first
resource that matches its arguments. -/
def Dataplane.apply (dp : Dataplane) : Call → Dataplane × Nat
  | .RouteAdd route => ({ dp with routes := route :: dp.routes }, 0)
  | .RouteDel route => ({ dp with routes := dp.routes.erase route }, 0)
  | .AddNeighbor neighbor => ({ dp with neighbors := neighbor :: dp.neighbors }, 0)
  | .AddPblClient client =>
    ({ dp with pblClients := (dp.freshPblIndex, client) :: dp.pblClients }, dp.freshPblIndex)
  | .DelPblClient id =>
    ({ dp with pblClients := dp.pblClients.eraseP (fun e => e.1 == id) }, 0)
  | .AllocateVRF isIP6 tag =>
    ({ dp with vrfs := { id := dp.freshVrfID, isIP6 := isIP6, tag := tag } :: dp.vrfs },
      dp.freshVrfID)
  | .DelVRF id isIP6 =>
    ({ dp with vrfs := dp.vrfs.eraseP (fun e => e.id == id && e.isIP6 == isIP6) }, 0)
  | .AddDefaultRouteViaTable src dst isIP6 =>
    ({ dp with defaultRoutes := (src, dst, isIP6) :: dp.defaultRoutes }, 0)
  | .DelDefaultRouteViaTable src dst isIP6 =>
    ({ dp with defaultRoutes := dp.defaultRoutes.erase (src, dst, isIP6) }, 0)
  | .AddDefaultMRouteViaTable src dst isIP6 =>
    ({ dp with defaultMRoutes := (src, dst, isIP6) :: dp.defaultMRoutes }, 0)
  | .DelDefaultMRouteViaTable src dst isIP6 =>
    ({ dp with defaultMRoutes := dp.defaultMRoutes.erase (src, dst, isIP6) }, 0)
  | .SetCustomURPF swIfIndex tableID => ({ dp with urpf := (swIfIndex, tableID) :: dp.urpf }, 0)
  | .UnsetURPF swIfIndex => ({ dp with urpf := dp.urpf.eraseP (fun e => e.1 == swIfIndex) }, 0)

/-- Modelled from the spec: the dataplane client, "an opaque synchronous RPC
client offering route/VRF/interface/neighbor primitives that either succeed
or return an error".  `trace` lists the calls issued so far, oldest first.
`faults` is the failure plan: the call issued when `n` calls have been
issued before it fails with the error `e` when `faults n = some e`, and
succeeds when `faults n = none`.  `failValue` is the number a failing
allocation returns next to its error. -/
structure VppLink where
  dp : Dataplane := {}
  trace : List Call := []
  faults : Nat → Option String := fun _ => none
  failValue : Nat := 0

/-- What a client call returns: the error (`none` is nil), the returned
number, and the client afterwards. -/
structure CallResult where
  err : Option GoError
  value : Nat
  vpp : VppLink

/-- Modelled from the spec: issuing a call.  The call is recorded; it fails
with no effect on the dataplane when the failure plan says so, and applies
fully otherwise. -/
def VppLink.call (v : VppLink) (c : Call) : CallResult :=
  match v.faults v.trace.length with
  | some e =>
    { err := some (.lib e false), value := v.failValue, vpp := { v with trace := v.trace ++ [c] } }
  | none =>
    { err := none, value := (v.dp.apply c).2,
      vpp := { v with dp := (v.dp.apply c).1, trace := v.trace ++ [c] } }

/-- Modelled from the spec: `vpplink.CleanupStack`, "a LIFO list of
(undo-operation, captured-arguments) pairs"; the head is the entry pushed
last. -/
abbrev CleanupStack := List Call

/-- Modelled from the spec: `(*CleanupStack) Push`. -/
def CleanupStack.Push (stack : CleanupStack) (undo : Call) : CleanupStack := undo :: stack

/-- Modelled from the spec: `(*CleanupStack) Execute`, "drained (each entry
invoked, errors logged not propagated)", last pushed first. -/
def CleanupStack.Execute : CleanupStack → VppLink → VppLink
  | [], v => v
  | undo :: rest, v => CleanupStack.Execute rest (v.call undo).vpp

/-! ## `network_vpp_routes.go` -/

/-- Modelled from the spec: `watchers.VRF`, the VRF table pair of a network
(`Tables [2]uint32`, IPv4 then IPv6). -/
structure VRF where
  Tables0 : Nat := 0
  Tables1 : Nat := 0
deriving DecidableEq, Repr

/-- Indexing `Tables[idx]` for `idx` 0 or 1. -/
def VRF.Tables (vrf : VRF) (idx : Nat) : Nat := if idx = 0 then vrf.Tables0 else vrf.Tables1

/-- Modelled from the spec: `watchers.NetworkDefinition`, "the VRF table pair
that represents that network". -/
structure NetworkDefinition where
  VRF : CalicoVpp.VRF := {}
  PodVRF : CalicoVpp.VRF := {}
deriving DecidableEq, Repr

/-- A value stored in the `sync.Map` of network definitions: a
`*watchers.NetworkDefinition` (`none` is the nil pointer) or a value of
another type. -/
inductive RegistryValue where
  | networkDefinition (ptr : Option NetworkDefinition)
  | other
deriving DecidableEq, Repr

/-- The struct `Server`, as far as these methods use it: the dataplane
client and the registry of network definitions (`Load` of a name gives
`none` when the name is not registered).  The logger is not modelled. -/
structure Server where
  vpp : VppLink := {}
  networkDefinitions : GoString → Option RegistryValue := fun _ => none

/-- What a provisioning method leaves behind: how it ended, the client, the
pod spec and the cleanup stack. -/
structure Outcome where
  result : GoResult
  vpp : VppLink
  podSpec : LocalPodSpec
  stack : CleanupStack

/-- The table `RoutePodInterface` and `UnroutePodInterface` compute for the
route of one container address (the `var table uint32` block at the head of
their loop bodies): `none` stands for the panic on a registry value that is
not a non-nil `*watchers.NetworkDefinition`. -/
def Server.podInterfaceTable (s : Server) (podSpec : LocalPodSpec) (inPodVrf : Bool)
    (containerIP : IPNet) : Option Nat :=
  if podSpec.NetworkName ≠ [] then
    let idx := if IsIP6 containerIP.IP then 1 else 0
    match s.networkDefinitions podSpec.NetworkName with
    | none => some 0
    | some (.networkDefinition (some networkDefinition)) =>
      some (networkDefinition.VRF.Tables idx)
    | some _ => none
  else if inPodVrf then
    some (podSpec.GetVrfID (IPFamilyFromIPNet containerIP))
  else some 0

/-- The loop of `RoutePodInterface` over the container addresses. -/
def Server.RoutePodInterface.loop (s : Server) (podSpec : LocalPodSpec) (swIfIndex : Nat)
    (isL3 inPodVrf : Bool) : List IPNet → VppLink → CleanupStack → Outcome
  | [], vpp, stack => ⟨.nil, vpp, podSpec, stack⟩
  | containerIP :: rest, vpp, stack =>
    match s.podInterfaceTable podSpec inPodVrf containerIP with
    | none => ⟨.panic "networkDefinition not of type *watchers.NetworkDefinition", vpp, podSpec,
        stack⟩
    | some table =>
      let route : Route :=
        { Dst := containerIP, Paths := [{ SwIfIndex := swIfIndex }], Table := table }
      let added := vpp.call (.RouteAdd route)
      match added.err with
      | some err =>
        ⟨.error (.wrapf err "Cannot adding route [podVRF ->MainIF] %s"), added.vpp, podSpec, stack⟩
      | none =>
        let stack := stack.Push (.RouteDel route)
        if !isL3 then
          let neigh := added.vpp.call (.AddNeighbor
            { SwIfIndex := swIfIndex, IP := containerIP.IP,
              HardwareAddr := ContainerSideMacAddress, Flags := .IPNeighborStatic })
          match neigh.err with
          | some err =>
            ⟨.error (.wrapf err "Error adding neighbor if[%d] %s"), neigh.vpp, podSpec, stack⟩
          | none => Server.RoutePodInterface.loop s podSpec swIfIndex isL3 inPodVrf rest
              neigh.vpp stack
        else
          Server.RoutePodInterface.loop s podSpec swIfIndex isL3 inPodVrf rest added.vpp stack

/-- `(s *Server) RoutePodInterface`. -/
def Server.RoutePodInterface (s : Server) (podSpec : LocalPodSpec) (stack : CleanupStack)
    (swIfIndex : Nat) (isL3 inPodVrf : Bool) : Outcome :=
  Server.RoutePodInterface.loop s podSpec swIfIndex isL3 inPodVrf podSpec.GetContainerIps
    s.vpp stack

/-- `(s *Server) CreatePodRPFVRF`: the loop over the IP families. -/
def Server.CreatePodRPFVRF.loop (lib : Sha512Base64) :
    List IPFamily → VppLink → LocalPodSpec → CleanupStack → Outcome
  | [], vpp, podSpec, stack => ⟨.nil, vpp, podSpec, stack⟩
  | ipFamily :: rest, vpp, podSpec, stack =>
    let alloc := vpp.call (.AllocateVRF ipFamily.IsIP6 (podSpec.GetVrfTag lib ipFamily [82, 80, 70]))
    let vrfID := alloc.value
    let podSpec := podSpec.SetRPFVrfID vrfID ipFamily
    match alloc.err with
    | some err => ⟨.error (.wrapf err "error allocating VRF %s"), alloc.vpp, podSpec, stack⟩
    | none =>
      Server.CreatePodRPFVRF.loop lib rest alloc.vpp podSpec
        (stack.Push (.DelVRF vrfID ipFamily.IsIP6))

/-- `(s *Server) CreatePodRPFVRF`; the custom tag suffix is `"RPF"`. -/
def Server.CreatePodRPFVRF (lib : Sha512Base64) (s : Server) (podSpec : LocalPodSpec)
    (stack : CleanupStack) : Outcome :=
  Server.CreatePodRPFVRF.loop lib IPFamilies s.vpp podSpec stack

/-- `(s *Server) CreatePodVRF`: the first loop, which allocates the VRFs. -/
def Server.CreatePodVRF.allocate (lib : Sha512Base64) :
    List IPFamily → VppLink → LocalPodSpec → CleanupStack → Outcome
  | [], vpp, podSpec, stack => ⟨.nil, vpp, podSpec, stack⟩
  | ipFamily :: rest, vpp, podSpec, stack =>
    let alloc := vpp.call (.AllocateVRF ipFamily.IsIP6 (podSpec.GetVrfTag lib ipFamily []))
    let vrfID := alloc.value
    let podSpec := podSpec.SetVrfID vrfID ipFamily
    match alloc.err with
    | some err => ⟨.error (.wrapf err "error allocating VRF %s"), alloc.vpp, podSpec, stack⟩
    | none =>
      Server.CreatePodVRF.allocate lib rest alloc.vpp podSpec
        (stack.Push (.DelVRF vrfID ipFamily.IsIP6))

/-- `(s *Server) CreatePodVRF`: the second loop, which adds the default
routes; `idx` is the index of the head of the list in `IPFamilies`. -/
def Server.CreatePodVRF.defaultRoutes (s : Server) (podSpec : LocalPodSpec) :
    Nat → List IPFamily → VppLink → CleanupStack → Outcome
  | _, [], vpp, stack => ⟨.nil, vpp, podSpec, stack⟩
  | idx, ipFamily :: rest, vpp, stack =>
    let vrfID := podSpec.GetVrfID ipFamily
    let lookup : Except GoResult Nat :=
      if podSpec.NetworkName = [] then .ok PodVRFIndex
      else
        match s.networkDefinitions podSpec.NetworkName with
        | none => .error (.error (.errorf "network not found %s"))
        | some (.networkDefinition (some networkDefinition)) =>
          .ok (networkDefinition.PodVRF.Tables idx)
        | some _ => .error (.panic "networkDefinition not of type *watchers.NetworkDefinition")
    match lookup with
    | .error stop => ⟨stop, vpp, podSpec, stack⟩
    | .ok vrfIndex =>
      let route := vpp.call (.AddDefaultRouteViaTable vrfID vrfIndex ipFamily.IsIP6)
      match route.err with
      | some err =>
        ⟨.error (.wrapf err "error adding VRF %d %s default route via VRF %d"), route.vpp, podSpec,
          stack⟩
      | none =>
        let stack := stack.Push (.DelDefaultRouteViaTable vrfID vrfIndex ipFamily.IsIP6)
        let mroute := route.vpp.call (.AddDefaultMRouteViaTable vrfID vrfIndex ipFamily.IsIP6)
        match mroute.err with
        | some err =>
          ⟨.error (.wrapf err "error adding VRF %d %s default Mroute via VRF %d"), mroute.vpp,
            podSpec, stack⟩
        | none =>
          Server.CreatePodVRF.defaultRoutes s podSpec (idx + 1) rest mroute.vpp
            (stack.Push (.DelDefaultMRouteViaTable vrfID vrfIndex ipFamily.IsIP6))

/-- `(s *Server) CreatePodVRF`. -/
def Server.CreatePodVRF (lib : Sha512Base64) (s : Server) (podSpec : LocalPodSpec)
    (stack : CleanupStack) : Outcome :=
  let allocated := Server.CreatePodVRF.allocate lib IPFamilies s.vpp podSpec stack
  match allocated.result with
  | .nil =>
    Server.CreatePodVRF.defaultRoutes s allocated.podSpec 0 IPFamilies allocated.vpp
      allocated.stack
  | _ => allocated

/-- How a teardown method (a method without result value) ends: it returns,
or it panics with the given message; the client afterwards; and the pod
spec behind the pointer the method was given, as the method leaves it. -/
structure Teardown where
  panicked : Option String := none
  vpp : VppLink
  podSpec : LocalPodSpec

/-- What a teardown method that cannot panic leaves: the client (the fields
of `VppLink`) and the pod spec behind the pointer the method was given. -/
structure Released extends VppLink where
  podSpec : LocalPodSpec

/-- `(s *Server) UnroutePodInterface`: the loop over the container
addresses.  Errors of `RouteDel` are logged only. -/
def Server.UnroutePodInterface.loop (s : Server) (podSpec : LocalPodSpec) (swIfIndex : Nat)
    (inPodVrf : Bool) : List IPNet → VppLink → Teardown
  | [], vpp => ⟨none, vpp, podSpec⟩
  | containerIP :: rest, vpp =>
    match s.podInterfaceTable podSpec inPodVrf containerIP with
    | none => ⟨some "networkDefinition not of type *watchers.NetworkDefinition", vpp, podSpec⟩
    | some table =>
      let route : Route :=
        { Dst := containerIP, Paths := [{ SwIfIndex := swIfIndex }], Table := table }
      Server.UnroutePodInterface.loop s podSpec swIfIndex inPodVrf rest
        (vpp.call (.RouteDel route)).vpp

/-- `(s *Server) UnroutePodInterface`. -/
def Server.UnroutePodInterface (s : Server) (podSpec : LocalPodSpec) (swIfIndex : Nat)
    (inPodVrf : Bool) : Teardown :=
  Server.UnroutePodInterface.loop s podSpec swIfIndex inPodVrf podSpec.GetContainerIps s.vpp

/-- The port ranges `RoutePblPortsPodInterface` builds from `IfPortConfigs`. -/
def LocalPodSpec.pblPortRanges (podSpec : LocalPodSpec) : List PblPortRange :=
  podSpec.IfPortConfigs.map (fun pc => { Start := pc.Start, End := pc.End, Proto := pc.Proto })

/-- The client `RoutePblPortsPodInterface` builds for one container address. -/
def LocalPodSpec.pblClient (podSpec : LocalPodSpec) (swIfIndex : Nat) (isL3 : Bool)
    (containerIP : IPNet) : PblClient :=
  let path : RoutePath := { SwIfIndex := swIfIndex }
  let path : RoutePath := if !isL3 then { path with Gw := containerIP.IP } else path
  let client : PblClient :=
    { ID := InvalidID, TableID := podSpec.GetVrfID (IPFamilyFromIPNet containerIP),
      Addr := containerIP.IP, Path := path, PortRanges := podSpec.pblPortRanges }
  if podSpec.EnableVCL then { client with TableID := PuntTableID } else client

/-- `(s *Server) RoutePblPortsPodInterface`: the loop over the container
addresses. -/
def Server.RoutePblPortsPodInterface.loop (swIfIndex : Nat) (isL3 : Bool) :
    List IPNet → VppLink → LocalPodSpec → CleanupStack → Outcome
  | [], vpp, podSpec, stack => ⟨.nil, vpp, podSpec, stack⟩
  | containerIP :: rest, vpp, podSpec, stack =>
    let added := vpp.call (.AddPblClient (podSpec.pblClient swIfIndex isL3 containerIP))
    let pblIndex := added.value
    match added.err with
    | some err =>
      ⟨.error (.wrapf err "error adding PBL client for %s VRF %d"), added.vpp, podSpec, stack⟩
    | none =>
      let stack := stack.Push (.DelPblClient pblIndex)
      let podSpec := { podSpec with PblIndex := pblIndex }
      if !isL3 then
        let neigh := added.vpp.call (.AddNeighbor
          { SwIfIndex := swIfIndex, IP := containerIP.IP,
            HardwareAddr := ContainerSideMacAddress, Flags := .IPNeighborStatic })
        match neigh.err with
        | some err =>
          ⟨.error (.wrapf err "Cannot add neighbor if[%d] %s"), neigh.vpp, podSpec, stack⟩
        | none => Server.RoutePblPortsPodInterface.loop swIfIndex isL3 rest neigh.vpp podSpec stack
      else
        Server.RoutePblPortsPodInterface.loop swIfIndex isL3 rest added.vpp podSpec stack

/-- `(s *Server) RoutePblPortsPodInterface`.  The container addresses are
read once, before the loop. -/
def Server.RoutePblPortsPodInterface (s : Server) (podSpec : LocalPodSpec)
    (stack : CleanupStack) (swIfIndex : Nat) (isL3 : Bool) : Outcome :=
  Server.RoutePblPortsPodInterface.loop swIfIndex isL3 podSpec.GetContainerIps s.vpp podSpec
    stack

/-- `(s *Server) UnroutePblPortsPodInterface`; the `swIfIndex` argument is
not used by the source, and nothing is assigned through `podSpec`. -/
def Server.UnroutePblPortsPodInterface (s : Server) (podSpec : LocalPodSpec)
    (_swIfIndex : Nat) : Released :=
  { toVppLink := (s.vpp.call (.DelPblClient podSpec.PblIndex)).vpp, podSpec := podSpec }

/-- The type of `(s *Server) ParseSpoofAddressAnnotation`, a method of the
package defined in a file that is not embedded here, so the parser is a
parameter: from the annotation text to the prefixes and the error it
returns. -/
abbrev SpoofParser := GoString → List IPNet × Option GoError

/-- The `pathsToPod` of `AddRPFRoutes` and `DeactivateStrictRPF` for one
container address: through the TunTap interface and, when the pod has a
memif interface, through it as well. -/
def LocalPodSpec.pathsToPod (podSpec : LocalPodSpec) (containerIP : IPNet) : List RoutePath :=
  let pathsToPod : List RoutePath :=
    [{ SwIfIndex := podSpec.TunTapSwIfIndex, Gw := containerIP.IP }]
  if podSpec.MemifSwIfIndex ≠ InvalidID then
    pathsToPod ++ [{ SwIfIndex := podSpec.MemifSwIfIndex, Gw := containerIP.IP }]
  else pathsToPod

/-- `(s *Server) AddRPFRoutes`: the loop over the allowed sources.  Every
iteration has its own `allowedSource` (the loop variable is not shared
between the routes pushed on the stack). -/
def Server.AddRPFRoutes.allowed (podSpec : LocalPodSpec) (pathsToPod : List RoutePath)
    (RPFvrfID : Nat) : List IPNet → VppLink → CleanupStack → Outcome
  | [], vpp, stack => ⟨.nil, vpp, podSpec, stack⟩
  | allowedSource :: rest, vpp, stack =>
    let route : Route := { Dst := allowedSource, Paths := pathsToPod, Table := RPFvrfID }
    let added := vpp.call (.RouteAdd route)
    match added.err with
    | some err =>
      ⟨.error (.wrapf err "error adding RPFVRF %d proper route"), added.vpp, podSpec, stack⟩
    | none =>
      Server.AddRPFRoutes.allowed podSpec pathsToPod RPFvrfID rest added.vpp
        (stack.Push (.RouteDel route))

/-- `(s *Server) AddRPFRoutes`: the block "Add addresses allowed to be
spoofed" of the loop body. -/
def Server.AddRPFRoutes.spoofing (parse : SpoofParser) (podSpec : LocalPodSpec)
    (pathsToPod : List RoutePath) (RPFvrfID : Nat) (vpp : VppLink) (stack : CleanupStack) :
    Outcome :=
  if podSpec.AllowedSpoofingPrefixes ≠ [] then
    match (parse podSpec.AllowedSpoofingPrefixes).2 with
    | some err => ⟨.error (.wrapf err "error parsing allowSpoofing addresses"), vpp, podSpec, stack⟩
    | none =>
      Server.AddRPFRoutes.allowed podSpec pathsToPod RPFvrfID
        (parse podSpec.AllowedSpoofingPrefixes).1 vpp stack
  else ⟨.nil, vpp, podSpec, stack⟩

/-- `(s *Server) AddRPFRoutes`: the loop over the container addresses. -/
def Server.AddRPFRoutes.loop (parse : SpoofParser) (podSpec : LocalPodSpec) :
    List IPNet → VppLink → CleanupStack → Outcome
  | [], vpp, stack => ⟨.nil, vpp, podSpec, stack⟩
  | containerIP :: rest, vpp, stack =>
    let RPFvrfID := podSpec.GetRPFVrfID (IPFamilyFromIPNet containerIP)
    let pathsToPod := podSpec.pathsToPod containerIP
    let route : Route := { Dst := containerIP, Paths := pathsToPod, Table := RPFvrfID }
    let added := vpp.call (.RouteAdd route)
    match added.err with
    | some err =>
      ⟨.error (.wrapf err "error adding RPFVRF %d proper route"), added.vpp, podSpec, stack⟩
    | none =>
      let spoofed := Server.AddRPFRoutes.spoofing parse podSpec pathsToPod RPFvrfID added.vpp
        (stack.Push (.RouteDel route))
      match spoofed.result with
      | .nil => Server.AddRPFRoutes.loop parse podSpec rest spoofed.vpp spoofed.stack
      | _ => spoofed

/-- `(s *Server) AddRPFRoutes`. -/
def Server.AddRPFRoutes (parse : SpoofParser) (s : Server) (podSpec : LocalPodSpec)
    (stack : CleanupStack) : Outcome :=
  Server.AddRPFRoutes.loop parse podSpec podSpec.GetContainerIps s.vpp stack

/-- `(s *Server) ActivateStrictRPF`. -/
def Server.ActivateStrictRPF (lib : Sha512Base64) (parse : SpoofParser) (s : Server)
    (podSpec : LocalPodSpec) (stack : CleanupStack) : Outcome :=
  let created := Server.CreatePodRPFVRF lib s podSpec stack
  match created.result with
  | .error err => { created with result := .error (.wrapf err "failed to create RPFVrf for pod") }
  | .panic msg => { created with result := .panic msg }
  | .nil =>
    let routed := Server.AddRPFRoutes parse { s with vpp := created.vpp } created.podSpec
      created.stack
    match routed.result with
    | .error err => { routed with result := .error (.wrapf err "failed to add routes for RPF VRF") }
    | .panic msg => { routed with result := .panic msg }
    | .nil =>
      let podSpec := routed.podSpec
      let set := routed.vpp.call (.SetCustomURPF podSpec.TunTapSwIfIndex podSpec.V4RPFVrfID)
      match set.err with
      | some err =>
        ⟨.error (.wrapf err "failed to set urpf strict on interface"), set.vpp, podSpec,
          routed.stack⟩
      | none =>
        ⟨.nil, set.vpp, podSpec, routed.stack.Push (.UnsetURPF podSpec.TunTapSwIfIndex)⟩

/-- `(s *Server) DeactivateStrictRPF`: the loop over the allowed sources.
Errors of `RouteDel` are logged only. -/
def Server.DeactivateStrictRPF.allowed (pathsToPod : List RoutePath) (RPFvrfID : Nat) :
    List IPNet → VppLink → VppLink
  | [], vpp => vpp
  | allowedSource :: rest, vpp =>
    Server.DeactivateStrictRPF.allowed pathsToPod RPFvrfID rest
      (vpp.call (.RouteDel { Dst := allowedSource, Paths := pathsToPod, Table := RPFvrfID })).vpp

/-- `(s *Server) DeactivateStrictRPF`: the block "Delete addresses allowed
to be spoofed" of the loop body.  An error of the parser is logged and the
loop runs over the prefixes returned next to it. -/
def Server.DeactivateStrictRPF.spoofing (parse : SpoofParser) (podSpec : LocalPodSpec)
    (pathsToPod : List RoutePath) (RPFvrfID : Nat) (vpp : VppLink) : VppLink :=
  if podSpec.AllowedSpoofingPrefixes ≠ [] then
    Server.DeactivateStrictRPF.allowed pathsToPod RPFvrfID
      (parse podSpec.AllowedSpoofingPrefixes).1 vpp
  else vpp

/-- `(s *Server) DeactivateStrictRPF`: the loop over the container
addresses. -/
def Server.DeactivateStrictRPF.routes (parse : SpoofParser) (podSpec : LocalPodSpec) :
    List IPNet → VppLink → VppLink
  | [], vpp => vpp
  | containerIP :: rest, vpp =>
    let RPFvrfID := podSpec.GetRPFVrfID (IPFamilyFromIPNet containerIP)
    let pathsToPod := podSpec.pathsToPod containerIP
    let deleted := vpp.call
      (.RouteDel { Dst := containerIP, Paths := pathsToPod, Table := RPFvrfID })
    Server.DeactivateStrictRPF.routes parse podSpec rest
      (Server.DeactivateStrictRPF.spoofing parse podSpec pathsToPod RPFvrfID deleted.vpp)

/-- `(s *Server) DeactivateStrictRPF`: the loop over the IP families.
Errors of `DelVRF` are logged only. -/
def Server.DeactivateStrictRPF.delVRFs (podSpec : LocalPodSpec) :
    List IPFamily → VppLink → VppLink
  | [], vpp => vpp
  | ipFamily :: rest, vpp =>
    Server.DeactivateStrictRPF.delVRFs podSpec rest
      (vpp.call (.DelVRF (podSpec.GetRPFVrfID ipFamily) ipFamily.IsIP6)).vpp

/-- `(s *Server) DeactivateStrictRPF`.  The two loops read the spec and
assign nothing through `podSpec`. -/
def Server.DeactivateStrictRPF (parse : SpoofParser) (s : Server) (podSpec : LocalPodSpec) :
    Released :=
  { toVppLink := Server.DeactivateStrictRPF.delVRFs podSpec IPFamilies
      (Server.DeactivateStrictRPF.routes parse podSpec podSpec.GetContainerIps s.vpp),
    podSpec := podSpec }

/-- The upstream table `DeletePodVRF` computes for the family with index
`idx` (the `var vrfIndex uint32` block of its first loop): 0 when the
network name is not registered, `none` for the panic on a registry value
that is not a non-nil `*watchers.NetworkDefinition`. -/
def Server.deleteVRFIndex (s : Server) (podSpec : LocalPodSpec) (idx : Nat) : Option Nat :=
  if podSpec.NetworkName = [] then some PodVRFIndex
  else
    match s.networkDefinitions podSpec.NetworkName with
    | none => some 0
    | some (.networkDefinition (some networkDefinition)) =>
      some (networkDefinition.PodVRF.Tables idx)
    | some _ => none

/-- `(s *Server) DeletePodVRF`: the first loop, which deletes the default
routes; `idx` is the index of the head of the list in `IPFamilies`.  Errors
are logged only. -/
def Server.DeletePodVRF.defaultRoutes (s : Server) (podSpec : LocalPodSpec) :
    Nat → List IPFamily → VppLink → Teardown
  | _, [], vpp => ⟨none, vpp, podSpec⟩
  | idx, ipFamily :: rest, vpp =>
    let vrfID := podSpec.GetVrfID ipFamily
    match s.deleteVRFIndex podSpec idx with
    | none => ⟨some "networkDefinition not of type *watchers.NetworkDefinition", vpp, podSpec⟩
    | some vrfIndex =>
      let route := vpp.call (.DelDefaultRouteViaTable vrfID vrfIndex ipFamily.IsIP6)
      let mroute := route.vpp.call (.DelDefaultMRouteViaTable vrfID vrfIndex ipFamily.IsIP6)
      Server.DeletePodVRF.defaultRoutes s podSpec (idx + 1) rest mroute.vpp

/-- `(s *Server) DeletePodVRF`: the second loop, which deletes the VRFs. -/
def Server.DeletePodVRF.delVRFs (podSpec : LocalPodSpec) : List IPFamily → VppLink → VppLink
  | [], vpp => vpp
  | ipFamily :: rest, vpp =>
    Server.DeletePodVRF.delVRFs podSpec rest
      (vpp.call (.DelVRF (podSpec.GetVrfID ipFamily) ipFamily.IsIP6)).vpp

/-- `(s *Server) DeletePodVRF`. -/
def Server.DeletePodVRF (s : Server) (podSpec : LocalPodSpec) : Teardown :=
  let routes := Server.DeletePodVRF.defaultRoutes s podSpec 0 IPFamilies s.vpp
  match routes.panicked with
  | some msg => ⟨some msg, routes.vpp, routes.podSpec⟩
  | none => ⟨none, Server.DeletePodVRF.delVRFs podSpec IPFamilies routes.vpp, routes.podSpec⟩

/-- The route `CreateVRFRoutesToPod` and `DeleteVRFRoutesToPod` build for one
container address: in the main table (the zero value of `Table`), one path
into the pod VRF of the family, with no interface. -/
def LocalPodSpec.vrfRouteToPod (podSpec : LocalPodSpec) (containerIP : IPNet) : Route :=
  { Dst := containerIP,
    Paths := [{ Table := podSpec.GetVrfID (IPFamilyFromIPNet containerIP),
                SwIfIndex := InvalidID }] }

/-- `(s *Server) CreateVRFRoutesToPod`: the loop over the container
addresses. -/
def Server.CreateVRFRoutesToPod.loop (podSpec : LocalPodSpec) :
    List IPNet → VppLink → CleanupStack → Outcome
  | [], vpp, stack => ⟨.nil, vpp, podSpec, stack⟩
  | containerIP :: rest, vpp, stack =>
    let route := podSpec.vrfRouteToPod containerIP
    let added := vpp.call (.RouteAdd route)
    match added.err with
    | some err =>
      ⟨.error (.wrapf err "error adding route [mainVRF ->PodVRF] %s"), added.vpp, podSpec, stack⟩
    | none =>
      Server.CreateVRFRoutesToPod.loop podSpec rest added.vpp (stack.Push (.RouteDel route))

/-- `(s *Server) CreateVRFRoutesToPod`. -/
def Server.CreateVRFRoutesToPod (s : Server) (podSpec : LocalPodSpec) (stack : CleanupStack) :
    Outcome :=
  Server.CreateVRFRoutesToPod.loop podSpec podSpec.GetContainerIps s.vpp stack

/-- `(s *Server) DeleteVRFRoutesToPod`: the loop over the container
addresses.  Errors of `RouteDel` are logged only. -/
def Server.DeleteVRFRoutesToPod.loop (podSpec : LocalPodSpec) : List IPNet → VppLink → VppLink
  | [], vpp => vpp
  | containerIP :: rest, vpp =>
    Server.DeleteVRFRoutesToPod.loop podSpec rest
      (vpp.call (.RouteDel (podSpec.vrfRouteToPod containerIP))).vpp

/-- `(s *Server) DeleteVRFRoutesToPod`.  The loop reads the spec and assigns
nothing through `podSpec`. -/
def Server.DeleteVRFRoutesToPod (s : Server) (podSpec : LocalPodSpec) : Released :=
  { toVppLink := Server.DeleteVRFRoutesToPod.loop podSpec podSpec.GetContainerIps s.vpp,
    podSpec := podSpec }

/-- The route `SetupPuntRoutes` and `RemovePuntRoutes` build for one
container address: in the punt table, through the given interface. -/
def puntRoute (swIfIndex : Nat) (containerIP : IPNet) : Route :=
  { Table := PuntTableID, Dst := containerIP, Paths := [{ SwIfIndex := swIfIndex }] }

/-- `(s *Server) SetupPuntRoutes`: the loop over the container addresses. -/
def Server.SetupPuntRoutes.loop (podSpec : LocalPodSpec) (swIfIndex : Nat) :
    List IPNet → VppLink → CleanupStack → Outcome
  | [], vpp, stack => ⟨.nil, vpp, podSpec, stack⟩
  | containerIP :: rest, vpp, stack =>
    let route := puntRoute swIfIndex containerIP
    let added := vpp.call (.RouteAdd route)
    match added.err with
    | some err =>
      ⟨.error (.wrapf err "error adding vpp side routes for interface"), added.vpp, podSpec,
        stack⟩
    | none =>
      Server.SetupPuntRoutes.loop podSpec swIfIndex rest added.vpp (stack.Push (.RouteDel route))

/-- `(s *Server) SetupPuntRoutes`. -/
def Server.SetupPuntRoutes (s : Server) (podSpec : LocalPodSpec) (stack : CleanupStack)
    (swIfIndex : Nat) : Outcome :=
  Server.SetupPuntRoutes.loop podSpec swIfIndex podSpec.GetContainerIps s.vpp stack

/-- `(s *Server) RemovePuntRoutes`: the loop over the container addresses.
Errors of `RouteDel` are logged only. -/
def Server.RemovePuntRoutes.loop (swIfIndex : Nat) : List IPNet → VppLink → VppLink
  | [], vpp => vpp
  | containerIP :: rest, vpp =>
    Server.RemovePuntRoutes.loop swIfIndex rest
      (vpp.call (.RouteDel (puntRoute swIfIndex containerIP))).vpp

/-- `(s *Server) RemovePuntRoutes`.  The loop reads the spec and assigns
nothing through `podSpec`. -/
def Server.RemovePuntRoutes (s : Server) (podSpec : LocalPodSpec) (swIfIndex : Nat) :
    Released :=
  { toVppLink := Server.RemovePuntRoutes.loop swIfIndex podSpec.GetContainerIps s.vpp,
    podSpec := podSpec }

/-! ## `storage.go`: writing the saved-state file -/

/-- The type of `struc.Pack` at `SavedState`.  The struc library is a
third-party library, so the encoder is a parameter of
`PersistCniServerState`. -/
abbrev Packer := SavedState → Except GoError GoString

/-- Modelled from the spec: the file system together with its failures.
`files` is the "map from path to content".  `writeFault`, when set, makes
`os.WriteFile` fail with the given message and gives the node the failed
write leaves at the path it wrote to (nothing, a truncated file, the former
content); `renameFault`, when set, makes `os.Rename` fail with the given
message. -/
structure Disk where
  files : FileSystem := fun _ => .absent
  writeFault : Option (String × FileNode) := none
  renameFault : Option String := none

/-- Modelled from the spec: Go standard library `os.WriteFile` ("write the
buffer to a temporary sibling file").  A write touches the path it is given
and no other path; when it succeeds the path holds a file with the data. -/
def WriteFile (d : Disk) (name data : GoString) : Disk × Option GoError :=
  match d.writeFault with
  | some (msg, left) =>
    ({ d with files := Function.update d.files name left }, some (.lib msg false))
  | none => ({ d with files := Function.update d.files name (.file data) }, none)

/-- Modelled from the spec: Go standard library `os.Rename` ("atomically
rename it over the target path").  A rename that fails changes nothing; one
that succeeds moves the node at `oldpath` to `newpath`, replacing what was
there.  Renaming a path that holds nothing fails. -/
def Rename (d : Disk) (oldpath newpath : GoString) : Disk × Option GoError :=
  match d.renameFault with
  | some msg => (d, some (.lib msg false))
  | none =>
    match d.files oldpath with
    | .absent => (d, some (.lib "no such file or directory" true))
    | node =>
      ({ d with files := Function.update (Function.update d.files oldpath .absent) newpath node },
        none)

/-- `PersistCniServerState`.  `podInterfaceMap` is the Go map given as the
list of its entries in the order in which the `range` loop visits them (Go
leaves this order unspecified).  The result is the file system afterwards
and the returned error (`none` is nil). -/
def PersistCniServerState (Pack : Packer) (d : Disk)
    (podInterfaceMap : List (GoString × LocalPodSpec)) (fname : GoString) :
    Disk × Option GoError :=
  let tmpFile := fname ++ [126]
  let state : SavedState :=
    { Version := CniServerStateFileVersion,
      SpecsCount := podInterfaceMap.length,
      Specs := podInterfaceMap.map (fun entry => entry.2) }
  match Pack state with
  | .error err => (d, some (.wrapf err "Error encoding pod data"))
  | .ok buf =>
    let written := WriteFile d tmpFile buf
    match written.2 with
    | some err => (written.1, some (.wrapf err "Error writing file %s"))
    | none =>
      let renamed := Rename written.1 tmpFile fname
      match renamed.2 with
      | some err => (renamed.1, some (.wrapf err "Error moving file %s"))
      | none => (renamed.1, none)

/-! ## `vpplink/types/wireguard.go` -/

/-- Go standard library `net` constant `v4InV6Prefix`: the first 12 bytes
of an IPv4 address in its 16-byte form. -/
def v4InV6Prefix : GoString := [0, 0, 0, 0, 0, 0, 0, 0, 0, 0, 255, 255]

/-- Go standard library `net.IP.Equal`: "whether ip and x are the same IP
address.  An IPv4 address and that same address in IPv6 form are considered
to be equal." -/
def IP.Equal (ip x : IP) : Bool :=
  if ip.length = x.length then ip == x
  else if ip.length = 4 ∧ x.length = 16 then x.take 12 == v4InV6Prefix && ip == x.drop 12
  else if ip.length = 16 ∧ x.length = 4 then ip.take 12 == v4InV6Prefix && ip.drop 12 == x
  else false

/-- The type of Go standard library `(*net.IPNet).String`, the text form of
a prefix; the function is a parameter of the methods of `WireguardPeer`. -/
abbrev IPNetString := IPNet → GoString

/-- A Go `map[string]bool`: the value stored under each key, `none` for a
key that is not in the map. -/
abbrev StringSet := GoString → Option Bool

/-- The struct `WireguardPeer`.  The byte slice `PublicKey` is the list of
its bytes (the nil slice and the empty slice are both `[]`). -/
structure WireguardPeer where
  PublicKey : GoString := []
  Port : Nat := 0
  PersistentKeepalive : Int := 0
  TableID : Nat := 0
  Addr : IP := []
  SwIfIndex : Nat := 0
  Index : Nat := 0
  AllowedIPs : List IPNet := []
deriving DecidableEq, Repr

/-- `(t *WireguardPeer) allowedIpsMap`. -/
def WireguardPeer.allowedIpsMap (str : IPNetString) (t : WireguardPeer) : StringSet :=
  t.AllowedIPs.foldl (fun m aip => Function.update m (str aip) (some true)) (fun _ => none)

/-- `(t *WireguardPeer) Equal` for a non-nil receiver `t`; `o = none` is the
nil pointer.  `bytes.Equal` is equality of the byte lists.  The final loop
returns false at the first entry of `o.AllowedIPs` whose text is not a key of
the map, and true when there is none. -/
def WireguardPeer.Equal (str : IPNetString) (t : WireguardPeer) (o : Option WireguardPeer) :
    Bool :=
  match o with
  | none => false
  | some o =>
    if o.Index ≠ t.Index then false
    else if o.PublicKey ≠ t.PublicKey then false
    else if o.Port ≠ t.Port then false
    else if o.TableID ≠ t.TableID then false
    else if o.SwIfIndex ≠ t.SwIfIndex then false
    else if !IP.Equal o.Addr t.Addr then false
    else if o.PersistentKeepalive ≠ t.PersistentKeepalive then false
    else if t.AllowedIPs.length ≠ o.AllowedIPs.length then false
    else
      let m := t.allowedIpsMap str
      o.AllowedIPs.all (fun aip => (m (str aip)).isSome)

/-- `(t *WireguardPeer) AddAllowedIP`: the peer afterwards. -/
def WireguardPeer.AddAllowedIP (str : IPNetString) (t : WireguardPeer) (addr : IPNet) :
    WireguardPeer :=
  let m := t.allowedIpsMap str
  if !(m (str addr)).isSome then { t with AllowedIPs := t.AllowedIPs ++ [addr] } else t

/-- `(t *WireguardPeer) DelAllowedIP`: the peer afterwards. -/
def WireguardPeer.DelAllowedIP (str : IPNetString) (t : WireguardPeer) (addr : IPNet) :
    WireguardPeer :=
  let allowedIps := t.AllowedIPs.foldl
    (fun allowedIps aip => if str aip ≠ str addr then allowedIps ++ [aip] else allowedIps) []
  { t with AllowedIPs := allowedIps }

/-! ## `vpp-manager/startup/startup.go` -/

/-- Modelled from the spec: `config.UplinkInterfaceSpec` is declared in a
package that is not embedded here; the fields are those the sources read or
write. -/
structure UplinkInterfaceSpec where
  InterfaceName : GoString := []
  VppDriver : GoString := []
  NewDriverName : GoString := []
  IsMain : Bool := false
  NumRxQueues : Int := 0
  NumTxQueues : Int := 0
  Mtu : Int := 0
deriving DecidableEq, Repr

/-- Modelled from the spec: `config.VppManagerParams` is declared in a
package that is not embedded here; the fields are those `NewVppManagerParams`
writes.  `LoadedDrivers` lists the assignments to the map in order. -/
structure VppManagerParams where
  NodeAnnotations : List (GoString × GoString) := []
  UplinksSpecs : List UplinkInterfaceSpec := []
  LoadedDrivers : List (GoString × Bool) := []
  KernelVersion : Option GoString := none
  AvailableHugePages : Int := 0
  InitialVfioEnableUnsafeNoIommuMode : GoString := []
deriving DecidableEq, Repr

/-- What `NewVppManagerParams` reads from outside the embedded sources: the
configuration variables of package `config`, the results of the functions
of package `utils`, `strings.ToLower`, and what
`uplink.SetUplinkInterfaceIndex(index)` followed by `uplink.Validate(nil)`
returns for the uplink at a given index. -/
structure StartupEnv where
  FetchNodeAnnotations : List (GoString × GoString) := []
  InterfaceVar : GoString := []
  NativeDriver : GoString := []
  SwapDriver : GoString := []
  UplinkInterfaces : List UplinkInterfaceSpec := []
  ToLower : GoString → GoString := id
  Validate : Nat → UplinkInterfaceSpec → Option GoError := fun _ _ => none
  DriverVfioPci : GoString := []
  DriverUioPciGeneric : GoString := []
  IsDriverLoaded : GoString → Bool × Option GoError := fun _ => (false, none)
  GetOsKernelVersion : Option GoString × Option GoError := (none, none)
  GetNrHugepages : Int × Option GoError := (0, none)
  GetVfioEnableUnsafeNoIommuMode : GoString × Option GoError := ([], none)

/-- `NewVppManagerParams`: the loop that appends the configured uplinks and
counts those tagged main; the state is `(params.UplinksSpecs, isMainCount)`. -/
def NewVppManagerParams.uplinks :
    List UplinkInterfaceSpec → List UplinkInterfaceSpec × Nat → List UplinkInterfaceSpec × Nat
  | [], state => state
  | uplink :: rest, (specs, isMainCount) =>
    NewVppManagerParams.uplinks rest
      (specs ++ [uplink], if uplink.IsMain then isMainCount + 1 else isMainCount)

/-- `NewVppManagerParams`: the loop that validates the uplinks, from the
index `index` on; the result is the first validation error.  The loop
variable is a copy, so the list is not changed. -/
def NewVppManagerParams.validate (env : StartupEnv) : Nat → List UplinkInterfaceSpec →
    Option GoError
  | _, [] => none
  | index, uplink :: rest =>
    match env.Validate index uplink with
    | some err => some err
    | none => NewVppManagerParams.validate env (index + 1) rest

/-- `NewVppManagerParams`, from the validation loop to the end.  The result
is the returned parameters, or the message of the `log.Panicf` that ends the
call. -/
def NewVppManagerParams.finish (env : StartupEnv) (params : VppManagerParams) :
    Except String VppManagerParams :=
  match NewVppManagerParams.validate env 0 params.UplinksSpecs with
  | some _ => .error "error validating uplink %s %s"
  | none =>
    let vfioLoaded := env.IsDriverLoaded env.DriverVfioPci
    let uioLoaded := env.IsDriverLoaded env.DriverUioPciGeneric
    let params := { params with
      LoadedDrivers :=
        [(env.DriverVfioPci, vfioLoaded.1), (env.DriverUioPciGeneric, uioLoaded.1)] }
    let kernel := env.GetOsKernelVersion
    let params :=
      match kernel.2 with
      | some _ => params
      | none => { params with KernelVersion := kernel.1 }
    let params := { params with AvailableHugePages := env.GetNrHugepages.1 }
    let params := { params with
      InitialVfioEnableUnsafeNoIommuMode := env.GetVfioEnableUnsafeNoIommuMode.1 }
    .ok params

/-- The uplink `NewVppManagerParams` builds from the deprecated variables
`CALICOVPP_INTERFACE`, `CALICOVPP_NATIVE_DRIVER` and `CALICOVPP_SWAP_DRIVER`. -/
def StartupEnv.mainInterfaceSpec (env : StartupEnv) : UplinkInterfaceSpec :=
  { InterfaceName := env.InterfaceVar,
    VppDriver := env.ToLower env.NativeDriver,
    NewDriverName := env.SwapDriver }

/-- `NewVppManagerParams`.  The result is the returned parameters, or the
message of the `log.Panicf` that ends the call. -/
def NewVppManagerParams (env : StartupEnv) : Except String VppManagerParams :=
  let params : VppManagerParams := { NodeAnnotations := env.FetchNodeAnnotations }
  let params : VppManagerParams :=
    if env.InterfaceVar ≠ [] then { params with UplinksSpecs := [env.mainInterfaceSpec] }
    else params
  let counted := NewVppManagerParams.uplinks env.UplinkInterfaces (params.UplinksSpecs, 0)
  let params := { params with UplinksSpecs := counted.1 }
  let isMainCount := counted.2
  match params.UplinksSpecs with
  | [] =>
    .error "No interface specified. Specify an interface through the environment variable"
  | first :: others =>
    if isMainCount = 0 then
      NewVppManagerParams.finish env
        { params with UplinksSpecs := { first with IsMain := true } :: others }
    else if isMainCount > 1 then .error "Too many interfaces tagged Main"
    else NewVppManagerParams.finish env params

/-! ## Definitions used to state the theorems -/

/-- The upstream table `CreatePodVRF` routes the pod VRF of the family with
index `idx` into, when the lookup neither fails nor panics. -/
def Server.podVRFIndex (s : Server) (podSpec : LocalPodSpec) (idx : Nat) : Nat :=
  if podSpec.NetworkName = [] then PodVRFIndex
  else
    match s.networkDefinitions podSpec.NetworkName with
    | some (.networkDefinition (some networkDefinition)) => networkDefinition.PodVRF.Tables idx
    | _ => 0

/-- The six dataplane calls of `CreatePodVRF`, in order, for the IDs `id4`
and `id6` of the allocated VRFs. -/
def Server.podVRFCalls (lib : Sha512Base64) (s : Server) (podSpec : LocalPodSpec)
    (id4 id6 : Nat) : List Call :=
  [ .AllocateVRF false (podSpec.GetVrfTag lib IPFamilyV4 []),
    .AllocateVRF true (podSpec.GetVrfTag lib IPFamilyV6 []),
    .AddDefaultRouteViaTable id4 (s.podVRFIndex podSpec 0) false,
    .AddDefaultMRouteViaTable id4 (s.podVRFIndex podSpec 0) false,
    .AddDefaultRouteViaTable id6 (s.podVRFIndex podSpec 1) true,
    .AddDefaultMRouteViaTable id6 (s.podVRFIndex podSpec 1) true ]

/-- The undo entry of each of the six calls of `CreatePodVRF`, in the order
of the calls. -/
def Server.podVRFUndos (s : Server) (podSpec : LocalPodSpec) (id4 id6 : Nat) : List Call :=
  [ .DelVRF id4 false,
    .DelVRF id6 true,
    .DelDefaultRouteViaTable id4 (s.podVRFIndex podSpec 0) false,
    .DelDefaultMRouteViaTable id4 (s.podVRFIndex podSpec 0) false,
    .DelDefaultRouteViaTable id6 (s.podVRFIndex podSpec 1) true,
    .DelDefaultMRouteViaTable id6 (s.podVRFIndex podSpec 1) true ]

/-- The static neighbor entry `RoutePodInterface` installs for an address. -/
def podNeighbor (swIfIndex : Nat) (ip : IP) : Neighbor :=
  { SwIfIndex := swIfIndex, IP := ip, HardwareAddr := ContainerSideMacAddress,
    Flags := .IPNeighborStatic }

/-- The route `AddRPFRoutes` adds, and `DeactivateStrictRPF` deletes, for a
container address: in the RPF VRF of the family of the address. -/
def LocalPodSpec.rpfRoute (podSpec : LocalPodSpec) (containerIP : IPNet) : Route :=
  ⟨containerIP, podSpec.pathsToPod containerIP,
    podSpec.GetRPFVrfID (IPFamilyFromIPNet containerIP)⟩

/-- The route `AddRPFRoutes` adds, and `DeactivateStrictRPF` deletes, for an
allowed source while it handles the container address `containerIP`. -/
def LocalPodSpec.spoofRoute (podSpec : LocalPodSpec) (containerIP allowedSource : IPNet) :
    Route :=
  ⟨allowedSource, podSpec.pathsToPod containerIP,
    podSpec.GetRPFVrfID (IPFamilyFromIPNet containerIP)⟩

/-- The routes of the RPF VRFs of a pod, in the order in which `AddRPFRoutes`
adds them: for every container address its route, then one route per prefix
the parser returns for the annotation (when there is an annotation). -/
def LocalPodSpec.rpfRoutes (parse : SpoofParser) (podSpec : LocalPodSpec) : List Route :=
  podSpec.GetContainerIps.flatMap (fun containerIP =>
    podSpec.rpfRoute containerIP ::
      (if podSpec.AllowedSpoofingPrefixes ≠ [] then
        (parse podSpec.AllowedSpoofingPrefixes).1.map (podSpec.spoofRoute containerIP)
      else []))

/-- The list version of `rpfRoutes`: the RPF routes for the container
addresses `ips`. -/
def LocalPodSpec.rpfRoutesOf (parse : SpoofParser) (podSpec : LocalPodSpec)
    (ips : List IPNet) : List Route :=
  ips.flatMap (fun containerIP =>
    podSpec.rpfRoute containerIP ::
      (if podSpec.AllowedSpoofingPrefixes ≠ [] then
        (parse podSpec.AllowedSpoofingPrefixes).1.map (podSpec.spoofRoute containerIP)
      else []))

/-- The pod spec after `CreatePodRPFVRF` has allocated both RPF VRFs on the
dataplane `dp`. -/
def LocalPodSpec.withRPFVrfs (podSpec : LocalPodSpec) (dp : Dataplane) : LocalPodSpec :=
  (podSpec.SetRPFVrfID dp.freshVrfID IPFamilyV4).SetRPFVrfID (dp.freshVrfID + 1) IPFamilyV6

/-- The route of a `RouteAdd` call, `none` for every other call. -/
def Call.addedRoute : Call → Option Route
  | .RouteAdd route => some route
  | _ => none

/-- The provisioning steps of a layer-3 pod, in order, each on the client,
the spec and the cleanup stack the step before left: `CreatePodVRF`,
`RoutePodInterface(swIfIndex, isL3 = true, inPodVrf = true)` and
`CreateVRFRoutesToPod`.  A step that does not return nil ends the sequence. -/
def Server.provisionL3 (lib : Sha512Base64) (s : Server) (podSpec : LocalPodSpec)
    (stack : CleanupStack) (swIfIndex : Nat) : Outcome :=
  let vrf := s.CreatePodVRF lib podSpec stack
  match vrf.result with
  | .nil =>
    let routed := Server.RoutePodInterface { s with vpp := vrf.vpp } vrf.podSpec vrf.stack
      swIfIndex true true
    match routed.result with
    | .nil => Server.CreateVRFRoutesToPod { s with vpp := routed.vpp } routed.podSpec routed.stack
    | _ => routed
  | _ => vrf

/-- The teardown steps of a layer-3 pod, in order, each on the client the
step before left: `DeleteVRFRoutesToPod`,
`UnroutePodInterface(swIfIndex, inPodVrf = true)` and `DeletePodVRF`. -/
def Server.teardownL3 (s : Server) (podSpec : LocalPodSpec) (swIfIndex : Nat) : Teardown :=
  let unrouted := Server.UnroutePodInterface
    { s with vpp := (s.DeleteVRFRoutesToPod podSpec).toVppLink } podSpec swIfIndex true
  match unrouted.panicked with
  | some msg => ⟨some msg, unrouted.vpp, unrouted.podSpec⟩
  | none => Server.DeletePodVRF { s with vpp := unrouted.vpp } podSpec

/-- The pod spec with its five resource handles (`V4VrfID`, `V6VrfID`,
`V4RPFVrfID`, `V6RPFVrfID`, `PblIndex`) set to 0: two specs agree on every
other field exactly when these are equal. -/
def LocalPodSpec.withoutHandles (podSpec : LocalPodSpec) : LocalPodSpec :=
  { podSpec with V4VrfID := 0, V6VrfID := 0, V4RPFVrfID := 0, V6RPFVrfID := 0, PblIndex := 0 }

/-- The client of an `AddPblClient` call, `none` for every other call. -/
def Call.addedClient : Call → Option PblClient
  | .AddPblClient client => some client
  | _ => none

/-- What the calls `calls` return when they are issued in this order from
the client `v`: each call with its error and its value. -/
def VppLink.returns : VppLink → List Call → List (Call × Option GoError × Nat)
  | _, [] => []
  | v, c :: rest => (c, (v.call c).err, (v.call c).value) :: VppLink.returns (v.call c).vpp rest

/-- The index a successful `AddPblClient` call returned, `none` for every
other call and for a failed one. -/
def pblIndexOf : Call × Option GoError × Nat → Option Nat
  | (.AddPblClient _, none, index) => some index
  | _ => none

/-- The indexes the successful `AddPblClient` calls among `calls` return, in
order, when `calls` are issued from the client `v`. -/
def VppLink.pblIndexes (v : VppLink) (calls : List Call) : List Nat :=
  (v.returns calls).filterMap pblIndexOf

/-- The snapshot `PersistCniServerState` encodes for a map. -/
def savedStateOf (podInterfaceMap : List (GoString × LocalPodSpec)) : SavedState :=
  { Version := CniServerStateFileVersion,
    SpecsCount := podInterfaceMap.length,
    Specs := podInterfaceMap.map (fun entry => entry.2) }

/-- The uplinks `NewVppManagerParams` collects, before it tags one as main:
the uplink of the deprecated variables when `CALICOVPP_INTERFACE` is set,
then the configured uplinks. -/
def StartupEnv.collected (env : StartupEnv) : List UplinkInterfaceSpec :=
  (if env.InterfaceVar ≠ [] then [env.mainInterfaceSpec] else []) ++ env.UplinkInterfaces

/-- The number of configured uplinks that are tagged main. -/
def StartupEnv.taggedMain (env : StartupEnv) : Nat :=
  (env.UplinkInterfaces.filter (fun uplink => uplink.IsMain)).length

/-! ## Example inputs -/

/-- A stand-in digest for the examples: 88 copies of the length of the text
(as a byte). -/
def lengthDigest : Sha512Base64 where
  encode text := List.replicate 88 (Fin.ofNat text.length)
  length_encode _ := List.length_replicate _ _

/-- The specs of the tag collision: the concatenation `NetnsName ++ InterfaceName`
is the same (`"x" ++ "a"^60 = "xa" ++ "a"^59`). -/
def tagSpecA : LocalPodSpec := { NetnsName := [120], InterfaceName := List.replicate 60 97 }

/-- The second spec of the tag collision. -/
def tagSpecB : LocalPodSpec := { NetnsName := [120, 97], InterfaceName := List.replicate 59 97 }

/-- A tag collision between short names: the netns is a slash and one dash,
the interface name two dashes. -/
def tagSpecC : LocalPodSpec := { NetnsName := [47, 45], InterfaceName := [45, 45] }

/-- The other spec of the short tag collision: the netns is a slash and two
dashes, the interface name one dash. -/
def tagSpecD : LocalPodSpec := { NetnsName := [47, 45, 45], InterfaceName := [45] }

/-- The specs of the key collision: `"a,if:b"` / `"c"` and `"a"` / `"b,if:c"`. -/
def keySpecA : LocalPodSpec :=
  { NetnsName := [97, 44, 105, 102, 58, 98], InterfaceName := [99] }

/-- The second spec of the key collision. -/
def keySpecB : LocalPodSpec :=
  { NetnsName := [97], InterfaceName := [98, 44, 105, 102, 58, 99] }

/-- A spec with the key of `keySpecB` and another MTU. -/
def keySpecC : LocalPodSpec := { keySpecB with Mtu := 1500 }

/-- The path `"state"` used by the examples. -/
def statePath : GoString := [115, 116, 97, 116, 101]

/-- A file system whose only file, at `statePath`, has the given content. -/
def singleFile (content : GoString) : FileSystem :=
  fun name => if name = statePath then .file content else .absent

/-- A decoder of the record part that accepts only the snapshot with no
record (count 0 and no further byte). -/
def noRecords (version count : Int) (rest : GoString) : Unpacked :=
  if count = 0 ∧ rest = [] then .ok { Version := version, SpecsCount := 0, Specs := [] }
  else .error (.lib "EOF" false)

/-- The version header for version 10 followed by the record count -1. -/
def negativeCountV10 : GoString := [0, 0, 0, 10, 255, 255, 255, 255]

/-- The version header alone, holding version 10. -/
def headerV10 : GoString := [0, 0, 0, 10]

/-- An empty snapshot written with version 10. -/
def emptySnapshotV10 : GoString := [0, 0, 0, 10, 0, 0, 0, 0]

/-- A pod on the default network: netns `"/ns"`, interface `"eth0"`. -/
def podDefaultNet : LocalPodSpec :=
  { NetnsName := [47, 110, 115], InterfaceName := [101, 116, 104, 48] }

/-- A pod whose IPv4 VRF handles hold 7 and 9. -/
def podWithHandles : LocalPodSpec := { podDefaultNet with V4VrfID := 7, V4RPFVrfID := 9 }

/-- A pod with the single container address 10.1.2.3. -/
def podOneAddress : LocalPodSpec := { ContainerIps := [{ IP := [10, 1, 2, 3] }] }

/-- The route `RoutePodInterface` adds for `podOneAddress` through interface 5. -/
def routeOneAddress : Route :=
  { Dst := { IP := [10, 1, 2, 3], Mask := [255, 255, 255, 255] },
    Paths := [{ SwIfIndex := 5 }], Table := 0 }

/-- A server over an empty dataplane whose call number 3 (the fourth call) fails. -/
def failFourth : Server := { vpp := { faults := fun n => if n = 3 then some "no memory" else none } }

/-- A server whose every dataplane call fails and whose failing allocations
return 0. -/
def failAll : Server := { vpp := { faults := fun _ => some "no memory", failValue := 0 } }

/-- The annotation text `["10.2.0.0/16"]`. -/
def spoofAnnotation : GoString :=
  [91, 34, 49, 48, 46, 50, 46, 48, 46, 48, 47, 49, 54, 34, 93]

/-- The prefix 10.2.0.0/16. -/
def spoofPrefix : IPNet := { IP := [10, 2, 0, 0], Mask := [255, 255, 0, 0] }

/-- A parser that returns the prefix 10.2.0.0/16 for every annotation. -/
def parsePrefix : SpoofParser := fun _ => ([spoofPrefix], none)

/-- A parser that fails on every annotation, returning no prefix. -/
def parseFails : SpoofParser := fun _ => ([], some (.errorf "failed to parse annotation"))

/-- A pod with the container address 10.1.2.3, the TunTap interface 5, no
memif interface and the annotation `spoofAnnotation`. -/
def podSpoof : LocalPodSpec :=
  { ContainerIps := [{ IP := [10, 1, 2, 3] }], TunTapSwIfIndex := 5, MemifSwIfIndex := InvalidID,
    AllowedSpoofingPrefixes := spoofAnnotation }

/-- The container prefix 10.1.2.3/32. -/
def podSpoofAddress : IPNet := { IP := [10, 1, 2, 3], Mask := [255, 255, 255, 255] }

/-- `podSpoof` after a successful `ActivateStrictRPF` on the empty dataplane:
the RPF VRFs are 3 and 4. -/
def podSpoofActive : LocalPodSpec := { podSpoof with V4RPFVrfID := 3, V6RPFVrfID := 4 }

/-- A dual-stack pod: the container addresses 10.1.2.3 and fd00::1. -/
def podDualStack : LocalPodSpec :=
  { ContainerIps := [{ IP := [10, 1, 2, 3] },
      { IP := [253, 0, 0, 0, 0, 0, 0, 0, 0, 0, 0, 0, 0, 0, 0, 1] }] }

/-- The port-filter client of `podDualStack` for 10.1.2.3 through interface 7. -/
def pblClientV4 : PblClient := ⟨InvalidID, 0, [10, 1, 2, 3], ⟨[], 7, 0⟩, []⟩

/-- The port-filter client of `podDualStack` for fd00::1 through interface 7. -/
def pblClientV6 : PblClient :=
  ⟨InvalidID, 0, [253, 0, 0, 0, 0, 0, 0, 0, 0, 0, 0, 0, 0, 0, 0, 1], ⟨[], 7, 0⟩, []⟩

/-- A dual-stack pod with the annotation `spoofAnnotation`: the container
addresses 10.1.2.3 and fd00::1, the TunTap interface 5, no memif interface. -/
def podDualSpoof : LocalPodSpec :=
  { podSpoof with ContainerIps := podDualStack.ContainerIps }

/-- A stand-in for `(*net.IPNet).String` in the examples: the bytes of the
address, a slash, the bytes of the mask. -/
def exampleString : IPNetString := fun ipNet => ipNet.IP ++ [47] ++ ipNet.Mask

/-- The prefix 10.0.0.0/8. -/
def prefixA : IPNet := { IP := [10, 0, 0, 0], Mask := [255, 0, 0, 0] }

/-- The prefix 192.168.0.0/16. -/
def prefixB : IPNet := { IP := [192, 168, 0, 0], Mask := [255, 255, 0, 0] }

/-- A peer that allows 10.0.0.0/8 and 192.168.0.0/16. -/
def peerAB : WireguardPeer := { AllowedIPs := [prefixA, prefixB] }

/-- The same peer with its allowed prefixes in the other order. -/
def peerBA : WireguardPeer := { AllowedIPs := [prefixB, prefixA] }

/-- A peer whose list holds 10.0.0.0/8 twice. -/
def peerAA : WireguardPeer := { AllowedIPs := [prefixA, prefixA] }

/-- A pod with the container address 10.1.2.3 on the network named `"n"`,
which no registry of the examples holds. -/
def podUnknownNetAddress : LocalPodSpec := { podOneAddress with NetworkName := [110] }

/-- A pod with the container address 10.1.2.3, the IPv4 pod VRF 3, the former
client index 9 and one port configuration: ports 80 to 90 of protocol 6. -/
def podPorts : LocalPodSpec :=
  { podOneAddress with IfPortConfigs := [{ Start := 80, End := 90, Proto := 6 }],
                       V4VrfID := 3, PblIndex := 9 }

/-- The port-filter client of `podPorts` through interface 7. -/
def pblClientPorts : PblClient := ⟨InvalidID, 3, [10, 1, 2, 3], ⟨[], 7, 0⟩, [⟨80, 90, 6⟩]⟩

/-! ## The dataplane client: helper lemmas -/

theorem call_ok (dp : Dataplane) (t : List Call) (faults : Nat → Option String) (fv : Nat)
    (c : Call) (h : faults t.length = none) :
    VppLink.call ⟨dp, t, faults, fv⟩ c =
      ⟨none, (dp.apply c).2, ⟨(dp.apply c).1, t ++ [c], faults, fv⟩⟩ := by
  simp [VppLink.call, h]

theorem call_fail (dp : Dataplane) (t : List Call) (faults : Nat → Option String) (fv : Nat)
    (c : Call) (e : String) (h : faults t.length = some e) :
    VppLink.call ⟨dp, t, faults, fv⟩ c =
      ⟨some (.lib e false), fv, ⟨dp, t ++ [c], faults, fv⟩⟩ := by
  simp [VppLink.call, h]

theorem call_trace (v : VppLink) (c : Call) : (v.call c).vpp.trace = v.trace ++ [c] := by
  unfold VppLink.call
  split <;> rfl

theorem apply_AllocateVRF_snd (dp : Dataplane) (isIP6 : Bool) (tag : GoString) :
    (dp.apply (.AllocateVRF isIP6 tag)).2 = dp.freshVrfID := rfl

theorem freshVrfID_allocate (dp : Dataplane) (isIP6 : Bool) (tag : GoString) :
    (dp.apply (.AllocateVRF isIP6 tag)).1.freshVrfID = dp.freshVrfID + 1 := by
  simp [Dataplane.apply, Dataplane.freshVrfID]

theorem freshVrfID_cons_fresh (dp : Dataplane) (isIP6 : Bool) (tag : GoString)
    (r : List Route) (d m : List (Nat × Nat × Bool)) (n : List Neighbor)
    (p : List (Nat × PblClient)) (u : List (Nat × Nat)) :
    Dataplane.freshVrfID ⟨⟨dp.freshVrfID, isIP6, tag⟩ :: dp.vrfs, r, d, m, n, p, u⟩ =
      dp.freshVrfID + 1 := by
  simp [Dataplane.freshVrfID]

theorem GetVrfTag_SetVrfID (lib : Sha512Base64) (ps : LocalPodSpec) (id : Nat)
    (f g : IPFamily) (custom : GoString) :
    (ps.SetVrfID id f).GetVrfTag lib g custom = ps.GetVrfTag lib g custom := by
  unfold LocalPodSpec.SetVrfID LocalPodSpec.GetVrfTag
  split <;> rfl

theorem GetVrfID_SetVrfID_V4 (ps : LocalPodSpec) (id : Nat) :
    (ps.SetVrfID id IPFamilyV4).GetVrfID IPFamilyV4 = id ∧
    (ps.SetVrfID id IPFamilyV4).GetVrfID IPFamilyV6 = ps.GetVrfID IPFamilyV6 := by
  simp [LocalPodSpec.SetVrfID, LocalPodSpec.GetVrfID, IPFamilyV4, IPFamilyV6]

theorem GetVrfID_SetVrfID_V6 (ps : LocalPodSpec) (id : Nat) :
    (ps.SetVrfID id IPFamilyV6).GetVrfID IPFamilyV6 = id ∧
    (ps.SetVrfID id IPFamilyV6).GetVrfID IPFamilyV4 = ps.GetVrfID IPFamilyV4 := by
  simp [LocalPodSpec.SetVrfID, LocalPodSpec.GetVrfID, IPFamilyV4, IPFamilyV6]

theorem NetworkName_SetVrfID (ps : LocalPodSpec) (id : Nat) (f : IPFamily) :
    (ps.SetVrfID id f).NetworkName = ps.NetworkName := by
  unfold LocalPodSpec.SetVrfID
  split <;> rfl

theorem IsIP6_families : IPFamilyV4.IsIP6 = false ∧ IPFamilyV6.IsIP6 = true := ⟨rfl, rfl⟩

/-! ## C1: rollback of `CreatePodVRF` -/

/-- C1.  Number the dataplane calls of `CreatePodVRF` from 0 (AllocateVRF for
IPv4, AllocateVRF for IPv6, then per family AddDefaultRouteViaTable and
AddDefaultMRouteViaTable).  If call `k` is the first to fail (for `k ≥ 2`
the network name is empty or registered, so that the call is reached), then
`CreatePodVRF` returns an error, the calls it issued are exactly calls
`0..k`, the cleanup stack has grown by exactly the undo entries of calls
`0..k-1`, last pushed on top, and executing these entries (when no later
call fails) gives back the dataplane state from before the call. -/
theorem CreatePodVRF_rollback (lib : Sha512Base64) (s : Server) (podSpec : LocalPodSpec)
    (stack : CleanupStack) (k : Nat) (e : String)
    (hk : k < 6)
    (hnet : 2 ≤ k → podSpec.NetworkName = [] ∨
      ∃ nd, s.networkDefinitions podSpec.NetworkName = some (.networkDefinition (some nd)))
    (hok : ∀ j, j < k → s.vpp.faults (s.vpp.trace.length + j) = none)
    (hfail : s.vpp.faults (s.vpp.trace.length + k) = some e) :
    (∃ err, (s.CreatePodVRF lib podSpec stack).result = .error err) ∧
    (s.CreatePodVRF lib podSpec stack).vpp.trace =
      s.vpp.trace ++ (s.podVRFCalls lib podSpec s.vpp.dp.freshVrfID
        (s.vpp.dp.freshVrfID + 1)).take (k + 1) ∧
    (s.CreatePodVRF lib podSpec stack).stack =
      ((s.podVRFUndos podSpec s.vpp.dp.freshVrfID (s.vpp.dp.freshVrfID + 1)).take k).reverse
        ++ stack ∧
    ((∀ j, k < j → s.vpp.faults (s.vpp.trace.length + j) = none) →
      (CleanupStack.Execute
        ((s.podVRFUndos podSpec s.vpp.dp.freshVrfID (s.vpp.dp.freshVrfID + 1)).take k).reverse
        (s.CreatePodVRF lib podSpec stack).vpp).dp = s.vpp.dp) := by
  obtain ⟨⟨dp, t, faults, fv⟩, reg⟩ := s
  simp only at hok hfail hnet ⊢
  have cf := fun dp t fv c => call_fail dp t faults fv c e
  have h0 : 0 < k → faults t.length = none := by simpa using hok 0
  have h1 := hok 1
  have h2 := hok 2
  have h3 := hok 3
  have h4 := hok 4
  have hreg : 2 ≤ k → podSpec.NetworkName ≠ [] →
      ∃ nd, reg podSpec.NetworkName = some (.networkDefinition (some nd)) :=
    fun h2k hne => (hnet h2k).resolve_left hne
  clear hok hnet
  refine ⟨?_, ?_, ?_, fun hlate => ?_⟩
  case refine_4 =>
    have hl1 := hlate 1
    have hl2 := hlate 2
    have hl3 := hlate 3
    have hl4 := hlate 4
    have hl5 := hlate 5
    have hl6 := hlate 6
    have hl7 := hlate 7
    have hl8 := hlate 8
    have hl9 := hlate 9
    have hl10 := hlate 10
    by_cases hname : podSpec.NetworkName = []
    · interval_cases k <;> simp at h0 h1 h2 h3 h4 hfail hl1 hl2 hl3 hl4 hl5 hl6 hl7 hl8 hl9 hl10 <;>
        simp [Server.CreatePodVRF, IPFamilies, Server.CreatePodVRF.allocate,
        Server.CreatePodVRF.defaultRoutes, call_ok, cf, h0, h1, h2, h3, h4, hfail,
        CleanupStack.Push, GetVrfTag_SetVrfID, GetVrfID_SetVrfID_V4, GetVrfID_SetVrfID_V6,
        NetworkName_SetVrfID, IsIP6_families, freshVrfID_allocate, apply_AllocateVRF_snd,
        Server.podVRFCalls, Server.podVRFUndos, Server.podVRFIndex, hname,
          CleanupStack.Execute, Dataplane.apply, freshVrfID_cons_fresh, hl1, hl2, hl3, hl4, hl5, hl6, hl7, hl8, hl9, hl10]
    · rcases Nat.lt_or_ge k 2 with hk2 | hk2
      · interval_cases k <;>
          simp at h0 h1 h2 h3 h4 hfail hl1 hl2 hl3 hl4 hl5 hl6 hl7 hl8 hl9 hl10 <;>
          simp [Server.CreatePodVRF, IPFamilies, Server.CreatePodVRF.allocate,
        Server.CreatePodVRF.defaultRoutes, call_ok, cf, h0, h1, h2, h3, h4, hfail,
        CleanupStack.Push, GetVrfTag_SetVrfID, GetVrfID_SetVrfID_V4, GetVrfID_SetVrfID_V6,
        NetworkName_SetVrfID, IsIP6_families, freshVrfID_allocate, apply_AllocateVRF_snd,
        Server.podVRFCalls, Server.podVRFUndos, Server.podVRFIndex, hname,
            CleanupStack.Execute, Dataplane.apply, freshVrfID_cons_fresh, hl1, hl2, hl3, hl4, hl5,
            hl6, hl7, hl8, hl9, hl10]
      · obtain ⟨nd, hnd⟩ := hreg hk2 hname
        interval_cases k <;>
          simp at h0 h1 h2 h3 h4 hfail hl1 hl2 hl3 hl4 hl5 hl6 hl7 hl8 hl9 hl10 <;>
          simp [Server.CreatePodVRF, IPFamilies, Server.CreatePodVRF.allocate,
        Server.CreatePodVRF.defaultRoutes, call_ok, cf, h0, h1, h2, h3, h4, hfail,
        CleanupStack.Push, GetVrfTag_SetVrfID, GetVrfID_SetVrfID_V4, GetVrfID_SetVrfID_V6,
        NetworkName_SetVrfID, IsIP6_families, freshVrfID_allocate, apply_AllocateVRF_snd,
        Server.podVRFCalls, Server.podVRFUndos, Server.podVRFIndex, hname, hnd,
            CleanupStack.Execute, Dataplane.apply, freshVrfID_cons_fresh, hl1, hl2, hl3, hl4, hl5,
            hl6, hl7, hl8, hl9, hl10]
  all_goals
    by_cases hname : podSpec.NetworkName = []
    · interval_cases k <;> simp at h0 h1 h2 h3 h4 hfail <;>
        simp [Server.CreatePodVRF, IPFamilies, Server.CreatePodVRF.allocate,
        Server.CreatePodVRF.defaultRoutes, call_ok, cf, h0, h1, h2, h3, h4, hfail,
        CleanupStack.Push, GetVrfTag_SetVrfID, GetVrfID_SetVrfID_V4, GetVrfID_SetVrfID_V6,
        NetworkName_SetVrfID, IsIP6_families, freshVrfID_allocate, apply_AllocateVRF_snd,
        Server.podVRFCalls, Server.podVRFUndos, Server.podVRFIndex, hname]
    · rcases Nat.lt_or_ge k 2 with hk2 | hk2
      · interval_cases k <;> simp at h0 h1 h2 h3 h4 hfail <;>
          simp [Server.CreatePodVRF, IPFamilies, Server.CreatePodVRF.allocate,
        Server.CreatePodVRF.defaultRoutes, call_ok, cf, h0, h1, h2, h3, h4, hfail,
        CleanupStack.Push, GetVrfTag_SetVrfID, GetVrfID_SetVrfID_V4, GetVrfID_SetVrfID_V6,
        NetworkName_SetVrfID, IsIP6_families, freshVrfID_allocate, apply_AllocateVRF_snd,
        Server.podVRFCalls, Server.podVRFUndos, Server.podVRFIndex, hname]
      · obtain ⟨nd, hnd⟩ := hreg hk2 hname
        interval_cases k <;> simp at h0 h1 h2 h3 h4 hfail <;>
          simp [Server.CreatePodVRF, IPFamilies, Server.CreatePodVRF.allocate,
        Server.CreatePodVRF.defaultRoutes, call_ok, cf, h0, h1, h2, h3, h4, hfail,
        CleanupStack.Push, GetVrfTag_SetVrfID, GetVrfID_SetVrfID_V4, GetVrfID_SetVrfID_V6,
        NetworkName_SetVrfID, IsIP6_families, freshVrfID_allocate, apply_AllocateVRF_snd,
        Server.podVRFCalls, Server.podVRFUndos, Server.podVRFIndex, hname, hnd]

/-- The hypotheses of C1 hold on the default-network pod when the fourth call
(the multicast default route of IPv4) fails. -/
theorem CreatePodVRF_rollback_witness :
    (∃ err, (failFourth.CreatePodVRF lengthDigest podDefaultNet []).result = .error err) ∧
    (failFourth.CreatePodVRF lengthDigest podDefaultNet []).vpp.trace =
      failFourth.vpp.trace ++ (failFourth.podVRFCalls lengthDigest podDefaultNet
        failFourth.vpp.dp.freshVrfID (failFourth.vpp.dp.freshVrfID + 1)).take (3 + 1) ∧
    (failFourth.CreatePodVRF lengthDigest podDefaultNet []).stack =
      ((failFourth.podVRFUndos podDefaultNet failFourth.vpp.dp.freshVrfID
        (failFourth.vpp.dp.freshVrfID + 1)).take 3).reverse ++ [] ∧
    ((∀ j, 3 < j → failFourth.vpp.faults (failFourth.vpp.trace.length + j) = none) →
      (CleanupStack.Execute
        ((failFourth.podVRFUndos podDefaultNet failFourth.vpp.dp.freshVrfID
          (failFourth.vpp.dp.freshVrfID + 1)).take 3).reverse
        (failFourth.CreatePodVRF lengthDigest podDefaultNet []).vpp).dp = failFourth.vpp.dp) :=
  CreatePodVRF_rollback lengthDigest failFourth podDefaultNet [] 3 "no memory" (by decide)
    (fun _ => Or.inl rfl)
    (by intro j hj; interval_cases j <;> rfl)
    rfl

/-! ## C3, C4, C5: `LoadCniServerState` -/

/-- C3 fails as stated.  A file made of the version header alone, holding
version 10, is reported as a decoding error ("Error unpacking"), not as an
unsupported version: the whole content is decoded before the version is
looked at.  A file with the same header followed by the record count -1
makes the decoder, and with it `LoadCniServerState`, panic. -/
theorem LoadCniServerState_header_only :
    int32BE 0 0 0 10 ≠ CniServerStateFileVersion ∧
    (∀ records, LoadCniServerState (strucUnpackHeader records) (singleFile headerV10) statePath =
      .returned [] (some (.wrapf (.lib "EOF" false) "Error unpacking"))) ∧
    ∀ records, LoadCniServerState (strucUnpackHeader records) (singleFile negativeCountV10)
      statePath = .panic "reflect.MakeSlice: negative len" := by
  refine ⟨by decide, fun records => ?_, fun records => ?_⟩
  · simp [LoadCniServerState, ReadFile, singleFile, headerV10, strucUnpackHeader]
  · have h : int32BE 255 255 255 255 < 0 := by decide
    simp [LoadCniServerState, ReadFile, singleFile, negativeCountV10, strucUnpackHeader, h]

/-- C3, amended.  A file whose version header decodes to a value other than 9
is never loaded: whenever `LoadCniServerState` returns, it returns no specs
and a non-nil error.  The error is "unsupported save file version" when the
decoder decodes the content as a whole, and "Error unpacking" (around the
error of the decoder) when the decoder returns an error; when the decoder
panics, as it does on a negative record count, `LoadCniServerState` panics.
The decoder reads the version from the header (`hrec`: a decoded state
carries the version of the header). -/
theorem LoadCniServerState_version_mismatch
    (records : Int → Int → GoString → Unpacked)
    (hrec : ∀ v c rest state, records v c rest = .ok state → state.Version = v)
    (fs : FileSystem) (fname : GoString) (v0 v1 v2 v3 : Byte) (rest : GoString)
    (hread : fs fname = .file (v0 :: v1 :: v2 :: v3 :: rest))
    (hver : int32BE v0 v1 v2 v3 ≠ CniServerStateFileVersion) :
    (∀ specs err, LoadCniServerState (strucUnpackHeader records) fs fname =
      .returned specs err → specs = [] ∧ err ≠ none) ∧
    (∀ state, strucUnpackHeader records (v0 :: v1 :: v2 :: v3 :: rest) = .ok state →
      LoadCniServerState (strucUnpackHeader records) fs fname =
        .returned [] (some (.errorf "unsupported save file version: %d"))) ∧
    (∀ err, strucUnpackHeader records (v0 :: v1 :: v2 :: v3 :: rest) = .error err →
      LoadCniServerState (strucUnpackHeader records) fs fname =
        .returned [] (some (.wrapf err "Error unpacking"))) ∧
    (∀ msg, strucUnpackHeader records (v0 :: v1 :: v2 :: v3 :: rest) = .panic msg →
      LoadCniServerState (strucUnpackHeader records) fs fname = .panic msg) ∧
    (∀ c0 c1 c2 c3 tail, rest = c0 :: c1 :: c2 :: c3 :: tail → int32BE c0 c1 c2 c3 < 0 →
      LoadCniServerState (strucUnpackHeader records) fs fname =
        .panic "reflect.MakeSlice: negative len") := by
  have hV : ∀ state, strucUnpackHeader records (v0 :: v1 :: v2 :: v3 :: rest) = .ok state →
      state.Version ≠ CniServerStateFileVersion := by
    intro state hs
    match rest, hs with
    | c0 :: c1 :: c2 :: c3 :: r, hs =>
      simp only [strucUnpackHeader] at hs
      split at hs
      · cases hs
      · rw [hrec _ _ _ _ hs]
        exact hver
    | [], hs => simp [strucUnpackHeader] at hs
    | [_], hs => simp [strucUnpackHeader] at hs
    | [_, _], hs => simp [strucUnpackHeader] at hs
    | [_, _, _], hs => simp [strucUnpackHeader] at hs
  have hneg : ∀ c0 c1 c2 c3 tail, rest = c0 :: c1 :: c2 :: c3 :: tail →
      int32BE c0 c1 c2 c3 < 0 →
      strucUnpackHeader records (v0 :: v1 :: v2 :: v3 :: rest) =
        .panic "reflect.MakeSlice: negative len" := by
    intro c0 c1 c2 c3 tail hrest hlt
    subst hrest
    simp [strucUnpackHeader, hlt]
  unfold LoadCniServerState
  simp only [ReadFile, hread]
  cases hdec : strucUnpackHeader records (v0 :: v1 :: v2 :: v3 :: rest) with
  | error err =>
    refine ⟨?_, ?_, ?_, ?_, ?_⟩
    · intro specs e h
      simp only [Loaded.returned.injEq] at h
      exact ⟨h.1.symm, by rw [← h.2]; simp⟩
    · intro state h; cases h
    · intro e h; cases h; rfl
    · intro msg h; cases h
    · intro c0 c1 c2 c3 tail h1 h2
      rw [hneg c0 c1 c2 c3 tail h1 h2] at hdec
      cases hdec
  | panic msg =>
    refine ⟨?_, ?_, ?_, ?_, ?_⟩
    · intro specs e h; cases h
    · intro state h; cases h
    · intro e h; cases h
    · intro m h; cases h; rfl
    · intro c0 c1 c2 c3 tail h1 h2
      rw [hneg c0 c1 c2 c3 tail h1 h2] at hdec
      cases hdec
      rfl
  | ok state =>
    have hv := hV state hdec
    simp only [hv, ne_eq, not_false_eq_true, if_true]
    refine ⟨?_, ?_, ?_, ?_, ?_⟩
    · intro specs e h
      simp only [Loaded.returned.injEq] at h
      exact ⟨h.1.symm, by rw [← h.2]; simp⟩
    · intro st h; trivial
    · intro e h; cases h
    · intro m h; cases h
    · intro c0 c1 c2 c3 tail h1 h2
      rw [hneg c0 c1 c2 c3 tail h1 h2] at hdec
      cases hdec

/-- The hypotheses of the amended C3 hold for the empty snapshot written with
version 10, which is reported as an unsupported version. -/
theorem LoadCniServerState_version_mismatch_witness :
    (strucUnpackHeader noRecords emptySnapshotV10 = .ok ⟨10, 0, []⟩ ∧
      LoadCniServerState (strucUnpackHeader noRecords) (singleFile emptySnapshotV10) statePath =
        .returned [] (some (.errorf "unsupported save file version: %d"))) ∧
    (∀ specs err, LoadCniServerState (strucUnpackHeader noRecords) (singleFile emptySnapshotV10)
      statePath = .returned specs err → specs = [] ∧ err ≠ none) ∧
    (∀ state, strucUnpackHeader noRecords emptySnapshotV10 = .ok state →
      LoadCniServerState (strucUnpackHeader noRecords) (singleFile emptySnapshotV10) statePath
        = .returned [] (some (.errorf "unsupported save file version: %d"))) ∧
    (∀ err, strucUnpackHeader noRecords emptySnapshotV10 = .error err →
      LoadCniServerState (strucUnpackHeader noRecords) (singleFile emptySnapshotV10) statePath
        = .returned [] (some (.wrapf err "Error unpacking"))) ∧
    (∀ msg, strucUnpackHeader noRecords emptySnapshotV10 = .panic msg →
      LoadCniServerState (strucUnpackHeader noRecords) (singleFile emptySnapshotV10) statePath
        = .panic msg) ∧
    (∀ c0 c1 c2 c3 tail, [0, 0, 0, 0] = c0 :: c1 :: c2 :: c3 :: tail → int32BE c0 c1 c2 c3 < 0 →
      LoadCniServerState (strucUnpackHeader noRecords) (singleFile emptySnapshotV10) statePath =
        .panic "reflect.MakeSlice: negative len") :=
  ⟨by decide, LoadCniServerState_version_mismatch noRecords
    (by intro v c rest state h; unfold noRecords at h; split at h <;> simp at h; rw [← h])
    (singleFile emptySnapshotV10) statePath 0 0 0 10 [0, 0, 0, 0] (by decide) (by decide)⟩

/-- C4.  A snapshot that decodes successfully and whose version differs from
9 makes `LoadCniServerState` return no specs and a non-nil error, whereas a
missing file gives no specs and the nil error: the two results differ. -/
theorem LoadCniServerState_mismatch_vs_missing (Unpack : Unpacker) (fs : FileSystem)
    (fname data : GoString) (state : SavedState)
    (hread : fs fname = .file data) (hdec : Unpack data = .ok state)
    (hver : state.Version ≠ CniServerStateFileVersion) :
    (∃ err, LoadCniServerState Unpack fs fname = .returned [] (some err)) ∧
    ∀ fs₀ : FileSystem, fs₀ fname = .absent →
      LoadCniServerState Unpack fs₀ fname = .returned [] none ∧
      LoadCniServerState Unpack fs fname ≠ LoadCniServerState Unpack fs₀ fname := by
  have h1 : LoadCniServerState Unpack fs fname =
      .returned [] (some (.errorf "unsupported save file version: %d")) := by
    simp [LoadCniServerState, ReadFile, hread, hdec, hver]
  have h0 : ∀ fs₀ : FileSystem, fs₀ fname = .absent →
      LoadCniServerState Unpack fs₀ fname = .returned [] none := by
    intro fs₀ h
    simp [LoadCniServerState, ReadFile, h, GoError.IsErrNotExist]
  refine ⟨⟨_, h1⟩, fun fs₀ h => ⟨h0 fs₀ h, ?_⟩⟩
  rw [h1, h0 fs₀ h]
  simp

/-- The hypotheses of C4 hold for the empty snapshot written with version 10. -/
theorem LoadCniServerState_mismatch_vs_missing_witness :
    (∃ err, LoadCniServerState (strucUnpackHeader noRecords) (singleFile emptySnapshotV10)
      statePath = .returned [] (some err)) ∧
    ∀ fs₀ : FileSystem, fs₀ statePath = .absent →
      LoadCniServerState (strucUnpackHeader noRecords) fs₀ statePath = .returned [] none ∧
      LoadCniServerState (strucUnpackHeader noRecords) (singleFile emptySnapshotV10)
        statePath ≠ LoadCniServerState (strucUnpackHeader noRecords) fs₀ statePath :=
  LoadCniServerState_mismatch_vs_missing (strucUnpackHeader noRecords)
    (singleFile emptySnapshotV10) statePath emptySnapshotV10
    { Version := 10, SpecsCount := 0, Specs := [] } (by decide) (by decide) (by decide)

/-- C5.  With no file at the path, `LoadCniServerState` returns the nil list
and the nil error; every other failure of `os.ReadFile` (an error that is not
`os.ErrNotExist`) gives no specs and the error wrapped by "Error reading
file". -/
theorem LoadCniServerState_read_failure (Unpack : Unpacker) (fs : FileSystem) (fname : GoString) :
    (fs fname = .absent → LoadCniServerState Unpack fs fname = .returned [] none) ∧
    (∀ err, ReadFile fs fname = .error err → err.IsErrNotExist = false →
      LoadCniServerState Unpack fs fname =
        .returned [] (some (.wrapf err "Error reading file %s"))) := by
  constructor
  · intro h
    simp [LoadCniServerState, ReadFile, h, GoError.IsErrNotExist]
  · intro err h hne
    simp [LoadCniServerState, h, hne]

/-! ## C6, C7, C8: tags and keys -/

theorem length_TruncateStr_le (text : GoString) (size : Nat) :
    (TruncateStr text size).length ≤ size := by
  unfold TruncateStr
  split
  · simp
  · omega

theorem length_hash (lib : Sha512Base64) (text : GoString) :
    (hash lib text).length = 8 := by
  simp [hash, VrfTagHashLen, lib.length_encode]

theorem take_TruncateStr (text : GoString) (size n : Nat) (h : n ≤ size) :
    (TruncateStr text size).take n = text.take n := by
  unfold TruncateStr
  split
  · rw [List.take_take, Nat.min_eq_left h]
  · rfl

theorem take_hashLen_GetVrfTag (lib : Sha512Base64) (ps : LocalPodSpec) (ipFamily : IPFamily)
    (custom : GoString) :
    (ps.GetVrfTag lib ipFamily custom).take 8 =
      hash lib (ipFamily.ShortStr ++ ps.NetnsName ++ ps.InterfaceName ++ custom) := by
  unfold LocalPodSpec.GetVrfTag
  simp only []
  rw [take_TruncateStr _ _ _ (by decide)]
  simp only [List.append_assoc]
  rw [List.take_append_of_le_length (by rw [length_hash])]
  rw [List.take_of_length_le (by rw [length_hash])]

/-- Splitting a list at the first occurrence of a byte is unambiguous. -/
theorem append_cons_inj_of_not_mem_left {x : Byte} :
    ∀ (l₁ l₂ r₁ r₂ : GoString), x ∉ l₁ → x ∉ l₂ → l₁ ++ x :: r₁ = l₂ ++ x :: r₂ →
      l₁ = l₂ ∧ r₁ = r₂
  | [], [], _, _, _, _, h => by simpa using h
  | [], b :: l₂, _, _, _, h₂, h => by
      simp only [List.nil_append, List.cons_append, List.cons.injEq] at h
      exact absurd (h.1 ▸ List.mem_cons_self b l₂) h₂
  | a :: l₁, [], _, _, h₁, _, h => by
      simp only [List.nil_append, List.cons_append, List.cons.injEq] at h
      exact absurd (h.1 ▸ List.mem_cons_self a l₁) h₁
  | a :: l₁, b :: l₂, r₁, r₂, h₁, h₂, h => by
      simp only [List.cons_append, List.cons.injEq] at h
      have ih := append_cons_inj_of_not_mem_left l₁ l₂ r₁ r₂
        (fun m => h₁ (List.mem_cons_of_mem _ m)) (fun m => h₂ (List.mem_cons_of_mem _ m)) h.2
      exact ⟨by rw [h.1, ih.1], ih.2⟩

/-- Splitting a list at the last occurrence of a byte is unambiguous. -/
theorem append_cons_inj_of_not_mem_right {x : Byte} (l₁ l₂ r₁ r₂ : GoString)
    (h₁ : x ∉ r₁) (h₂ : x ∉ r₂) (h : l₁ ++ x :: r₁ = l₂ ++ x :: r₂) :
    l₁ = l₂ ∧ r₁ = r₂ := by
  have h' := congrArg List.reverse h
  simp only [List.reverse_append, List.reverse_cons, List.append_assoc, List.singleton_append]
    at h'
  have := append_cons_inj_of_not_mem_left r₁.reverse r₂.reverse l₁.reverse l₂.reverse
    (by simpa using h₁) (by simpa using h₂) h'
  exact ⟨List.reverse_injective this.2, List.reverse_injective this.1⟩

/-- C6 fails as stated.  The specs `tagSpecA` and `tagSpecB` differ in both
NetnsName and InterfaceName, yet get the same VRF tag for every digest, IP
family and custom suffix: the hash input `NetnsName ++ InterfaceName` is the
same, and the tags agree on their first 63 bytes.  The short names of
`tagSpecC` and `tagSpecD` collide as well, without truncation, for the empty
custom suffix. -/
theorem GetVrfTag_collision :
    ((tagSpecA.NetnsName, tagSpecA.InterfaceName) ≠ (tagSpecB.NetnsName, tagSpecB.InterfaceName) ∧
      ∀ (lib : Sha512Base64) (ipFamily : IPFamily) (custom : GoString),
        tagSpecA.GetVrfTag lib ipFamily custom = tagSpecB.GetVrfTag lib ipFamily custom) ∧
    ((tagSpecC.NetnsName, tagSpecC.InterfaceName) ≠ (tagSpecD.NetnsName, tagSpecD.InterfaceName) ∧
      ∀ (lib : Sha512Base64) (ipFamily : IPFamily),
        tagSpecC.GetVrfTag lib ipFamily [] = tagSpecD.GetVrfTag lib ipFamily []) := by
  refine ⟨⟨by decide, ?_⟩, ⟨by decide, ?_⟩⟩
  case refine_2 =>
    intro lib ipFamily
    have hC : filepathBase tagSpecC.NetnsName = [45] := by decide
    have hD : filepathBase tagSpecD.NetnsName = [45, 45] := by decide
    unfold LocalPodSpec.GetVrfTag
    simp only [hC, hD]
    simp [tagSpecC, tagSpecD, dash]
  intro lib ipFamily custom
  have hA : (List.replicate 60 (97 : Byte)) = List.replicate 59 97 ++ [97] := by decide
  have hin : ipFamily.ShortStr ++ tagSpecA.NetnsName ++ tagSpecA.InterfaceName ++ custom =
      ipFamily.ShortStr ++ tagSpecB.NetnsName ++ tagSpecB.InterfaceName ++ custom := by
    have : tagSpecA.NetnsName ++ tagSpecA.InterfaceName =
        tagSpecB.NetnsName ++ tagSpecB.InterfaceName := by decide
    simp only [List.append_assoc]
    rw [← List.append_assoc tagSpecA.NetnsName, this]
    simp only [List.append_assoc]
  unfold LocalPodSpec.GetVrfTag
  simp only []
  rw [hin]
  have hlen := length_hash lib
    (ipFamily.ShortStr ++ tagSpecB.NetnsName ++ tagSpecB.InterfaceName ++ custom)
  generalize hash lib (ipFamily.ShortStr ++ tagSpecB.NetnsName ++ tagSpecB.InterfaceName ++ custom)
    = h at hlen
  have key : ∀ rest : GoString,
      TruncateStr (h ++ [dash] ++ ipFamily.ShortStr ++ [dash] ++ List.replicate 59 97 ++ rest)
        MaxAPITagLen =
      (h ++ [dash] ++ ipFamily.ShortStr ++ [dash] ++ List.replicate 59 97).take 63 := by
    intro rest
    have hl : 63 ≤ (h ++ [dash] ++ ipFamily.ShortStr ++ [dash] ++ List.replicate 59 97).length := by
      simp only [List.length_append, List.length_replicate, List.length_singleton, hlen]
      omega
    unfold TruncateStr
    rw [if_pos (by
      simp only [List.length_append, List.length_replicate, List.length_singleton, hlen,
        MaxAPITagLen]
      omega)]
    exact List.take_append_of_le_length hl
  have e1 := key ([97] ++ custom ++ [dash] ++ filepathBase tagSpecA.NetnsName)
  have e2 := key (custom ++ [dash] ++ filepathBase tagSpecB.NetnsName)
  show TruncateStr (h ++ [dash] ++ ipFamily.ShortStr ++ [dash] ++ List.replicate 60 97 ++ custom
      ++ [dash] ++ filepathBase tagSpecA.NetnsName) MaxAPITagLen =
    TruncateStr (h ++ [dash] ++ ipFamily.ShortStr ++ [dash] ++ List.replicate 59 97 ++ custom
      ++ [dash] ++ filepathBase tagSpecB.NetnsName) MaxAPITagLen
  rw [hA]
  simp only [List.append_assoc] at e1 e2 ⊢
  rw [e1, e2]

/-- C6, amended.  Two specs get different VRF tags whenever the 8-character
hashes of `ShortStr ++ NetnsName ++ InterfaceName ++ custom` differ. -/
theorem GetVrfTag_ne_of_hash_ne (lib : Sha512Base64) (a b : LocalPodSpec) (ipFamily : IPFamily)
    (custom : GoString)
    (h : hash lib (ipFamily.ShortStr ++ a.NetnsName ++ a.InterfaceName ++ custom) ≠
      hash lib (ipFamily.ShortStr ++ b.NetnsName ++ b.InterfaceName ++ custom)) :
    a.GetVrfTag lib ipFamily custom ≠ b.GetVrfTag lib ipFamily custom := by
  intro e
  apply h
  rw [← take_hashLen_GetVrfTag, ← take_hashLen_GetVrfTag, e]

/-- The hypothesis of the amended C6 holds for two example specs. -/
theorem GetVrfTag_ne_of_hash_ne_witness :
    hash lengthDigest (IPFamilyV4.ShortStr ++ keySpecA.NetnsName ++ keySpecA.InterfaceName ++ []) ≠
      hash lengthDigest (IPFamilyV4.ShortStr ++ tagSpecA.NetnsName ++ tagSpecA.InterfaceName ++ [])
    ∧ keySpecA.GetVrfTag lengthDigest IPFamilyV4 [] ≠ tagSpecA.GetVrfTag lengthDigest IPFamilyV4 [] :=
  ⟨by decide, GetVrfTag_ne_of_hash_ne lengthDigest keySpecA tagSpecA IPFamilyV4 [] (by decide)⟩

/-- C7.  For every spec, IP family, custom suffix and prefix, the strings
returned by `GetVrfTag` and `GetInterfaceTag` are at most 63 bytes long. -/
theorem tag_length_le_MaxAPITagLen (lib : Sha512Base64) (ps : LocalPodSpec) (ipFamily : IPFamily)
    (custom pfx : GoString) :
    (ps.GetVrfTag lib ipFamily custom).length ≤ 63 ∧ (ps.GetInterfaceTag lib pfx).length ≤ 63 :=
  ⟨length_TruncateStr_le _ _, length_TruncateStr_le _ _⟩

/-- C8 fails as stated.  The specs with (NetnsName, InterfaceName) equal to
("a,if:b", "c") and to ("a", "b,if:c") have the same key "netns:a,if:b,if:c". -/
theorem Key_collision :
    keySpecA.Key = keySpecB.Key ∧
      ¬ (keySpecA.NetnsName = keySpecB.NetnsName ∧
        keySpecA.InterfaceName = keySpecB.InterfaceName) := by
  decide

/-- C8, amended.  `Key` is injective on the pair (NetnsName, InterfaceName)
among specs whose NetnsName holds no comma, and among specs whose
InterfaceName holds no colon. -/
theorem Key_injective_of_separator_free (a b : LocalPodSpec)
    (hsep : (comma ∉ a.NetnsName ∧ comma ∉ b.NetnsName) ∨
      (colon ∉ a.InterfaceName ∧ colon ∉ b.InterfaceName))
    (hkey : a.Key = b.Key) :
    a.NetnsName = b.NetnsName ∧ a.InterfaceName = b.InterfaceName := by
  unfold LocalPodSpec.Key at hkey
  simp only [List.append_assoc] at hkey
  have h1 := List.append_cancel_left hkey
  rcases hsep with ⟨ha, hb⟩ | ⟨ha, hb⟩
  · have := append_cons_inj_of_not_mem_left a.NetnsName b.NetnsName
      ([105, 102, 58] ++ a.InterfaceName) ([105, 102, 58] ++ b.InterfaceName) ha hb
      (by simpa [keyIf, comma] using h1)
    exact ⟨this.1, List.append_cancel_left this.2⟩
  · have h2 : (a.NetnsName ++ [44, 105, 102]) ++ colon :: a.InterfaceName =
        (b.NetnsName ++ [44, 105, 102]) ++ colon :: b.InterfaceName := by
      simpa [keyIf, colon] using h1
    have := append_cons_inj_of_not_mem_right _ _ _ _ ha hb h2
    exact ⟨List.append_cancel_right this.1, this.2⟩

/-- The hypotheses of the amended C8 hold for two specs that differ in their
MTU only. -/
theorem Key_injective_of_separator_free_witness :
    ((comma ∉ keySpecB.NetnsName ∧ comma ∉ keySpecC.NetnsName) ∨
      (colon ∉ keySpecB.InterfaceName ∧ colon ∉ keySpecC.InterfaceName)) ∧
    keySpecB.Key = keySpecC.Key ∧
    (keySpecB.NetnsName = keySpecC.NetnsName ∧ keySpecB.InterfaceName = keySpecC.InterfaceName) :=
  ⟨by decide, by decide,
    Key_injective_of_separator_free keySpecB keySpecC (Or.inl (by decide)) (by decide)⟩

/-! ## C9: the undo entries of `RoutePodInterface` -/

/-- C10 does not hold of the code.  When the allocation of the IPv4 VRF fails,
`CreatePodVRF` (and `CreatePodRPFVRF`) return an error and the IPv4 (RPF) VRF
ID of the spec is the number `AllocateVRF` returned next to its error, not
the value it had before: the handle is written before the error is
checked. -/
theorem AllocateVRF_failure_overwrites_handle (lib : Sha512Base64) (s : Server)
    (podSpec : LocalPodSpec) (stack : CleanupStack) (e : String)
    (hfail : s.vpp.faults s.vpp.trace.length = some e) :
    ((∃ err, (s.CreatePodVRF lib podSpec stack).result = .error err) ∧
      (s.CreatePodVRF lib podSpec stack).podSpec.V4VrfID = s.vpp.failValue) ∧
    ((∃ err, (s.CreatePodRPFVRF lib podSpec stack).result = .error err) ∧
      (s.CreatePodRPFVRF lib podSpec stack).podSpec.V4RPFVrfID = s.vpp.failValue) := by
  simp [Server.CreatePodVRF, Server.CreatePodVRF.allocate, Server.CreatePodRPFVRF,
    Server.CreatePodRPFVRF.loop, IPFamilies, VppLink.call, hfail, LocalPodSpec.SetVrfID,
    LocalPodSpec.SetRPFVrfID, IPFamilyV4]

/-- The failing input of C10: the handles 7 and 9 of the spec become 0. -/
theorem AllocateVRF_failure_overwrites_handle_witness :
    (podWithHandles.V4VrfID = 7 ∧
      (failAll.CreatePodVRF lengthDigest podWithHandles []).podSpec.V4VrfID = 0) ∧
    (podWithHandles.V4RPFVrfID = 9 ∧
      (failAll.CreatePodRPFVRF lengthDigest podWithHandles []).podSpec.V4RPFVrfID = 0) :=
  have h := AllocateVRF_failure_overwrites_handle lengthDigest failAll podWithHandles []
    "no memory" rfl
  ⟨⟨rfl, h.1.2⟩, ⟨rfl, h.2.2⟩⟩

/-! ## Helper lemmas for C11 to C20 -/

theorem call_faults (v : VppLink) (c : Call) : (v.call c).vpp.faults = v.faults := by
  unfold VppLink.call
  split <;> rfl

theorem call_fail_any (dp : Dataplane) (t : List Call) (faults : Nat → Option String) (fv : Nat)
    (c : Call) (h : faults t.length ≠ none) :
    ∃ e, VppLink.call ⟨dp, t, faults, fv⟩ c = ⟨some e, fv, ⟨dp, t ++ [c], faults, fv⟩⟩ := by
  cases h' : faults t.length with
  | none => exact absurd h' h
  | some e => exact ⟨.lib e false, by simp [VppLink.call, h']⟩

theorem call_err_none_iff (v : VppLink) (c : Call) :
    (v.call c).err = none ↔ v.faults v.trace.length = none := by
  unfold VppLink.call
  split <;> simp_all

theorem call_no_faults (v : VppLink) (c : Call) (hf : ∀ n, v.faults n = none) :
    (v.call c).err = none ∧ (v.call c).value = (v.dp.apply c).2 ∧
      (v.call c).vpp.dp = (v.dp.apply c).1 ∧ ∀ n, (v.call c).vpp.faults n = none := by
  simp [VppLink.call, hf]

theorem SetRPFVrfID_fields (ps : LocalPodSpec) (id : Nat) (f : IPFamily) :
    (ps.SetRPFVrfID id f).ContainerIps = ps.ContainerIps ∧
    (ps.SetRPFVrfID id f).AllowedSpoofingPrefixes = ps.AllowedSpoofingPrefixes ∧
    (ps.SetRPFVrfID id f).TunTapSwIfIndex = ps.TunTapSwIfIndex ∧
    (ps.SetRPFVrfID id f).MemifSwIfIndex = ps.MemifSwIfIndex ∧
    (ps.SetRPFVrfID id f).NetnsName = ps.NetnsName ∧
    (ps.SetRPFVrfID id f).InterfaceName = ps.InterfaceName := by
  unfold LocalPodSpec.SetRPFVrfID
  split <;> simp

theorem GetVrfTag_SetRPFVrfID (lib : Sha512Base64) (ps : LocalPodSpec) (id : Nat)
    (f g : IPFamily) (custom : GoString) :
    (ps.SetRPFVrfID id f).GetVrfTag lib g custom = ps.GetVrfTag lib g custom := by
  unfold LocalPodSpec.SetRPFVrfID LocalPodSpec.GetVrfTag
  split <;> rfl

theorem GetContainerIps_SetRPFVrfID (ps : LocalPodSpec) (id : Nat) (f : IPFamily) :
    (ps.SetRPFVrfID id f).GetContainerIps = ps.GetContainerIps := by
  simp [LocalPodSpec.GetContainerIps, SetRPFVrfID_fields]

theorem SetVrfID_fields (ps : LocalPodSpec) (id : Nat) (f : IPFamily) :
    (ps.SetVrfID id f).ContainerIps = ps.ContainerIps ∧
    (ps.SetVrfID id f).V4RPFVrfID = ps.V4RPFVrfID ∧
    (ps.SetVrfID id f).V6RPFVrfID = ps.V6RPFVrfID := by
  unfold LocalPodSpec.SetVrfID
  split <;> exact ⟨rfl, rfl, rfl⟩

theorem DeactivateStrictRPF_allowed_trace (pathsToPod : List RoutePath) (RPFvrfID : Nat) :
    ∀ (sources : List IPNet) (vpp : VppLink),
      (Server.DeactivateStrictRPF.allowed pathsToPod RPFvrfID sources vpp).trace =
        vpp.trace ++ sources.map (fun a => Call.RouteDel ⟨a, pathsToPod, RPFvrfID⟩) := by
  intro sources
  induction sources with
  | nil => intro vpp; simp [Server.DeactivateStrictRPF.allowed]
  | cons a rest ih =>
    intro vpp
    simp [Server.DeactivateStrictRPF.allowed, ih, call_trace]

theorem DeactivateStrictRPF_routes_trace (parse : SpoofParser) (podSpec : LocalPodSpec) :
    ∀ (ips : List IPNet) (vpp : VppLink),
      (Server.DeactivateStrictRPF.routes parse podSpec ips vpp).trace =
        vpp.trace ++ (ips.flatMap (fun containerIP =>
          podSpec.rpfRoute containerIP ::
            (if podSpec.AllowedSpoofingPrefixes ≠ [] then
              (parse podSpec.AllowedSpoofingPrefixes).1.map (podSpec.spoofRoute containerIP)
            else []))).map Call.RouteDel := by
  intro ips
  induction ips with
  | nil => intro vpp; simp [Server.DeactivateStrictRPF.routes]
  | cons ip rest ih =>
    intro vpp
    simp only [Server.DeactivateStrictRPF.routes, ih, Server.DeactivateStrictRPF.spoofing]
    by_cases h : podSpec.AllowedSpoofingPrefixes = []
    · simp [h, call_trace, LocalPodSpec.rpfRoute]
    · simp [h, call_trace, LocalPodSpec.rpfRoute, DeactivateStrictRPF_allowed_trace,
        LocalPodSpec.spoofRoute, Function.comp_def]

theorem DeactivateStrictRPF_trace_eq (parse : SpoofParser) (s : Server)
    (podSpec : LocalPodSpec) :
    (s.DeactivateStrictRPF parse podSpec).trace =
      s.vpp.trace ++ (podSpec.rpfRoutes parse).map Call.RouteDel ++
        [.DelVRF podSpec.V4RPFVrfID false, .DelVRF podSpec.V6RPFVrfID true] := by
  simp [Server.DeactivateStrictRPF, Server.DeactivateStrictRPF.delVRFs, IPFamilies, call_trace,
    DeactivateStrictRPF_routes_trace, LocalPodSpec.rpfRoutes, LocalPodSpec.GetRPFVrfID,
    IPFamilyV4, IPFamilyV6]

theorem AddRPFRoutes_allowed_spec (podSpec : LocalPodSpec) (pathsToPod : List RoutePath)
    (RPFvrfID : Nat) :
    ∀ (sources : List IPNet) (vpp : VppLink) (stack : CleanupStack),
      (Server.AddRPFRoutes.allowed podSpec pathsToPod RPFvrfID sources vpp stack).result = .nil →
      (Server.AddRPFRoutes.allowed podSpec pathsToPod RPFvrfID sources vpp stack).vpp.trace =
        vpp.trace ++ sources.map (fun a => Call.RouteAdd ⟨a, pathsToPod, RPFvrfID⟩) ∧
      (Server.AddRPFRoutes.allowed podSpec pathsToPod RPFvrfID sources vpp stack).stack =
        (sources.map (fun a => Call.RouteDel ⟨a, pathsToPod, RPFvrfID⟩)).reverse ++ stack := by
  intro sources
  induction sources with
  | nil => intro vpp stack _; simp [Server.AddRPFRoutes.allowed]
  | cons a rest ih =>
    intro vpp stack h
    simp only [Server.AddRPFRoutes.allowed] at h ⊢
    cases hA : (vpp.call (.RouteAdd ⟨a, pathsToPod, RPFvrfID⟩)).err with
    | some err => simp [hA] at h
    | none =>
      simp only [hA] at h ⊢
      obtain ⟨h1, h2⟩ := ih _ _ h
      rw [h1, h2]
      simp [call_trace, CleanupStack.Push]

theorem AddRPFRoutes_allowed_podSpec (podSpec : LocalPodSpec) (pathsToPod : List RoutePath)
    (RPFvrfID : Nat) :
    ∀ (sources : List IPNet) (vpp : VppLink) (stack : CleanupStack),
      (Server.AddRPFRoutes.allowed podSpec pathsToPod RPFvrfID sources vpp stack).podSpec =
        podSpec := by
  intro sources
  induction sources with
  | nil => intro vpp stack; rfl
  | cons a rest ih =>
    intro vpp stack
    simp only [Server.AddRPFRoutes.allowed]
    split
    · rfl
    · exact ih _ _

theorem AddRPFRoutes_loop_spec (parse : SpoofParser) (podSpec : LocalPodSpec) :
    ∀ (ips : List IPNet) (vpp : VppLink) (stack : CleanupStack),
      (Server.AddRPFRoutes.loop parse podSpec ips vpp stack).result = .nil →
      (Server.AddRPFRoutes.loop parse podSpec ips vpp stack).vpp.trace =
        vpp.trace ++ (podSpec.rpfRoutesOf parse ips).map Call.RouteAdd ∧
      (Server.AddRPFRoutes.loop parse podSpec ips vpp stack).stack =
        ((podSpec.rpfRoutesOf parse ips).map Call.RouteDel).reverse ++ stack := by
  intro ips
  induction ips with
  | nil => intro vpp stack _; simp [Server.AddRPFRoutes.loop, LocalPodSpec.rpfRoutesOf]
  | cons ip rest ih =>
    intro vpp stack h
    simp only [Server.AddRPFRoutes.loop] at h ⊢
    cases hA : (vpp.call (.RouteAdd ⟨ip, podSpec.pathsToPod ip,
        podSpec.GetRPFVrfID (IPFamilyFromIPNet ip)⟩)).err with
    | some err => simp [hA] at h
    | none =>
      simp only [hA] at h ⊢
      cases hS : (Server.AddRPFRoutes.spoofing parse podSpec (podSpec.pathsToPod ip)
          (podSpec.GetRPFVrfID (IPFamilyFromIPNet ip))
          (vpp.call (.RouteAdd ⟨ip, podSpec.pathsToPod ip,
            podSpec.GetRPFVrfID (IPFamilyFromIPNet ip)⟩)).vpp
          (CleanupStack.Push stack (.RouteDel ⟨ip, podSpec.pathsToPod ip,
            podSpec.GetRPFVrfID (IPFamilyFromIPNet ip)⟩))).result with
      | error err => simp [hS] at h
      | panic msg => simp [hS] at h
      | nil =>
        simp only [hS] at h ⊢
        obtain ⟨h1, h2⟩ := ih _ _ h
        rw [h1, h2]
        unfold Server.AddRPFRoutes.spoofing at hS ⊢
        by_cases hann : podSpec.AllowedSpoofingPrefixes = []
        · simp [hann, call_trace, CleanupStack.Push, LocalPodSpec.rpfRoutesOf,
            LocalPodSpec.rpfRoute]
        · simp only [hann, ne_eq, not_false_eq_true, if_true] at hS ⊢
          cases hP : (parse podSpec.AllowedSpoofingPrefixes).2 with
          | some e => simp [hP] at hS
          | none =>
            simp only [hP] at hS ⊢
            obtain ⟨h3, h4⟩ := AddRPFRoutes_allowed_spec _ _ _ _ _ _ hS
            rw [h3, h4]
            simp [hann, call_trace, CleanupStack.Push, LocalPodSpec.rpfRoutesOf,
              LocalPodSpec.rpfRoute, LocalPodSpec.spoofRoute, Function.comp_def]

theorem AddRPFRoutes_spoofing_podSpec (parse : SpoofParser) (podSpec : LocalPodSpec)
    (pathsToPod : List RoutePath) (RPFvrfID : Nat) (vpp : VppLink) (stack : CleanupStack) :
    (Server.AddRPFRoutes.spoofing parse podSpec pathsToPod RPFvrfID vpp stack).podSpec =
      podSpec := by
  unfold Server.AddRPFRoutes.spoofing
  split
  · split
    · rfl
    · exact AddRPFRoutes_allowed_podSpec _ _ _ _ _ _
  · rfl

theorem AddRPFRoutes_loop_podSpec (parse : SpoofParser) (podSpec : LocalPodSpec) :
    ∀ (ips : List IPNet) (vpp : VppLink) (stack : CleanupStack),
      (Server.AddRPFRoutes.loop parse podSpec ips vpp stack).podSpec = podSpec := by
  intro ips
  induction ips with
  | nil => intro vpp stack; rfl
  | cons ip rest ih =>
    intro vpp stack
    simp only [Server.AddRPFRoutes.loop]
    split
    · rfl
    · split
      · exact ih _ _
      · exact AddRPFRoutes_spoofing_podSpec _ _ _ _ _ _

theorem CreatePodRPFVRF_ok_spec (lib : Sha512Base64) (s : Server) (podSpec : LocalPodSpec)
    (stack : CleanupStack) (h : (s.CreatePodRPFVRF lib podSpec stack).result = .nil) :
    (s.CreatePodRPFVRF lib podSpec stack).podSpec = podSpec.withRPFVrfs s.vpp.dp ∧
    (s.CreatePodRPFVRF lib podSpec stack).vpp.trace = s.vpp.trace ++
      [.AllocateVRF false (podSpec.GetVrfTag lib IPFamilyV4 [82, 80, 70]),
        .AllocateVRF true (podSpec.GetVrfTag lib IPFamilyV6 [82, 80, 70])] ∧
    (s.CreatePodRPFVRF lib podSpec stack).stack =
      [.DelVRF (s.vpp.dp.freshVrfID + 1) true, .DelVRF s.vpp.dp.freshVrfID false] ++ stack := by
  obtain ⟨⟨dp, t, faults, fv⟩, reg⟩ := s
  rcases h0 : faults t.length with _ | e0
  · rcases h1 : faults (t.length + 1) with _ | e1
    · simp [Server.CreatePodRPFVRF, Server.CreatePodRPFVRF.loop, IPFamilies, call_ok, h0, h1,
        CleanupStack.Push, GetVrfTag_SetRPFVrfID, IsIP6_families, freshVrfID_allocate,
        apply_AllocateVRF_snd, LocalPodSpec.withRPFVrfs]
    · have cf := fun dp t fv c => call_fail dp t faults fv c e1
      simp [Server.CreatePodRPFVRF, Server.CreatePodRPFVRF.loop, IPFamilies, call_ok, h0, h1,
        cf] at h
  · have cf := fun dp t fv c => call_fail dp t faults fv c e0
    simp [Server.CreatePodRPFVRF, Server.CreatePodRPFVRF.loop, IPFamilies, call_ok, h0, cf] at h

theorem withRPFVrfs_fields (ps : LocalPodSpec) (dp : Dataplane) :
    (ps.withRPFVrfs dp).V4RPFVrfID = dp.freshVrfID ∧
    (ps.withRPFVrfs dp).V6RPFVrfID = dp.freshVrfID + 1 ∧
    (ps.withRPFVrfs dp).TunTapSwIfIndex = ps.TunTapSwIfIndex ∧
    (ps.withRPFVrfs dp).GetContainerIps = ps.GetContainerIps ∧
    (ps.withRPFVrfs dp).AllowedSpoofingPrefixes = ps.AllowedSpoofingPrefixes ∧
    (ps.withRPFVrfs dp).ContainerIps = ps.ContainerIps := by
  simp [LocalPodSpec.withRPFVrfs, LocalPodSpec.SetRPFVrfID, IPFamilyV4, IPFamilyV6,
    LocalPodSpec.GetContainerIps]

theorem ActivateStrictRPF_ok_spec (lib : Sha512Base64) (parse : SpoofParser) (s : Server)
    (podSpec : LocalPodSpec) (stack : CleanupStack)
    (h : (s.ActivateStrictRPF lib parse podSpec stack).result = .nil) :
    (s.ActivateStrictRPF lib parse podSpec stack).podSpec = podSpec.withRPFVrfs s.vpp.dp ∧
    (s.ActivateStrictRPF lib parse podSpec stack).vpp.trace = s.vpp.trace ++
      [.AllocateVRF false (podSpec.GetVrfTag lib IPFamilyV4 [82, 80, 70]),
        .AllocateVRF true (podSpec.GetVrfTag lib IPFamilyV6 [82, 80, 70])] ++
      ((podSpec.withRPFVrfs s.vpp.dp).rpfRoutes parse).map Call.RouteAdd ++
      [.SetCustomURPF podSpec.TunTapSwIfIndex s.vpp.dp.freshVrfID] ∧
    (s.ActivateStrictRPF lib parse podSpec stack).stack =
      .UnsetURPF podSpec.TunTapSwIfIndex ::
        ((((podSpec.withRPFVrfs s.vpp.dp).rpfRoutes parse).map Call.RouteDel).reverse ++
          ([.DelVRF (s.vpp.dp.freshVrfID + 1) true, .DelVRF s.vpp.dp.freshVrfID false] ++
            stack)) := by
  unfold Server.ActivateStrictRPF at h ⊢
  simp only [] at h ⊢
  cases hc : (Server.CreatePodRPFVRF lib s podSpec stack).result with
  | error err => simp [hc] at h
  | panic msg => simp [hc] at h
  | nil =>
    simp only [hc] at h ⊢
    obtain ⟨c1, c2, c3⟩ := CreatePodRPFVRF_ok_spec lib s podSpec stack hc
    cases hr : (Server.AddRPFRoutes parse
        { s with vpp := (Server.CreatePodRPFVRF lib s podSpec stack).vpp }
        (Server.CreatePodRPFVRF lib s podSpec stack).podSpec
        (Server.CreatePodRPFVRF lib s podSpec stack).stack).result with
    | error err => simp [hr] at h
    | panic msg => simp [hr] at h
    | nil =>
      simp only [hr] at h ⊢
      have hr' := hr
      unfold Server.AddRPFRoutes at hr' h ⊢
      obtain ⟨r1, r2⟩ := AddRPFRoutes_loop_spec parse _ _ _ _ hr'
      have r3 := AddRPFRoutes_loop_podSpec parse
        (Server.CreatePodRPFVRF lib s podSpec stack).podSpec
        (Server.CreatePodRPFVRF lib s podSpec stack).podSpec.GetContainerIps
        (Server.CreatePodRPFVRF lib s podSpec stack).vpp
        (Server.CreatePodRPFVRF lib s podSpec stack).stack
      simp only [r3] at h ⊢
      split at h
      · simp at h
      · rename_i hset
        simp only [hset]
        refine ⟨c1, ?_, ?_⟩
        · rw [call_trace, r1, c2, c1]
          simp [LocalPodSpec.rpfRoutes, LocalPodSpec.rpfRoutesOf, withRPFVrfs_fields]
        · rw [r2, c3, c1]
          simp [CleanupStack.Push, LocalPodSpec.rpfRoutes, LocalPodSpec.rpfRoutesOf,
            withRPFVrfs_fields]

theorem AddRPFRoutes_allowed_all_ok (podSpec : LocalPodSpec) (pathsToPod : List RoutePath)
    (RPFvrfID : Nat) :
    ∀ (sources : List IPNet) (vpp : VppLink) (stack : CleanupStack),
      (∀ n, vpp.faults n = none) →
      (Server.AddRPFRoutes.allowed podSpec pathsToPod RPFvrfID sources vpp stack).result = .nil ∧
      ∀ n, (Server.AddRPFRoutes.allowed podSpec pathsToPod RPFvrfID sources vpp
        stack).vpp.faults n = none := by
  intro sources
  induction sources with
  | nil => intro vpp stack hf; exact ⟨rfl, hf⟩
  | cons a rest ih =>
    intro vpp stack hf
    simp only [Server.AddRPFRoutes.allowed]
    obtain ⟨h1, _, _, h4⟩ := call_no_faults vpp (.RouteAdd ⟨a, pathsToPod, RPFvrfID⟩) hf
    simp only [h1]
    exact ih _ _ h4

theorem AddRPFRoutes_loop_all_ok (parse : SpoofParser) (podSpec : LocalPodSpec)
    (hparse : podSpec.AllowedSpoofingPrefixes = [] ∨
      (parse podSpec.AllowedSpoofingPrefixes).2 = none) :
    ∀ (ips : List IPNet) (vpp : VppLink) (stack : CleanupStack),
      (∀ n, vpp.faults n = none) →
      (Server.AddRPFRoutes.loop parse podSpec ips vpp stack).result = .nil ∧
      ∀ n, (Server.AddRPFRoutes.loop parse podSpec ips vpp stack).vpp.faults n = none := by
  intro ips
  induction ips with
  | nil => intro vpp stack hf; exact ⟨rfl, hf⟩
  | cons ip rest ih =>
    intro vpp stack hf
    simp only [Server.AddRPFRoutes.loop]
    obtain ⟨h1, _, _, h4⟩ := call_no_faults vpp (.RouteAdd ⟨ip, podSpec.pathsToPod ip,
      podSpec.GetRPFVrfID (IPFamilyFromIPNet ip)⟩) hf
    simp only [h1]
    have hs : ∀ (v : VppLink) (st : CleanupStack), (∀ n, v.faults n = none) →
        (Server.AddRPFRoutes.spoofing parse podSpec (podSpec.pathsToPod ip)
          (podSpec.GetRPFVrfID (IPFamilyFromIPNet ip)) v st).result = .nil ∧
        ∀ n, (Server.AddRPFRoutes.spoofing parse podSpec (podSpec.pathsToPod ip)
          (podSpec.GetRPFVrfID (IPFamilyFromIPNet ip)) v st).vpp.faults n = none := by
      intro v st hv
      unfold Server.AddRPFRoutes.spoofing
      by_cases hann : podSpec.AllowedSpoofingPrefixes = []
      · simp [hann, hv]
      · have hp := hparse.resolve_left hann
        simp only [hann, ne_eq, not_false_eq_true, if_true, hp]
        exact AddRPFRoutes_allowed_all_ok _ _ _ _ _ _ hv
    obtain ⟨s1, s2⟩ := hs _ (CleanupStack.Push stack (.RouteDel ⟨ip, podSpec.pathsToPod ip,
      podSpec.GetRPFVrfID (IPFamilyFromIPNet ip)⟩)) h4
    simp only [s1]
    exact ih _ _ s2

theorem CreatePodRPFVRF_all_ok (lib : Sha512Base64) (s : Server) (podSpec : LocalPodSpec)
    (stack : CleanupStack) (hf : ∀ n, s.vpp.faults n = none) :
    (s.CreatePodRPFVRF lib podSpec stack).result = .nil ∧
    ∀ n, (s.CreatePodRPFVRF lib podSpec stack).vpp.faults n = none := by
  obtain ⟨⟨dp, t, faults, fv⟩, reg⟩ := s
  simp only at hf
  simp [Server.CreatePodRPFVRF, Server.CreatePodRPFVRF.loop, IPFamilies, call_ok, hf]

theorem ActivateStrictRPF_all_ok (lib : Sha512Base64) (parse : SpoofParser) (s : Server)
    (podSpec : LocalPodSpec) (stack : CleanupStack)
    (hf : ∀ n, s.vpp.faults n = none)
    (hparse : podSpec.ContainerIps = [] ∨ podSpec.AllowedSpoofingPrefixes = [] ∨
      (parse podSpec.AllowedSpoofingPrefixes).2 = none) :
    (s.ActivateStrictRPF lib parse podSpec stack).result = .nil := by
  obtain ⟨c1, c2⟩ := CreatePodRPFVRF_all_ok lib s podSpec stack hf
  obtain ⟨c3, -, -⟩ := CreatePodRPFVRF_ok_spec lib s podSpec stack c1
  unfold Server.ActivateStrictRPF
  simp only [c1]
  have hr : (Server.AddRPFRoutes parse
      { s with vpp := (Server.CreatePodRPFVRF lib s podSpec stack).vpp }
      (Server.CreatePodRPFVRF lib s podSpec stack).podSpec
      (Server.CreatePodRPFVRF lib s podSpec stack).stack).result = .nil ∧
      ∀ n, (Server.AddRPFRoutes parse
      { s with vpp := (Server.CreatePodRPFVRF lib s podSpec stack).vpp }
      (Server.CreatePodRPFVRF lib s podSpec stack).podSpec
      (Server.CreatePodRPFVRF lib s podSpec stack).stack).vpp.faults n = none := by
    unfold Server.AddRPFRoutes
    rcases hparse with h | h
    · rw [c3]
      simp [withRPFVrfs_fields, LocalPodSpec.GetContainerIps, h, Server.AddRPFRoutes.loop, c2]
    · apply AddRPFRoutes_loop_all_ok
      · rw [c3]
        simpa [withRPFVrfs_fields] using h
      · exact c2
  simp only [hr.1]
  obtain ⟨h1, -⟩ := call_no_faults _ (.SetCustomURPF
    (Server.AddRPFRoutes parse
      { s with vpp := (Server.CreatePodRPFVRF lib s podSpec stack).vpp }
      (Server.CreatePodRPFVRF lib s podSpec stack).podSpec
      (Server.CreatePodRPFVRF lib s podSpec stack).stack).podSpec.TunTapSwIfIndex
    (Server.AddRPFRoutes parse
      { s with vpp := (Server.CreatePodRPFVRF lib s podSpec stack).vpp }
      (Server.CreatePodRPFVRF lib s podSpec stack).podSpec
      (Server.CreatePodRPFVRF lib s podSpec stack).stack).podSpec.V4RPFVrfID) hr.2
  simp only [h1]

theorem RoutePodInterface_loop_trace (s : Server) (podSpec : LocalPodSpec) (swIfIndex : Nat)
    (isL3 inPodVrf : Bool) :
    ∀ (ips : List IPNet) (vpp : VppLink) (stack : CleanupStack),
      (Server.RoutePodInterface.loop s podSpec swIfIndex isL3 inPodVrf ips vpp stack).result
        = .nil →
      (Server.RoutePodInterface.loop s podSpec swIfIndex isL3 inPodVrf ips vpp stack).vpp.trace
        = vpp.trace ++ ips.flatMap (fun ip =>
            Call.RouteAdd ⟨ip, [⟨[], swIfIndex, 0⟩],
                (s.podInterfaceTable podSpec inPodVrf ip).getD 0⟩ ::
              (if isL3 then [] else [Call.AddNeighbor (podNeighbor swIfIndex ip.IP)])) ∧
      ∀ ip ∈ ips, ∃ table, s.podInterfaceTable podSpec inPodVrf ip = some table := by
  intro ips
  induction ips with
  | nil => intro vpp stack _; simp [Server.RoutePodInterface.loop]
  | cons ip rest ih =>
    intro vpp stack h
    simp only [Server.RoutePodInterface.loop] at h ⊢
    cases htab : s.podInterfaceTable podSpec inPodVrf ip with
    | none => simp [htab] at h
    | some table =>
      simp only [htab] at h ⊢
      cases hA : (vpp.call (.RouteAdd ⟨ip, [⟨[], swIfIndex, 0⟩], table⟩)).err with
      | some err => simp [hA] at h
      | none =>
        simp only [hA] at h ⊢
        cases isL3 with
        | true =>
          simp only [Bool.not_true, Bool.false_eq_true, if_false] at h ⊢
          obtain ⟨h1, h2⟩ := ih _ _ h
          rw [h1]
          refine ⟨by simp [call_trace, htab], ?_⟩
          intro x hx
          rcases List.mem_cons.1 hx with rfl | hx
          · exact ⟨table, htab⟩
          · exact h2 x hx
        | false =>
          simp only [Bool.not_false, if_true] at h ⊢
          cases hN : ((vpp.call (.RouteAdd ⟨ip, [⟨[], swIfIndex, 0⟩], table⟩)).vpp.call
              (.AddNeighbor ⟨swIfIndex, ip.IP, ContainerSideMacAddress,
                .IPNeighborStatic⟩)).err with
          | some err => simp [hN] at h
          | none =>
            simp only [hN] at h ⊢
            obtain ⟨h1, h2⟩ := ih _ _ h
            rw [h1]
            refine ⟨by simp [call_trace, podNeighbor, htab], ?_⟩
            intro x hx
            rcases List.mem_cons.1 hx with rfl | hx
            · exact ⟨table, htab⟩
            · exact h2 x hx

theorem RoutePodInterface_loop_adds (s : Server) (podSpec : LocalPodSpec) (swIfIndex : Nat)
    (isL3 inPodVrf : Bool) :
    ∀ (ips : List IPNet) (vpp : VppLink) (stack : CleanupStack),
      ∃ (calls : List Call) (done : List IPNet),
        (Server.RoutePodInterface.loop s podSpec swIfIndex isL3 inPodVrf ips vpp
          stack).vpp.trace = vpp.trace ++ calls ∧
        calls.filterMap Call.addedRoute = done.map (fun ip =>
          ⟨ip, [⟨[], swIfIndex, 0⟩], (s.podInterfaceTable podSpec inPodVrf ip).getD 0⟩) ∧
        done <+: ips ∧
        ((Server.RoutePodInterface.loop s podSpec swIfIndex isL3 inPodVrf ips vpp
          stack).result = .nil → done = ips) := by
  intro ips
  induction ips with
  | nil => intro vpp stack; exact ⟨[], [], by simp [Server.RoutePodInterface.loop]⟩
  | cons ip rest ih =>
    intro vpp stack
    simp only [Server.RoutePodInterface.loop]
    cases htab : s.podInterfaceTable podSpec inPodVrf ip with
    | none => exact ⟨[], [], by simp⟩
    | some table =>
      simp only
      cases hA : (vpp.call (.RouteAdd ⟨ip, [⟨[], swIfIndex, 0⟩], table⟩)).err with
      | some err =>
        exact ⟨[.RouteAdd ⟨ip, [⟨[], swIfIndex, 0⟩], table⟩], [ip],
          by simp [call_trace, Call.addedRoute, htab]⟩
      | none =>
        simp only
        cases isL3 with
        | true =>
          simp only [Bool.not_true, Bool.false_eq_true, if_false]
          obtain ⟨calls, done, h1, h2, h3, h4⟩ := ih
            (vpp.call (.RouteAdd ⟨ip, [⟨[], swIfIndex, 0⟩], table⟩)).vpp
            (CleanupStack.Push stack (.RouteDel ⟨ip, [⟨[], swIfIndex, 0⟩], table⟩))
          refine ⟨.RouteAdd ⟨ip, [⟨[], swIfIndex, 0⟩], table⟩ :: calls, ip :: done, ?_, ?_, ?_, ?_⟩
          · rw [h1]; simp [call_trace]
          · simp [Call.addedRoute, h2, htab]
          · simpa using h3
          · intro h; rw [h4 h]
        | false =>
          simp only [Bool.not_false, if_true]
          cases hN : ((vpp.call (.RouteAdd ⟨ip, [⟨[], swIfIndex, 0⟩], table⟩)).vpp.call
              (.AddNeighbor ⟨swIfIndex, ip.IP, ContainerSideMacAddress,
                .IPNeighborStatic⟩)).err with
          | some err =>
            exact ⟨[.RouteAdd ⟨ip, [⟨[], swIfIndex, 0⟩], table⟩,
              .AddNeighbor ⟨swIfIndex, ip.IP, ContainerSideMacAddress, .IPNeighborStatic⟩], [ip],
              by simp [call_trace, Call.addedRoute, htab]⟩
          | none =>
            simp only
            obtain ⟨calls, done, h1, h2, h3, h4⟩ := ih
              ((vpp.call (.RouteAdd ⟨ip, [⟨[], swIfIndex, 0⟩], table⟩)).vpp.call
                (.AddNeighbor ⟨swIfIndex, ip.IP, ContainerSideMacAddress,
                  .IPNeighborStatic⟩)).vpp
              (CleanupStack.Push stack (.RouteDel ⟨ip, [⟨[], swIfIndex, 0⟩], table⟩))
            refine ⟨.RouteAdd ⟨ip, [⟨[], swIfIndex, 0⟩], table⟩ ::
              .AddNeighbor ⟨swIfIndex, ip.IP, ContainerSideMacAddress, .IPNeighborStatic⟩ ::
              calls, ip :: done, ?_, ?_, ?_, ?_⟩
            · rw [h1]; simp [call_trace]
            · simp [Call.addedRoute, h2, htab]
            · simpa using h3
            · intro h; rw [h4 h]

theorem podInterfaceTable_cases (s : Server) (podSpec : LocalPodSpec) (inPodVrf : Bool)
    (ip : IPNet) :
    (podSpec.NetworkName ≠ [] → ∀ nd,
      s.networkDefinitions podSpec.NetworkName = some (.networkDefinition (some nd)) →
      (s.podInterfaceTable podSpec inPodVrf ip).getD 0 =
        nd.VRF.Tables (if IsIP6 ip.IP then 1 else 0)) ∧
    (podSpec.NetworkName ≠ [] → s.networkDefinitions podSpec.NetworkName = none →
      (s.podInterfaceTable podSpec inPodVrf ip).getD 0 = 0) ∧
    (podSpec.NetworkName = [] → inPodVrf = true →
      (s.podInterfaceTable podSpec inPodVrf ip).getD 0 =
        if IsIP6 ip.IP then podSpec.V6VrfID else podSpec.V4VrfID) ∧
    (podSpec.NetworkName = [] → inPodVrf = false →
      (s.podInterfaceTable podSpec inPodVrf ip).getD 0 = 0) := by
  refine ⟨?_, ?_, ?_, ?_⟩
  · intro hname nd hnd
    simp [Server.podInterfaceTable, hname, hnd]
  · intro hname hnd
    simp [Server.podInterfaceTable, hname, hnd]
  · intro hname hin
    simp [Server.podInterfaceTable, hname, hin, LocalPodSpec.GetVrfID, IPFamilyFromIPNet,
      IsIP6]
    split <;> simp [IPFamilyV4, IPFamilyV6, *]
  · intro hname hin
    simp [Server.podInterfaceTable, hname, hin]

/-! ## C11: `DeactivateStrictRPF` against the undo entries of `ActivateStrictRPF` -/

/-- C11 does not hold of the code.  When `ActivateStrictRPF` returns nil, the
entry on top of the cleanup stack is `UnsetURPF` on the TunTap interface of
the spec.  `DeactivateStrictRPF` for the spec the activation left, with the
same parser and on any client, issues no `UnsetURPF` call.  The calls it does
issue are the other entries the activation pushed (a `RouteDel` for every
route added to the RPF VRFs and a `DelVRF` for the RPF VRF of each family):
put after the missing `UnsetURPF` and in front of the stack from before the
activation, they are a permutation of the stack the activation left. -/
theorem DeactivateStrictRPF_misses_UnsetURPF (lib : Sha512Base64) (parse : SpoofParser)
    (s : Server) (podSpec : LocalPodSpec) (stack : CleanupStack)
    (hact : (s.ActivateStrictRPF lib parse podSpec stack).result = .nil) :
    (s.ActivateStrictRPF lib parse podSpec stack).stack.head? =
      some (.UnsetURPF podSpec.TunTapSwIfIndex) ∧
    ∀ later : Server, ∃ calls,
      (later.DeactivateStrictRPF parse
        (s.ActivateStrictRPF lib parse podSpec stack).podSpec).trace = later.vpp.trace ++ calls ∧
      (∀ swIfIndex, Call.UnsetURPF swIfIndex ∉ calls) ∧
      List.Perm (Call.UnsetURPF podSpec.TunTapSwIfIndex :: (calls ++ stack))
        (s.ActivateStrictRPF lib parse podSpec stack).stack := by
  obtain ⟨h1, -, h3⟩ := ActivateStrictRPF_ok_spec lib parse s podSpec stack hact
  refine ⟨by rw [h3]; rfl, fun later => ?_⟩
  refine ⟨((podSpec.withRPFVrfs s.vpp.dp).rpfRoutes parse).map Call.RouteDel ++
    [.DelVRF s.vpp.dp.freshVrfID false, .DelVRF (s.vpp.dp.freshVrfID + 1) true], ?_, ?_, ?_⟩
  · rw [h1, DeactivateStrictRPF_trace_eq]
    simp [withRPFVrfs_fields]
  · intro sw hmem
    simp at hmem
  · rw [h3]
    apply List.Perm.cons
    rw [← List.append_assoc]
    apply List.Perm.append_right
    refine List.Perm.append ?_ ?_
    · exact (List.reverse_perm _).symm
    · exact List.Perm.swap _ _ _

/-- The failing input of C11: the pod `podSpoof` on an empty dataplane.  The
activation pushes five entries, `UnsetURPF 5` on top; the deactivation issues
four calls, none of them `UnsetURPF`, and strict RPF stays set on interface 5
towards the deleted VRF 3. -/
theorem DeactivateStrictRPF_misses_UnsetURPF_witness :
    ((Server.ActivateStrictRPF lengthDigest parsePrefix {} podSpoof []).stack =
        [.UnsetURPF 5, .RouteDel (podSpoofActive.spoofRoute podSpoofAddress spoofPrefix),
          .RouteDel (podSpoofActive.rpfRoute podSpoofAddress), .DelVRF 4 true, .DelVRF 3 false] ∧
      (Server.DeactivateStrictRPF parsePrefix
          ⟨(Server.ActivateStrictRPF lengthDigest parsePrefix {} podSpoof []).vpp, fun _ => none⟩
          (Server.ActivateStrictRPF lengthDigest parsePrefix {} podSpoof []).podSpec).trace.drop 5 =
        [.RouteDel (podSpoofActive.rpfRoute podSpoofAddress),
          .RouteDel (podSpoofActive.spoofRoute podSpoofAddress spoofPrefix),
          .DelVRF 3 false, .DelVRF 4 true] ∧
      (Server.DeactivateStrictRPF parsePrefix
          ⟨(Server.ActivateStrictRPF lengthDigest parsePrefix {} podSpoof []).vpp, fun _ => none⟩
          (Server.ActivateStrictRPF lengthDigest parsePrefix {} podSpoof []).podSpec).dp.urpf =
        [(5, 3)]) ∧
    ((Server.ActivateStrictRPF lengthDigest parsePrefix {} podSpoof []).stack.head? =
      some (.UnsetURPF podSpoof.TunTapSwIfIndex) ∧
    ∀ later : Server, ∃ calls,
      (later.DeactivateStrictRPF parsePrefix
        (Server.ActivateStrictRPF lengthDigest parsePrefix {} podSpoof []).podSpec).trace =
          later.vpp.trace ++ calls ∧
      (∀ swIfIndex, Call.UnsetURPF swIfIndex ∉ calls) ∧
      List.Perm (Call.UnsetURPF podSpoof.TunTapSwIfIndex :: (calls ++ []))
        (Server.ActivateStrictRPF lengthDigest parsePrefix {} podSpoof []).stack) :=
  ⟨by decide, DeactivateStrictRPF_misses_UnsetURPF lengthDigest parsePrefix {} podSpoof []
    (by decide)⟩

/-! ## C12: the port-filter clients -/

/-- C12 does not hold of the code.  For the dual-stack pod `podDualStack`,
`RoutePblPortsPodInterface` returns nil after adding two port-filter clients,
which get the indexes 1 and 2; it pushes `DelPblClient` for both and leaves
`PblIndex = 2` in the spec.  `UnroutePblPortsPodInterface` then issues
`DelPblClient 2` only, and the client 1 stays in the dataplane.  For every
spec, the one call of `UnroutePblPortsPodInterface` is
`DelPblClient PblIndex`. -/
theorem UnroutePblPortsPodInterface_leaves_client :
    ((Server.RoutePblPortsPodInterface {} podDualStack [] 7 true).result = .nil ∧
      (Server.RoutePblPortsPodInterface {} podDualStack [] 7 true).vpp.trace =
        [.AddPblClient pblClientV4, .AddPblClient pblClientV6] ∧
      (Server.RoutePblPortsPodInterface {} podDualStack [] 7 true).stack =
        [.DelPblClient 2, .DelPblClient 1] ∧
      (Server.RoutePblPortsPodInterface {} podDualStack [] 7 true).podSpec.PblIndex = 2) ∧
    ((Server.UnroutePblPortsPodInterface
        ⟨(Server.RoutePblPortsPodInterface {} podDualStack [] 7 true).vpp, fun _ => none⟩
        (Server.RoutePblPortsPodInterface {} podDualStack [] 7 true).podSpec 7).trace =
        [.AddPblClient pblClientV4, .AddPblClient pblClientV6, .DelPblClient 2] ∧
      (Server.UnroutePblPortsPodInterface
        ⟨(Server.RoutePblPortsPodInterface {} podDualStack [] 7 true).vpp, fun _ => none⟩
        (Server.RoutePblPortsPodInterface {} podDualStack [] 7 true).podSpec 7).dp.pblClients =
        [(1, pblClientV4)]) ∧
    ∀ (s : Server) (podSpec : LocalPodSpec) (swIfIndex : Nat),
      (s.UnroutePblPortsPodInterface podSpec swIfIndex).trace =
        s.vpp.trace ++ [.DelPblClient podSpec.PblIndex] := by
  refine ⟨by decide, by decide, fun s podSpec sw => ?_⟩
  simp [Server.UnroutePblPortsPodInterface, call_trace]

/-! ## C13: deactivation when the annotation does not parse -/

/-- C13 fails as stated.  The pod `podSpoof` is activated on an empty dataplane
with a parser that returns the prefix 10.2.0.0/16, which adds the route to
this prefix in the RPF VRF.  With a parser that returns an error and no
prefix at deactivation time, `DeactivateStrictRPF` issues the `RouteDel` of
the container-address route and the two `DelVRF` calls only; the route to
the prefix is left in the dataplane. -/
theorem DeactivateStrictRPF_parse_error_leaves_route :
    ((Server.ActivateStrictRPF lengthDigest parsePrefix {} podSpoof []).result = .nil ∧
      (Server.ActivateStrictRPF lengthDigest parsePrefix {} podSpoof []).podSpec = podSpoofActive ∧
      Call.RouteAdd (podSpoofActive.spoofRoute podSpoofAddress spoofPrefix) ∈
        (Server.ActivateStrictRPF lengthDigest parsePrefix {} podSpoof []).vpp.trace) ∧
    (Server.DeactivateStrictRPF parseFails
        ⟨(Server.ActivateStrictRPF lengthDigest parsePrefix {} podSpoof []).vpp, fun _ => none⟩
        podSpoofActive).trace.drop 5 =
      [.RouteDel (podSpoofActive.rpfRoute podSpoofAddress), .DelVRF 3 false, .DelVRF 4 true] ∧
    (Server.DeactivateStrictRPF parseFails
        ⟨(Server.ActivateStrictRPF lengthDigest parsePrefix {} podSpoof []).vpp, fun _ => none⟩
        podSpoofActive).dp.routes =
      [podSpoofActive.spoofRoute podSpoofAddress spoofPrefix] := by
  decide

/-- C13, amended.  For a spec with one container address `A` and a non-empty
annotation, `DeactivateStrictRPF` issues, in order: the `RouteDel` of the RPF
route of `A`, one `RouteDel` for every prefix the parser returns at
deactivation time (whether or not it returns an error next to them), and the
`DelVRF` of the RPF VRF of both families. -/
theorem DeactivateStrictRPF_one_address (parse : SpoofParser) (s : Server)
    (podSpec : LocalPodSpec) (A : IP)
    (hips : podSpec.ContainerIps = [⟨A⟩])
    (hann : podSpec.AllowedSpoofingPrefixes ≠ []) :
    (s.DeactivateStrictRPF parse podSpec).trace =
      s.vpp.trace ++ [.RouteDel (podSpec.rpfRoute ⟨A, GetMaxCIDRMask A⟩)] ++
        (parse podSpec.AllowedSpoofingPrefixes).1.map
          (fun P => Call.RouteDel (podSpec.spoofRoute ⟨A, GetMaxCIDRMask A⟩ P)) ++
        [.DelVRF (podSpec.GetRPFVrfID IPFamilyV4) false,
          .DelVRF (podSpec.GetRPFVrfID IPFamilyV6) true] := by
  rw [DeactivateStrictRPF_trace_eq]
  simp [LocalPodSpec.rpfRoutes, LocalPodSpec.GetContainerIps, hips, hann, Function.comp_def,
    LocalPodSpec.GetRPFVrfID, IPFamilyV4, IPFamilyV6]

/-- The hypotheses of the amended C13 hold for the activated pod
`podSpoofActive`. -/
theorem DeactivateStrictRPF_one_address_witness :
    (podSpoofActive.ContainerIps = [⟨[10, 1, 2, 3]⟩] ∧ podSpoofActive.AllowedSpoofingPrefixes ≠ []) ∧
    (Server.DeactivateStrictRPF parsePrefix {} podSpoofActive).trace =
      ({} : Server).vpp.trace ++
        [.RouteDel (podSpoofActive.rpfRoute ⟨[10, 1, 2, 3], GetMaxCIDRMask [10, 1, 2, 3]⟩)] ++
        (parsePrefix podSpoofActive.AllowedSpoofingPrefixes).1.map
          (fun P => Call.RouteDel
            (podSpoofActive.spoofRoute ⟨[10, 1, 2, 3], GetMaxCIDRMask [10, 1, 2, 3]⟩ P)) ++
        [.DelVRF (podSpoofActive.GetRPFVrfID IPFamilyV4) false,
          .DelVRF (podSpoofActive.GetRPFVrfID IPFamilyV6) true] :=
  ⟨by decide, DeactivateStrictRPF_one_address parsePrefix {} podSpoofActive [10, 1, 2, 3]
    (by decide) (by decide)⟩

/-! ## C14: the routes of `RoutePodInterface` -/

theorem podInterfaceTable_isSome (s : Server) (podSpec : LocalPodSpec) (inPodVrf : Bool)
    (ip : IPNet)
    (hreg : podSpec.NetworkName = [] ∨ s.networkDefinitions podSpec.NetworkName = none ∨
      ∃ nd, s.networkDefinitions podSpec.NetworkName = some (.networkDefinition (some nd))) :
    ∃ table, s.podInterfaceTable podSpec inPodVrf ip = some table := by
  apply Option.isSome_iff_exists.1
  unfold Server.podInterfaceTable
  by_cases hname : podSpec.NetworkName = []
  · by_cases hin : inPodVrf = true
    · simp [hname, hin]
    · simp [hname, hin]
  · rcases hreg with h | h | ⟨nd, h⟩
    · exact absurd h hname
    · simp [hname, h]
    · simp [hname, h]

theorem RoutePodInterface_loop_all_ok (s : Server) (podSpec : LocalPodSpec) (swIfIndex : Nat)
    (isL3 inPodVrf : Bool)
    (hreg : podSpec.NetworkName = [] ∨ s.networkDefinitions podSpec.NetworkName = none ∨
      ∃ nd, s.networkDefinitions podSpec.NetworkName = some (.networkDefinition (some nd))) :
    ∀ (ips : List IPNet) (vpp : VppLink) (stack : CleanupStack),
      (∀ n, vpp.faults n = none) →
      (Server.RoutePodInterface.loop s podSpec swIfIndex isL3 inPodVrf ips vpp stack).result
        = .nil := by
  intro ips
  induction ips with
  | nil => intro vpp stack _; rfl
  | cons ip rest ih =>
    intro vpp stack hf
    obtain ⟨table, htab⟩ := podInterfaceTable_isSome s podSpec inPodVrf ip hreg
    simp only [Server.RoutePodInterface.loop, htab]
    obtain ⟨h1, -, -, h4⟩ := call_no_faults vpp (.RouteAdd ⟨ip, [⟨[], swIfIndex, 0⟩], table⟩) hf
    simp only [h1]
    cases isL3 with
    | true =>
      simp only [Bool.not_true, Bool.false_eq_true, if_false]
      exact ih _ _ h4
    | false =>
      simp only [Bool.not_false, if_true]
      obtain ⟨n1, -, -, n4⟩ := call_no_faults
        (vpp.call (.RouteAdd ⟨ip, [⟨[], swIfIndex, 0⟩], table⟩)).vpp
        (.AddNeighbor ⟨swIfIndex, ip.IP, ContainerSideMacAddress, .IPNeighborStatic⟩) h4
      simp only [n1]
      exact ih _ _ n4

/-- C14.  The `RouteAdd` calls of `RoutePodInterface` are for the container
addresses in order, one route per address: for all of them when it returns
nil (the calls are then exactly one `RouteAdd` per address, followed by the
`AddNeighbor` of the address when `isL3` is false), for the first ones
otherwise.  Every such route has the address as destination, the single path
through `swIfIndex`, and as table: the table of the registered network
definition for the family of the address (index 0 for IPv4, 1 for IPv6) when
`NetworkName` is non-empty and registered, whatever `inPodVrf` is; 0 when
`NetworkName` is non-empty and not in the registry; the pod VRF ID of the
spec for the family of the address when `NetworkName` is empty and
`inPodVrf` is true; 0 when `NetworkName` is empty and `inPodVrf` is false.
And `RoutePodInterface` does return nil, so that the route of every
container address is added, when the dataplane calls succeed and the network
name is empty, not registered (the failed lookup is not an error) or
registered with a network definition. -/
theorem RoutePodInterface_route_per_address (s : Server) (podSpec : LocalPodSpec)
    (stack : CleanupStack) (swIfIndex : Nat) (isL3 inPodVrf : Bool) :
    (∃ (calls : List Call) (routes : List Route),
      (s.RoutePodInterface podSpec stack swIfIndex isL3 inPodVrf).vpp.trace =
        s.vpp.trace ++ calls ∧
      calls.filterMap Call.addedRoute = routes ∧
      routes.map (fun r => r.Dst) <+: podSpec.GetContainerIps ∧
      ((s.RoutePodInterface podSpec stack swIfIndex isL3 inPodVrf).result = .nil →
        routes.map (fun r => r.Dst) = podSpec.GetContainerIps ∧
        calls = routes.flatMap (fun r =>
          Call.RouteAdd r ::
            (if isL3 then [] else [Call.AddNeighbor (podNeighbor swIfIndex r.Dst.IP)]))) ∧
      ∀ r ∈ routes,
        r.Paths = [{ SwIfIndex := swIfIndex }] ∧
        (podSpec.NetworkName ≠ [] → ∀ nd,
          s.networkDefinitions podSpec.NetworkName = some (.networkDefinition (some nd)) →
          r.Table = nd.VRF.Tables (if IsIP6 r.Dst.IP then 1 else 0)) ∧
        (podSpec.NetworkName ≠ [] → s.networkDefinitions podSpec.NetworkName = none →
          r.Table = 0) ∧
        (podSpec.NetworkName = [] → inPodVrf = true →
          r.Table = if IsIP6 r.Dst.IP then podSpec.V6VrfID else podSpec.V4VrfID) ∧
        (podSpec.NetworkName = [] → inPodVrf = false → r.Table = 0)) ∧
    ((∀ n, s.vpp.faults n = none) →
      (podSpec.NetworkName = [] ∨ s.networkDefinitions podSpec.NetworkName = none ∨
        ∃ nd, s.networkDefinitions podSpec.NetworkName =
          some (.networkDefinition (some nd))) →
      (s.RoutePodInterface podSpec stack swIfIndex isL3 inPodVrf).result = .nil ∧
      (s.RoutePodInterface podSpec stack swIfIndex isL3 inPodVrf).vpp.trace =
        s.vpp.trace ++ podSpec.GetContainerIps.flatMap (fun ip =>
          Call.RouteAdd ⟨ip, [⟨[], swIfIndex, 0⟩],
              (s.podInterfaceTable podSpec inPodVrf ip).getD 0⟩ ::
            (if isL3 then [] else [Call.AddNeighbor (podNeighbor swIfIndex ip.IP)]))) := by
  constructor
  · obtain ⟨calls, done, h1, h2, h3, h4⟩ :=
      RoutePodInterface_loop_adds s podSpec swIfIndex isL3 inPodVrf podSpec.GetContainerIps
        s.vpp stack
    refine ⟨calls, _, h1, h2, ?_, ?_, ?_⟩
    · simpa [Function.comp_def] using h3
    · intro hres
      have hd := h4 hres
      subst hd
      refine ⟨by simp [Function.comp_def], ?_⟩
      have h5 := (RoutePodInterface_loop_trace s podSpec swIfIndex isL3 inPodVrf _ _ _ hres).1
      rw [h1] at h5
      have h6 := List.append_cancel_left h5
      rw [h6]
      simp [List.flatMap_map]
    · intro r hr
      obtain ⟨ip, _, rfl⟩ := List.mem_map.1 hr
      exact ⟨rfl, podInterfaceTable_cases s podSpec inPodVrf ip⟩
  · intro hf hreg
    have hres := RoutePodInterface_loop_all_ok s podSpec swIfIndex isL3 inPodVrf hreg
      podSpec.GetContainerIps s.vpp stack hf
    exact ⟨hres, (RoutePodInterface_loop_trace s podSpec swIfIndex isL3 inPodVrf _ _ _ hres).1⟩

/-- C14 at an example: for the pod with the address 10.1.2.3 on a network
that is not registered, on an empty dataplane whose calls succeed,
`RoutePodInterface(5, isL3 = true, inPodVrf = true)` returns nil, its one
call adds the route to 10.1.2.3/32 through interface 5 in table 0, and the
`RouteDel` of this route is pushed. -/
theorem RoutePodInterface_route_per_address_witness :
    ((∀ n, ({} : Server).vpp.faults n = none) ∧ podUnknownNetAddress.NetworkName ≠ [] ∧
      ({} : Server).networkDefinitions podUnknownNetAddress.NetworkName = none) ∧
    ((Server.RoutePodInterface {} podUnknownNetAddress [] 5 true true).result = .nil ∧
      (Server.RoutePodInterface {} podUnknownNetAddress [] 5 true true).vpp.trace =
        ({} : Server).vpp.trace ++ podUnknownNetAddress.GetContainerIps.flatMap (fun ip =>
          Call.RouteAdd ⟨ip, [⟨[], 5, 0⟩],
              (Server.podInterfaceTable {} podUnknownNetAddress true ip).getD 0⟩ ::
            (if true then [] else [Call.AddNeighbor (podNeighbor 5 ip.IP)]))) ∧
    (Server.RoutePodInterface {} podUnknownNetAddress [] 5 true true).vpp.trace =
      [.RouteAdd routeOneAddress] ∧
    (Server.RoutePodInterface {} podUnknownNetAddress [] 5 true true).vpp.dp.routes =
      [routeOneAddress] ∧
    (Server.RoutePodInterface {} podUnknownNetAddress [] 5 true true).stack =
      [.RouteDel routeOneAddress] :=
  ⟨⟨fun _ => rfl, by decide, rfl⟩,
    (RoutePodInterface_route_per_address {} podUnknownNetAddress [] 5 true true).2
      (fun _ => rfl) (Or.inr (Or.inl rfl)),
    by decide, by decide, by decide⟩

/-! ## C15: `CreatePodVRF` on an unknown network -/

/-- C16.  For a spec with an empty `NetworkName` and the single IPv4 container
address `A`, on an empty dataplane and a client whose calls all succeed:
`CreatePodVRF`, `RoutePodInterface(swIfIndex, isL3 = true, inPodVrf = true)`
and `CreateVRFRoutesToPod` all return nil, and the dataplane then holds
exactly the IPv4 VRF 3 and the IPv6 VRF 4 (with the pod VRF tags, so no RPF
VRF), a default route and a default multicast route from each of them to
`PodVRFIndex`, the route for `A` in table 3 through `swIfIndex`, and the
route for `A` in table 0 into table 3; the RPF handles of the spec are
untouched.  After `DeleteVRFRoutesToPod`,
`UnroutePodInterface(swIfIndex, true)` and `DeletePodVRF` on the spec the
provisioning left, nothing panicked and the dataplane is empty again. -/
theorem provision_teardown_L3 (lib : Sha512Base64) (s : Server) (podSpec : LocalPodSpec)
    (stack : CleanupStack) (swIfIndex : Nat) (A : IP)
    (hname : podSpec.NetworkName = [])
    (hips : podSpec.ContainerIps = [⟨A⟩])
    (hv4 : IsIP6 A = false)
    (hdp : s.vpp.dp = {})
    (hf : ∀ n, s.vpp.faults n = none) :
    (s.provisionL3 lib podSpec stack swIfIndex).result = .nil ∧
    (s.provisionL3 lib podSpec stack swIfIndex).vpp.dp =
      ⟨[⟨4, true, podSpec.GetVrfTag lib IPFamilyV6 []⟩, ⟨3, false, podSpec.GetVrfTag lib IPFamilyV4 []⟩],
        [⟨⟨A, GetMaxCIDRMask A⟩, [⟨[], InvalidID, 3⟩], 0⟩, ⟨⟨A, GetMaxCIDRMask A⟩, [⟨[], swIfIndex, 0⟩], 3⟩],
        [(4, PodVRFIndex, true), (3, PodVRFIndex, false)],
        [(4, PodVRFIndex, true), (3, PodVRFIndex, false)], [], [], []⟩ ∧
    (s.provisionL3 lib podSpec stack swIfIndex).podSpec.V4RPFVrfID = podSpec.V4RPFVrfID ∧
    (s.provisionL3 lib podSpec stack swIfIndex).podSpec.V6RPFVrfID = podSpec.V6RPFVrfID ∧
    (Server.teardownL3 { s with vpp := (s.provisionL3 lib podSpec stack swIfIndex).vpp }
      (s.provisionL3 lib podSpec stack swIfIndex).podSpec swIfIndex).panicked = none ∧
    (Server.teardownL3 { s with vpp := (s.provisionL3 lib podSpec stack swIfIndex).vpp }
      (s.provisionL3 lib podSpec stack swIfIndex).podSpec swIfIndex).vpp.dp = {} := by
  obtain ⟨⟨dp, t, faults, fv⟩, reg⟩ := s
  simp only at hdp hf
  subst hdp
  have h4 : (To4 A).isNone = false := hv4
  have hprov : Server.provisionL3 lib ⟨⟨{}, t, faults, fv⟩, reg⟩ podSpec stack swIfIndex =
      ⟨.nil, ⟨⟨[⟨4, true, podSpec.GetVrfTag lib IPFamilyV6 []⟩, ⟨3, false, podSpec.GetVrfTag lib IPFamilyV4 []⟩],
        [⟨⟨A, GetMaxCIDRMask A⟩, [⟨[], InvalidID, 3⟩], 0⟩, ⟨⟨A, GetMaxCIDRMask A⟩, [⟨[], swIfIndex, 0⟩], 3⟩],
        [(4, PodVRFIndex, true), (3, PodVRFIndex, false)],
        [(4, PodVRFIndex, true), (3, PodVRFIndex, false)], [], [], []⟩,
        (Server.provisionL3 lib ⟨⟨{}, t, faults, fv⟩, reg⟩ podSpec stack swIfIndex).vpp.trace, faults, fv⟩,
        (podSpec.SetVrfID 3 IPFamilyV4).SetVrfID 4 IPFamilyV6,
        (Server.provisionL3 lib ⟨⟨{}, t, faults, fv⟩, reg⟩ podSpec stack swIfIndex).stack⟩ := by
    simp [Server.provisionL3, Server.CreatePodVRF, IPFamilies, Server.CreatePodVRF.allocate,
      Server.CreatePodVRF.defaultRoutes, Server.RoutePodInterface, Server.RoutePodInterface.loop,
      Server.CreateVRFRoutesToPod, Server.CreateVRFRoutesToPod.loop, Server.podInterfaceTable,
      LocalPodSpec.GetContainerIps, LocalPodSpec.vrfRouteToPod, IPFamilyFromIPNet,
      call_ok, hf, CleanupStack.Push, GetVrfTag_SetVrfID, NetworkName_SetVrfID, IsIP6_families,
      apply_AllocateVRF_snd, Dataplane.apply, Dataplane.freshVrfID, PuntTableID, PodVRFIndex,
      hname, hips, h4, GetVrfID_SetVrfID_V4, GetVrfID_SetVrfID_V6, SetVrfID_fields]
  rw [hprov]
  generalize (Server.provisionL3 lib ⟨⟨{}, t, faults, fv⟩, reg⟩ podSpec stack swIfIndex).vpp.trace
    = t1
  simp [Server.teardownL3, Server.DeleteVRFRoutesToPod, Server.DeleteVRFRoutesToPod.loop,
    Server.UnroutePodInterface, Server.UnroutePodInterface.loop, Server.DeletePodVRF,
    Server.DeletePodVRF.defaultRoutes, Server.DeletePodVRF.delVRFs, Server.deleteVRFIndex,
    Server.podInterfaceTable, LocalPodSpec.GetContainerIps, LocalPodSpec.vrfRouteToPod,
    IPFamilyFromIPNet, IPFamilies, call_ok, hf, NetworkName_SetVrfID, IsIP6_families,
    Dataplane.apply, PodVRFIndex, hname, hips, h4, GetVrfID_SetVrfID_V4, GetVrfID_SetVrfID_V6,
    SetVrfID_fields]

/-- The hypotheses of C16 hold for the pod with the one address 10.1.2.3 and
the interface 5. -/
theorem provision_teardown_L3_witness :
    (podOneAddress.NetworkName = [] ∧ podOneAddress.ContainerIps = [⟨[10, 1, 2, 3]⟩] ∧
      IsIP6 [10, 1, 2, 3] = false ∧ ({} : Server).vpp.dp = {} ∧
      ∀ n, ({} : Server).vpp.faults n = none) ∧
    (Server.provisionL3 lengthDigest {} podOneAddress [] 5).result = .nil ∧
    (Server.provisionL3 lengthDigest {} podOneAddress [] 5).vpp.dp.routes =
      [⟨⟨[10, 1, 2, 3], [255, 255, 255, 255]⟩, [⟨[], InvalidID, 3⟩], 0⟩,
        ⟨⟨[10, 1, 2, 3], [255, 255, 255, 255]⟩, [⟨[], 5, 0⟩], 3⟩] ∧
    (Server.teardownL3 ⟨(Server.provisionL3 lengthDigest {} podOneAddress [] 5).vpp, fun _ => none⟩
      (Server.provisionL3 lengthDigest {} podOneAddress [] 5).podSpec 5).vpp.dp = {} :=
  have h := provision_teardown_L3 lengthDigest {} podOneAddress [] 5 [10, 1, 2, 3] rfl rfl rfl rfl
    (fun _ => rfl)
  ⟨⟨rfl, rfl, rfl, rfl, fun _ => rfl⟩, h.1, by rw [h.2.1]; rfl, h.2.2.2.2.2⟩

/-! ## C17: activation when the annotation does not parse -/

/-- C17.  For a spec with at least one container address and a non-empty
annotation on which the parser returns an error, `ActivateStrictRPF` returns
an error and none of the calls it issues is `SetCustomURPF`, whichever
dataplane calls fail. -/
theorem ActivateStrictRPF_parse_failure (lib : Sha512Base64) (parse : SpoofParser) (s : Server)
    (podSpec : LocalPodSpec) (stack : CleanupStack) (e : GoError)
    (hips : podSpec.ContainerIps ≠ [])
    (hann : podSpec.AllowedSpoofingPrefixes ≠ [])
    (hparse : (parse podSpec.AllowedSpoofingPrefixes).2 = some e) :
    (∃ err, (s.ActivateStrictRPF lib parse podSpec stack).result = .error err) ∧
    ∃ calls, (s.ActivateStrictRPF lib parse podSpec stack).vpp.trace = s.vpp.trace ++ calls ∧
      ∀ swIfIndex tableID, Call.SetCustomURPF swIfIndex tableID ∉ calls := by
  obtain ⟨⟨dp, t, faults, fv⟩, reg⟩ := s
  obtain ⟨a, rest, hcons⟩ := List.exists_cons_of_ne_nil hips
  have hget : podSpec.GetContainerIps =
      ⟨a.IP, GetMaxCIDRMask a.IP⟩ :: rest.map (fun c => ⟨c.IP, GetMaxCIDRMask c.IP⟩) := by
    simp [LocalPodSpec.GetContainerIps, hcons]
  rcases h0 : faults t.length with _ | e0
  · rcases h1 : faults (t.length + 1) with _ | e1
    · rcases h2 : faults (t.length + 2) with _ | e2
      · simp [Server.ActivateStrictRPF, Server.CreatePodRPFVRF, Server.CreatePodRPFVRF.loop,
      IPFamilies, call_ok, CleanupStack.Push, Server.AddRPFRoutes,
      Server.AddRPFRoutes.loop, Server.AddRPFRoutes.spoofing, SetRPFVrfID_fields,
      GetContainerIps_SetRPFVrfID, hget, hann, hparse, h0, h1, h2]
      · have cf := fun dp t fv c => call_fail dp t faults fv c e2
        simp [Server.ActivateStrictRPF, Server.CreatePodRPFVRF, Server.CreatePodRPFVRF.loop,
      IPFamilies, call_ok, CleanupStack.Push, Server.AddRPFRoutes,
      Server.AddRPFRoutes.loop, Server.AddRPFRoutes.spoofing, SetRPFVrfID_fields,
      GetContainerIps_SetRPFVrfID, hget, hann, hparse, h0, h1, h2, cf]
    · have cf := fun dp t fv c => call_fail dp t faults fv c e1
      simp [Server.ActivateStrictRPF, Server.CreatePodRPFVRF, Server.CreatePodRPFVRF.loop,
      IPFamilies, call_ok, CleanupStack.Push, Server.AddRPFRoutes,
      Server.AddRPFRoutes.loop, Server.AddRPFRoutes.spoofing, SetRPFVrfID_fields,
      GetContainerIps_SetRPFVrfID, hget, hann, hparse, h0, h1, cf]
  · have cf := fun dp t fv c => call_fail dp t faults fv c e0
    simp [Server.ActivateStrictRPF, Server.CreatePodRPFVRF, Server.CreatePodRPFVRF.loop,
      IPFamilies, call_ok, CleanupStack.Push, Server.AddRPFRoutes,
      Server.AddRPFRoutes.loop, Server.AddRPFRoutes.spoofing, SetRPFVrfID_fields,
      GetContainerIps_SetRPFVrfID, hget, hann, hparse, h0, cf]

/-- The hypotheses of C17 hold for the pod `podSpoof` and a parser that
fails. -/
theorem ActivateStrictRPF_parse_failure_witness :
    (podSpoof.ContainerIps ≠ [] ∧ podSpoof.AllowedSpoofingPrefixes ≠ [] ∧
      (parseFails podSpoof.AllowedSpoofingPrefixes).2 =
        some (.errorf "failed to parse annotation")) ∧
    (∃ err, (Server.ActivateStrictRPF lengthDigest parseFails {} podSpoof []).result =
      .error err) ∧
    ∃ calls, (Server.ActivateStrictRPF lengthDigest parseFails {} podSpoof []).vpp.trace =
        ({} : Server).vpp.trace ++ calls ∧
      ∀ swIfIndex tableID, Call.SetCustomURPF swIfIndex tableID ∉ calls :=
  ⟨by decide, ActivateStrictRPF_parse_failure lengthDigest parseFails {} podSpoof []
    (.errorf "failed to parse annotation") (by decide) (by decide) rfl⟩

/-! ## C18: `DeactivateStrictRPF` never stops partway -/

/-- C18.  For every client (whichever of its calls fail) and every parser
(whether or not it returns an error), the calls of `DeactivateStrictRPF` are
exactly: the `RouteDel` of every RPF route of the spec, then the `DelVRF` of
the RPF VRF of IPv4 and of IPv6; the RPF route of every container address is
among the deleted routes. -/
theorem DeactivateStrictRPF_never_stops (parse : SpoofParser) (s : Server)
    (podSpec : LocalPodSpec) :
    (s.DeactivateStrictRPF parse podSpec).trace =
      s.vpp.trace ++ (podSpec.rpfRoutes parse).map Call.RouteDel ++
        [.DelVRF (podSpec.GetRPFVrfID IPFamilyV4) false,
          .DelVRF (podSpec.GetRPFVrfID IPFamilyV6) true] ∧
    ∀ containerIP ∈ podSpec.GetContainerIps,
      Call.RouteDel (podSpec.rpfRoute containerIP) ∈
        (podSpec.rpfRoutes parse).map Call.RouteDel := by
  refine ⟨?_, ?_⟩
  · rw [DeactivateStrictRPF_trace_eq]
    rfl
  · intro ip hip
    apply List.mem_map_of_mem
    unfold LocalPodSpec.rpfRoutes
    rw [List.mem_flatMap]
    exact ⟨ip, hip, List.mem_cons_self _ _⟩

/-! ## C19: `DeletePodVRF` -/

/-- C19.  When the network name of the spec is empty, not registered, or
registered with a network definition, `DeletePodVRF` does not panic and, for
every client (whichever of its calls fail), issues exactly six calls: for
IPv4 then IPv6, `DelDefaultRouteViaTable` followed by
`DelDefaultMRouteViaTable` from the pod VRF of the family to the upstream
table, and then `DelVRF` for the IPv4 and the IPv6 pod VRF.  The upstream
table is `PodVRFIndex` when `NetworkName` is empty, 0 when the name is not
registered, and the table of the definition for the family otherwise.  The
function has no error result. -/
theorem DeletePodVRF_six_calls (s : Server) (podSpec : LocalPodSpec)
    (hreg : podSpec.NetworkName = [] ∨ s.networkDefinitions podSpec.NetworkName = none ∨
      ∃ nd, s.networkDefinitions podSpec.NetworkName = some (.networkDefinition (some nd))) :
    (s.DeletePodVRF podSpec).panicked = none ∧
    ∃ upstream4 upstream6 : Nat,
      (s.DeletePodVRF podSpec).vpp.trace = s.vpp.trace ++
        [.DelDefaultRouteViaTable podSpec.V4VrfID upstream4 false,
          .DelDefaultMRouteViaTable podSpec.V4VrfID upstream4 false,
          .DelDefaultRouteViaTable podSpec.V6VrfID upstream6 true,
          .DelDefaultMRouteViaTable podSpec.V6VrfID upstream6 true,
          .DelVRF podSpec.V4VrfID false,
          .DelVRF podSpec.V6VrfID true] ∧
      (podSpec.NetworkName = [] → upstream4 = PodVRFIndex ∧ upstream6 = PodVRFIndex) ∧
      (podSpec.NetworkName ≠ [] → s.networkDefinitions podSpec.NetworkName = none →
        upstream4 = 0 ∧ upstream6 = 0) ∧
      (podSpec.NetworkName ≠ [] → ∀ nd,
        s.networkDefinitions podSpec.NetworkName = some (.networkDefinition (some nd)) →
        upstream4 = nd.PodVRF.Tables 0 ∧ upstream6 = nd.PodVRF.Tables 1) := by
  by_cases hname : podSpec.NetworkName = []
  · refine ⟨?_, PodVRFIndex, PodVRFIndex, ?_, ?_, ?_, ?_⟩ <;>
      simp [Server.DeletePodVRF, Server.DeletePodVRF.defaultRoutes, Server.DeletePodVRF.delVRFs,
        Server.deleteVRFIndex, IPFamilies, call_trace, hname, LocalPodSpec.GetVrfID,
        IPFamilyV4, IPFamilyV6]
  · rcases hreg with h | h | ⟨nd, h⟩
    · exact absurd h hname
    · refine ⟨?_, 0, 0, ?_, ?_, ?_, ?_⟩ <;>
        simp [Server.DeletePodVRF, Server.DeletePodVRF.defaultRoutes,
          Server.DeletePodVRF.delVRFs, Server.deleteVRFIndex, IPFamilies, call_trace, hname, h,
          LocalPodSpec.GetVrfID, IPFamilyV4, IPFamilyV6]
    · refine ⟨?_, nd.PodVRF.Tables 0, nd.PodVRF.Tables 1, ?_, ?_, ?_, ?_⟩ <;>
        simp [Server.DeletePodVRF, Server.DeletePodVRF.defaultRoutes,
          Server.DeletePodVRF.delVRFs, Server.deleteVRFIndex, IPFamilies, call_trace, hname, h,
          LocalPodSpec.GetVrfID, IPFamilyV4, IPFamilyV6]

/-- The hypothesis of C19 holds for the pod `podWithHandles` on a client whose
calls all fail: the six calls are issued. -/
theorem DeletePodVRF_six_calls_witness :
    (failAll.DeletePodVRF podWithHandles).panicked = none ∧
    (failAll.DeletePodVRF podWithHandles).vpp.trace =
      [.DelDefaultRouteViaTable 7 2 false, .DelDefaultMRouteViaTable 7 2 false,
        .DelDefaultRouteViaTable 0 2 true, .DelDefaultMRouteViaTable 0 2 true,
        .DelVRF 7 false, .DelVRF 0 true] := by
  obtain ⟨h, u4, u6, ht, hu, _⟩ := DeletePodVRF_six_calls failAll podWithHandles (Or.inl rfl)
  obtain ⟨h4, h6⟩ := hu rfl
  subst h4 h6
  exact ⟨h, ht⟩

/-! ## C20: the last call of `ActivateStrictRPF` -/

/-- C20 fails as stated.  On a client whose calls all succeed, with a parser
that returns an error, `ActivateStrictRPF` for `podSpoof` returns an error;
its last call is the `RouteAdd` of the container-address route, and the entry
on top of the cleanup stack is the `RouteDel` of this route. -/
theorem ActivateStrictRPF_parse_failure_last_call :
    (∀ n, ({} : Server).vpp.faults n = none) ∧
    (∃ err, (Server.ActivateStrictRPF lengthDigest parseFails {} podSpoof []).result
      = .error err) ∧
    (Server.ActivateStrictRPF lengthDigest parseFails {} podSpoof []).vpp.trace.getLast? =
      some (.RouteAdd (podSpoofActive.rpfRoute podSpoofAddress)) ∧
    (Server.ActivateStrictRPF lengthDigest parseFails {} podSpoof []).stack.head? =
      some (.RouteDel (podSpoofActive.rpfRoute podSpoofAddress)) := by
  refine ⟨fun _ => rfl, ⟨_, rfl⟩, by decide, by decide⟩

/-- C20, amended.  When every dataplane call succeeds and the annotation is not
read (no container address, or an empty annotation) or parses without error,
`ActivateStrictRPF` returns nil, its last call is
`SetCustomURPF(TunTapSwIfIndex, v)`, where `v` is the value returned by the
allocation of the IPv4 RPF VRF, and the entry on top of the cleanup stack is
`UnsetURPF(TunTapSwIfIndex)`. -/
theorem ActivateStrictRPF_last_call (lib : Sha512Base64) (parse : SpoofParser) (s : Server)
    (podSpec : LocalPodSpec) (stack : CleanupStack)
    (hf : ∀ n, s.vpp.faults n = none)
    (hparse : podSpec.ContainerIps = [] ∨ podSpec.AllowedSpoofingPrefixes = [] ∨
      (parse podSpec.AllowedSpoofingPrefixes).2 = none) :
    (s.ActivateStrictRPF lib parse podSpec stack).result = .nil ∧
    (s.ActivateStrictRPF lib parse podSpec stack).vpp.trace.getLast? =
      some (.SetCustomURPF podSpec.TunTapSwIfIndex
        (s.vpp.call (.AllocateVRF false (podSpec.GetVrfTag lib IPFamilyV4 [82, 80, 70]))).value) ∧
    (s.ActivateStrictRPF lib parse podSpec stack).stack.head? =
      some (.UnsetURPF podSpec.TunTapSwIfIndex) := by
  have hres := ActivateStrictRPF_all_ok lib parse s podSpec stack hf hparse
  obtain ⟨-, h2, h3⟩ := ActivateStrictRPF_ok_spec lib parse s podSpec stack hres
  refine ⟨hres, ?_, ?_⟩
  · rw [h2, (call_no_faults s.vpp _ hf).2.1, List.getLast?_concat, apply_AllocateVRF_snd]
  · rw [h3]
    rfl

/-- The hypotheses of the amended C20 hold for the pod `podSpoof` on an empty
dataplane with a parser that succeeds. -/
theorem ActivateStrictRPF_last_call_witness :
    (Server.ActivateStrictRPF lengthDigest parsePrefix {} podSpoof []).result = .nil ∧
    (Server.ActivateStrictRPF lengthDigest parsePrefix {} podSpoof []).vpp.trace.getLast? =
      some (.SetCustomURPF podSpoof.TunTapSwIfIndex
        ((({} : Server).vpp).call
          (.AllocateVRF false (podSpoof.GetVrfTag lengthDigest IPFamilyV4 [82, 80, 70]))).value) ∧
    (Server.ActivateStrictRPF lengthDigest parsePrefix {} podSpoof []).stack.head? =
      some (.UnsetURPF podSpoof.TunTapSwIfIndex) :=
  ActivateStrictRPF_last_call lengthDigest parsePrefix {} podSpoof [] (fun _ => rfl)
    (Or.inr (Or.inr rfl))

/-! ## Helper lemmas for C21 to C26 -/

theorem ActivateStrictRPF_ok_first_call (lib : Sha512Base64) (parse : SpoofParser) (s : Server)
    (podSpec : LocalPodSpec) (stack : CleanupStack)
    (h : (s.ActivateStrictRPF lib parse podSpec stack).result = .nil) :
    (s.vpp.call (.AllocateVRF false (podSpec.GetVrfTag lib IPFamilyV4 [82, 80, 70]))).err = none ∧
    (s.vpp.call (.AllocateVRF false (podSpec.GetVrfTag lib IPFamilyV4 [82, 80, 70]))).value =
      s.vpp.dp.freshVrfID := by
  obtain ⟨⟨dp, t, faults, fv⟩, reg⟩ := s
  rcases h0 : faults t.length with _ | e0
  · simp [call_ok, h0, apply_AllocateVRF_snd]
  · have cf := fun dp t fv c => call_fail dp t faults fv c e0
    simp [Server.ActivateStrictRPF, Server.CreatePodRPFVRF, Server.CreatePodRPFVRF.loop,
      IPFamilies, cf, h0] at h

theorem CreateVRFRoutesToPod_loop_spec (podSpec : LocalPodSpec) :
    ∀ (ips : List IPNet) (vpp : VppLink) (stack : CleanupStack),
      (Server.CreateVRFRoutesToPod.loop podSpec ips vpp stack).result = .nil →
      (Server.CreateVRFRoutesToPod.loop podSpec ips vpp stack).vpp.trace =
        vpp.trace ++ ips.map (fun ip => Call.RouteAdd (podSpec.vrfRouteToPod ip)) ∧
      (Server.CreateVRFRoutesToPod.loop podSpec ips vpp stack).stack =
        (ips.map (fun ip => Call.RouteDel (podSpec.vrfRouteToPod ip))).reverse ++ stack := by
  intro ips
  induction ips with
  | nil => intro vpp stack _; simp [Server.CreateVRFRoutesToPod.loop]
  | cons ip rest ih =>
    intro vpp stack h
    simp only [Server.CreateVRFRoutesToPod.loop] at h ⊢
    cases hA : (vpp.call (.RouteAdd (podSpec.vrfRouteToPod ip))).err with
    | some err => simp [hA] at h
    | none =>
      simp only [hA] at h ⊢
      obtain ⟨h1, h2⟩ := ih _ _ h
      rw [h1, h2]
      simp [call_trace, CleanupStack.Push]

theorem rpfRoutesOf_length (parse : SpoofParser) (podSpec : LocalPodSpec) (ips : List IPNet) :
    (podSpec.rpfRoutesOf parse ips).length =
      ips.length + ips.length *
        (if podSpec.AllowedSpoofingPrefixes = [] then 0
          else (parse podSpec.AllowedSpoofingPrefixes).1.length) := by
  induction ips with
  | nil => simp [LocalPodSpec.rpfRoutesOf]
  | cons ip rest ih =>
    have hcons : podSpec.rpfRoutesOf parse (ip :: rest) =
        (podSpec.rpfRoute ip ::
          (if podSpec.AllowedSpoofingPrefixes ≠ [] then
            (parse podSpec.AllowedSpoofingPrefixes).1.map (podSpec.spoofRoute ip)
          else [])) ++ podSpec.rpfRoutesOf parse rest := by
      simp [LocalPodSpec.rpfRoutesOf]
    rw [hcons, List.length_append, ih]
    by_cases h : podSpec.AllowedSpoofingPrefixes = []
    · simp [h]; omega
    · simp [h]; ring

theorem getLast_cons_getD {α : Type} (a d : α) (l : List α) :
    (a :: l).getLast?.getD d = l.getLast?.getD a := by
  cases l with
  | nil => rfl
  | cons b l =>
    rw [List.getLast?_cons_cons]
    cases h : (b :: l).getLast? with
    | none => simp at h
    | some x => rfl

theorem RoutePblPortsPodInterface_loop_spec (swIfIndex : Nat) (isL3 : Bool) :
    ∀ (ips : List IPNet) (vpp : VppLink) (podSpec : LocalPodSpec) (stack : CleanupStack),
      ∃ (calls : List Call) (done : List IPNet),
        (Server.RoutePblPortsPodInterface.loop swIfIndex isL3 ips vpp podSpec stack).vpp.trace
          = vpp.trace ++ calls ∧
        calls.filterMap Call.addedClient = done.map (podSpec.pblClient swIfIndex isL3) ∧
        done <+: ips ∧
        ((Server.RoutePblPortsPodInterface.loop swIfIndex isL3 ips vpp podSpec stack).result
          = .nil → done = ips ∧ (vpp.pblIndexes calls).length = ips.length) ∧
        (Server.RoutePblPortsPodInterface.loop swIfIndex isL3 ips vpp podSpec stack).stack =
          ((vpp.pblIndexes calls).map Call.DelPblClient).reverse ++ stack ∧
        (Server.RoutePblPortsPodInterface.loop swIfIndex isL3 ips vpp podSpec stack).podSpec =
          { podSpec with
            PblIndex := (vpp.pblIndexes calls).getLast?.getD podSpec.PblIndex } := by
  intro ips
  induction ips with
  | nil =>
    intro vpp podSpec stack
    exact ⟨[], [], by simp [Server.RoutePblPortsPodInterface.loop, VppLink.pblIndexes,
      VppLink.returns]⟩
  | cons ip rest ih =>
    intro vpp podSpec stack
    simp only [Server.RoutePblPortsPodInterface.loop]
    cases hA : (vpp.call (.AddPblClient (podSpec.pblClient swIfIndex isL3 ip))).err with
    | some err =>
      exact ⟨[.AddPblClient (podSpec.pblClient swIfIndex isL3 ip)], [ip],
        by simp [call_trace, Call.addedClient, VppLink.pblIndexes, VppLink.returns, hA,
          pblIndexOf]⟩
    | none =>
      simp only
      cases isL3 with
      | true =>
        simp only [Bool.not_true, Bool.false_eq_true, if_false]
        obtain ⟨calls, done, h1, h2, h3, h4, h5, h6⟩ := ih
          (vpp.call (.AddPblClient (podSpec.pblClient swIfIndex true ip))).vpp
          { podSpec with
            PblIndex := (vpp.call (.AddPblClient (podSpec.pblClient swIfIndex true ip))).value }
          (CleanupStack.Push stack (.DelPblClient
            (vpp.call (.AddPblClient (podSpec.pblClient swIfIndex true ip))).value))
        have hidx : vpp.pblIndexes (.AddPblClient (podSpec.pblClient swIfIndex true ip) :: calls)
            = (vpp.call (.AddPblClient (podSpec.pblClient swIfIndex true ip))).value ::
              (vpp.call (.AddPblClient (podSpec.pblClient swIfIndex true ip))).vpp.pblIndexes
                calls := by
          simp [VppLink.pblIndexes, VppLink.returns, hA, pblIndexOf]
        refine ⟨.AddPblClient (podSpec.pblClient swIfIndex true ip) :: calls, ip :: done,
          ?_, ?_, ?_, ?_, ?_, ?_⟩
        · rw [h1]; simp [call_trace]
        · have h2' : calls.filterMap Call.addedClient =
              done.map (podSpec.pblClient swIfIndex true) := h2
          simp [Call.addedClient, h2']
        · simpa using h3
        · intro h
          obtain ⟨ha, hb⟩ := h4 h
          rw [ha, hidx]
          simp [hb]
        · rw [h5, hidx]
          simp [CleanupStack.Push]
        · rw [h6, hidx, getLast_cons_getD]
      | false =>
        simp only [Bool.not_false, if_true]
        cases hN : ((vpp.call (.AddPblClient (podSpec.pblClient swIfIndex false ip))).vpp.call
            (.AddNeighbor ⟨swIfIndex, ip.IP, ContainerSideMacAddress,
              .IPNeighborStatic⟩)).err with
        | some err =>
          exact ⟨[.AddPblClient (podSpec.pblClient swIfIndex false ip),
            .AddNeighbor ⟨swIfIndex, ip.IP, ContainerSideMacAddress, .IPNeighborStatic⟩], [ip],
            by simp [call_trace, Call.addedClient, VppLink.pblIndexes, VppLink.returns, hA, hN,
              pblIndexOf, CleanupStack.Push]⟩
        | none =>
          simp only
          obtain ⟨calls, done, h1, h2, h3, h4, h5, h6⟩ := ih
            ((vpp.call (.AddPblClient (podSpec.pblClient swIfIndex false ip))).vpp.call
              (.AddNeighbor ⟨swIfIndex, ip.IP, ContainerSideMacAddress,
                .IPNeighborStatic⟩)).vpp
            { podSpec with
              PblIndex :=
                (vpp.call (.AddPblClient (podSpec.pblClient swIfIndex false ip))).value }
            (CleanupStack.Push stack (.DelPblClient
              (vpp.call (.AddPblClient (podSpec.pblClient swIfIndex false ip))).value))
          have hidx : vpp.pblIndexes (.AddPblClient (podSpec.pblClient swIfIndex false ip) ::
              .AddNeighbor ⟨swIfIndex, ip.IP, ContainerSideMacAddress, .IPNeighborStatic⟩ ::
              calls)
              = (vpp.call (.AddPblClient (podSpec.pblClient swIfIndex false ip))).value ::
                ((vpp.call (.AddPblClient (podSpec.pblClient swIfIndex false ip))).vpp.call
                  (.AddNeighbor ⟨swIfIndex, ip.IP, ContainerSideMacAddress,
                    .IPNeighborStatic⟩)).vpp.pblIndexes calls := by
            simp [VppLink.pblIndexes, VppLink.returns, hA, pblIndexOf]
          refine ⟨.AddPblClient (podSpec.pblClient swIfIndex false ip) ::
            .AddNeighbor ⟨swIfIndex, ip.IP, ContainerSideMacAddress, .IPNeighborStatic⟩ ::
            calls, ip :: done, ?_, ?_, ?_, ?_, ?_, ?_⟩
          · rw [h1]; simp [call_trace]
          · have h2' : calls.filterMap Call.addedClient =
                done.map (podSpec.pblClient swIfIndex false) := h2
            simp [Call.addedClient, h2']
          · simpa using h3
          · intro h
            obtain ⟨ha, hb⟩ := h4 h
            rw [ha, hidx]
            simp [hb]
          · rw [h5, hidx]
            simp [CleanupStack.Push]
          · rw [h6, hidx, getLast_cons_getD]

theorem pblClient_fields (podSpec : LocalPodSpec) (swIfIndex : Nat) (isL3 : Bool)
    (ip : IPNet) :
    (podSpec.pblClient swIfIndex isL3 ip).Addr = ip.IP ∧
    (podSpec.pblClient swIfIndex isL3 ip).TableID =
      (if podSpec.EnableVCL then PuntTableID
        else if IsIP6 ip.IP then podSpec.V6VrfID else podSpec.V4VrfID) ∧
    (podSpec.pblClient swIfIndex isL3 ip).PortRanges =
      podSpec.IfPortConfigs.map (fun pc => ⟨pc.Start, pc.End, pc.Proto⟩) := by
  unfold LocalPodSpec.pblClient
  by_cases hv : podSpec.EnableVCL = true
  · simp [hv, LocalPodSpec.pblPortRanges]
  · simp only [hv, if_false, Bool.false_eq_true]
    refine ⟨trivial, ?_, rfl⟩
    simp only [LocalPodSpec.GetVrfID, IPFamilyFromIPNet, IsIP6]
    split <;> simp [IPFamilyV4, IPFamilyV6, *]

theorem withoutHandles_SetVrfID (ps : LocalPodSpec) (id : Nat) (f : IPFamily) :
    (ps.SetVrfID id f).withoutHandles = ps.withoutHandles := by
  unfold LocalPodSpec.SetVrfID
  split <;> rfl

theorem withoutHandles_SetRPFVrfID (ps : LocalPodSpec) (id : Nat) (f : IPFamily) :
    (ps.SetRPFVrfID id f).withoutHandles = ps.withoutHandles := by
  unfold LocalPodSpec.SetRPFVrfID
  split <;> rfl

theorem CreatePodVRF_allocate_withoutHandles (lib : Sha512Base64) :
    ∀ (families : List IPFamily) (vpp : VppLink) (podSpec : LocalPodSpec)
      (stack : CleanupStack),
      (Server.CreatePodVRF.allocate lib families vpp podSpec stack).podSpec.withoutHandles =
        podSpec.withoutHandles := by
  intro families
  induction families with
  | nil => intro vpp podSpec stack; rfl
  | cons f rest ih =>
    intro vpp podSpec stack
    simp only [Server.CreatePodVRF.allocate]
    split
    · exact withoutHandles_SetVrfID _ _ _
    · rw [ih]
      exact withoutHandles_SetVrfID _ _ _

theorem CreatePodVRF_defaultRoutes_podSpec (s : Server) (podSpec : LocalPodSpec) :
    ∀ (families : List IPFamily) (idx : Nat) (vpp : VppLink) (stack : CleanupStack),
      (Server.CreatePodVRF.defaultRoutes s podSpec idx families vpp stack).podSpec = podSpec := by
  intro families
  induction families with
  | nil => intro idx vpp stack; rfl
  | cons f rest ih =>
    intro idx vpp stack
    simp only [Server.CreatePodVRF.defaultRoutes]
    split
    · rfl
    · split
      · rfl
      · split
        · rfl
        · exact ih _ _ _

theorem CreatePodRPFVRF_loop_withoutHandles (lib : Sha512Base64) :
    ∀ (families : List IPFamily) (vpp : VppLink) (podSpec : LocalPodSpec)
      (stack : CleanupStack),
      (Server.CreatePodRPFVRF.loop lib families vpp podSpec stack).podSpec.withoutHandles =
        podSpec.withoutHandles := by
  intro families
  induction families with
  | nil => intro vpp podSpec stack; rfl
  | cons f rest ih =>
    intro vpp podSpec stack
    simp only [Server.CreatePodRPFVRF.loop]
    split
    · exact withoutHandles_SetRPFVrfID _ _ _
    · rw [ih]
      exact withoutHandles_SetRPFVrfID _ _ _

theorem RoutePodInterface_loop_podSpec (s : Server) (podSpec : LocalPodSpec) (swIfIndex : Nat)
    (isL3 inPodVrf : Bool) :
    ∀ (ips : List IPNet) (vpp : VppLink) (stack : CleanupStack),
      (Server.RoutePodInterface.loop s podSpec swIfIndex isL3 inPodVrf ips vpp stack).podSpec
        = podSpec := by
  intro ips
  induction ips with
  | nil => intro vpp stack; rfl
  | cons ip rest ih =>
    intro vpp stack
    simp only [Server.RoutePodInterface.loop]
    split
    · rfl
    · split
      · rfl
      · split
        · split
          · rfl
          · exact ih _ _
        · exact ih _ _

theorem CreateVRFRoutesToPod_loop_podSpec (podSpec : LocalPodSpec) :
    ∀ (ips : List IPNet) (vpp : VppLink) (stack : CleanupStack),
      (Server.CreateVRFRoutesToPod.loop podSpec ips vpp stack).podSpec = podSpec := by
  intro ips
  induction ips with
  | nil => intro vpp stack; rfl
  | cons ip rest ih =>
    intro vpp stack
    simp only [Server.CreateVRFRoutesToPod.loop]
    split
    · rfl
    · exact ih _ _

theorem SetupPuntRoutes_loop_podSpec (podSpec : LocalPodSpec) (swIfIndex : Nat) :
    ∀ (ips : List IPNet) (vpp : VppLink) (stack : CleanupStack),
      (Server.SetupPuntRoutes.loop podSpec swIfIndex ips vpp stack).podSpec = podSpec := by
  intro ips
  induction ips with
  | nil => intro vpp stack; rfl
  | cons ip rest ih =>
    intro vpp stack
    simp only [Server.SetupPuntRoutes.loop]
    split
    · rfl
    · exact ih _ _

theorem CreatePodVRF_withoutHandles (lib : Sha512Base64) (s : Server) (podSpec : LocalPodSpec)
    (stack : CleanupStack) :
    (s.CreatePodVRF lib podSpec stack).podSpec.withoutHandles = podSpec.withoutHandles := by
  unfold Server.CreatePodVRF
  simp only []
  split
  · rw [CreatePodVRF_defaultRoutes_podSpec]
    exact CreatePodVRF_allocate_withoutHandles lib _ _ _ _
  · exact CreatePodVRF_allocate_withoutHandles lib _ _ _ _

theorem ActivateStrictRPF_withoutHandles (lib : Sha512Base64) (parse : SpoofParser)
    (s : Server) (podSpec : LocalPodSpec) (stack : CleanupStack) :
    (s.ActivateStrictRPF lib parse podSpec stack).podSpec.withoutHandles =
      podSpec.withoutHandles := by
  have hc := CreatePodRPFVRF_loop_withoutHandles lib IPFamilies s.vpp podSpec stack
  have hr := AddRPFRoutes_loop_podSpec parse (Server.CreatePodRPFVRF lib s podSpec stack).podSpec
    (Server.CreatePodRPFVRF lib s podSpec stack).podSpec.GetContainerIps
    (Server.CreatePodRPFVRF lib s podSpec stack).vpp
    (Server.CreatePodRPFVRF lib s podSpec stack).stack
  unfold Server.ActivateStrictRPF
  simp only []
  split
  · exact hc
  · exact hc
  · unfold Server.AddRPFRoutes
    split
    · simp only [hr]; exact hc
    · simp only [hr]; exact hc
    · split
      · simp only [hr]; exact hc
      · simp only [hr]; exact hc

theorem tmpFile_ne (fname : GoString) : fname ++ [126] ≠ fname := by
  intro h
  have := congrArg List.length h
  simp at this

/-! ## C21: the routes of a successful `ActivateStrictRPF` -/

/-- C21.  For a spec with the single IPv4 container address `A`, no memif
interface and a non-empty annotation for which the parser returns the one
prefix `P`: when `ActivateStrictRPF` returns nil, its first call, the
allocation of the IPv4 RPF VRF, succeeded and returned some `v`, which is
the `V4RPFVrfID` of the spec afterwards, and its calls are exactly the two
allocations, a `RouteAdd` of the route to `A` and a `RouteAdd` of the route
to `P`, both in table `v` and each with the single path through
`TunTapSwIfIndex` (with gateway `A`), and `SetCustomURPF`. -/
theorem ActivateStrictRPF_two_routes (lib : Sha512Base64) (parse : SpoofParser) (s : Server)
    (podSpec : LocalPodSpec) (stack : CleanupStack) (A : IP) (P : IPNet)
    (hips : podSpec.ContainerIps = [⟨A⟩])
    (hv4 : IsIP6 A = false)
    (hmemif : podSpec.MemifSwIfIndex = InvalidID)
    (hann : podSpec.AllowedSpoofingPrefixes ≠ [])
    (hparse : (parse podSpec.AllowedSpoofingPrefixes).1 = [P])
    (hres : (s.ActivateStrictRPF lib parse podSpec stack).result = .nil) :
    ∃ v : Nat,
      (s.vpp.call (.AllocateVRF false (podSpec.GetVrfTag lib IPFamilyV4 [82, 80, 70]))).err
        = none ∧
      (s.vpp.call (.AllocateVRF false (podSpec.GetVrfTag lib IPFamilyV4 [82, 80, 70]))).value
        = v ∧
      (s.ActivateStrictRPF lib parse podSpec stack).podSpec.V4RPFVrfID = v ∧
      (s.ActivateStrictRPF lib parse podSpec stack).vpp.trace = s.vpp.trace ++
        [.AllocateVRF false (podSpec.GetVrfTag lib IPFamilyV4 [82, 80, 70]),
          .AllocateVRF true (podSpec.GetVrfTag lib IPFamilyV6 [82, 80, 70]),
          .RouteAdd ⟨⟨A, GetMaxCIDRMask A⟩, [⟨A, podSpec.TunTapSwIfIndex, 0⟩], v⟩,
          .RouteAdd ⟨P, [⟨A, podSpec.TunTapSwIfIndex, 0⟩], v⟩,
          .SetCustomURPF podSpec.TunTapSwIfIndex v] := by
  obtain ⟨hp, ht, -⟩ := ActivateStrictRPF_ok_spec lib parse s podSpec stack hres
  obtain ⟨hc1, hc2⟩ := ActivateStrictRPF_ok_first_call lib parse s podSpec stack hres
  have h4 : (To4 A).isNone = false := hv4
  have h5 : To4 A ≠ none := by
    intro h
    simp [h] at h4
  have hm : (podSpec.withRPFVrfs s.vpp.dp).MemifSwIfIndex = InvalidID := by
    simp [LocalPodSpec.withRPFVrfs, SetRPFVrfID_fields, hmemif]
  refine ⟨s.vpp.dp.freshVrfID, hc1, hc2, ?_, ?_⟩
  · rw [hp]
    exact (withRPFVrfs_fields podSpec s.vpp.dp).1
  · rw [ht]
    simp [LocalPodSpec.rpfRoutes, LocalPodSpec.rpfRoute, LocalPodSpec.spoofRoute,
      LocalPodSpec.pathsToPod, LocalPodSpec.GetContainerIps, LocalPodSpec.GetRPFVrfID,
      IPFamilyFromIPNet, withRPFVrfs_fields, hips, hann, hparse, hm, h4, h5, IPFamilyV4]

/-- The hypotheses of C21 hold for the pod `podSpoof` on an empty dataplane
with a parser that returns 10.2.0.0/16. -/
theorem ActivateStrictRPF_two_routes_witness :
    (podSpoof.ContainerIps = [⟨[10, 1, 2, 3]⟩] ∧ IsIP6 [10, 1, 2, 3] = false ∧
      podSpoof.MemifSwIfIndex = InvalidID ∧ podSpoof.AllowedSpoofingPrefixes ≠ [] ∧
      (parsePrefix podSpoof.AllowedSpoofingPrefixes).1 = [spoofPrefix] ∧
      (Server.ActivateStrictRPF lengthDigest parsePrefix {} podSpoof []).result = .nil) ∧
    ∃ v : Nat,
      ((({} : Server).vpp).call
        (.AllocateVRF false (podSpoof.GetVrfTag lengthDigest IPFamilyV4 [82, 80, 70]))).err
        = none ∧
      ((({} : Server).vpp).call
        (.AllocateVRF false (podSpoof.GetVrfTag lengthDigest IPFamilyV4 [82, 80, 70]))).value
        = v ∧
      (Server.ActivateStrictRPF lengthDigest parsePrefix {} podSpoof []).podSpec.V4RPFVrfID = v ∧
      (Server.ActivateStrictRPF lengthDigest parsePrefix {} podSpoof []).vpp.trace =
        ({} : Server).vpp.trace ++
        [.AllocateVRF false (podSpoof.GetVrfTag lengthDigest IPFamilyV4 [82, 80, 70]),
          .AllocateVRF true (podSpoof.GetVrfTag lengthDigest IPFamilyV6 [82, 80, 70]),
          .RouteAdd ⟨⟨[10, 1, 2, 3], GetMaxCIDRMask [10, 1, 2, 3]⟩,
            [⟨[10, 1, 2, 3], podSpoof.TunTapSwIfIndex, 0⟩], v⟩,
          .RouteAdd ⟨spoofPrefix, [⟨[10, 1, 2, 3], podSpoof.TunTapSwIfIndex, 0⟩], v⟩,
          .SetCustomURPF podSpoof.TunTapSwIfIndex v] :=
  ⟨by decide, ActivateStrictRPF_two_routes lengthDigest parsePrefix {} podSpoof [] [10, 1, 2, 3]
    spoofPrefix (by decide) (by decide) (by decide) (by decide) (by decide) (by decide)⟩

/-! ## C22: the port-filter clients of `RoutePblPortsPodInterface` -/

theorem RoutePblPortsPodInterface_loop_all_ok (swIfIndex : Nat) (isL3 : Bool) :
    ∀ (ips : List IPNet) (vpp : VppLink) (podSpec : LocalPodSpec) (stack : CleanupStack),
      (∀ n, vpp.faults n = none) →
      (Server.RoutePblPortsPodInterface.loop swIfIndex isL3 ips vpp podSpec stack).result
        = .nil := by
  intro ips
  induction ips with
  | nil => intro vpp podSpec stack _; rfl
  | cons ip rest ih =>
    intro vpp podSpec stack hf
    simp only [Server.RoutePblPortsPodInterface.loop]
    obtain ⟨h1, -, -, h4⟩ := call_no_faults vpp
      (.AddPblClient (podSpec.pblClient swIfIndex isL3 ip)) hf
    simp only [h1]
    cases isL3 with
    | true =>
      simp only [Bool.not_true, Bool.false_eq_true, if_false]
      exact ih _ _ _ h4
    | false =>
      simp only [Bool.not_false, if_true]
      obtain ⟨n1, -, -, n4⟩ := call_no_faults
        (vpp.call (.AddPblClient (podSpec.pblClient swIfIndex false ip))).vpp
        (.AddNeighbor ⟨swIfIndex, ip.IP, ContainerSideMacAddress, .IPNeighborStatic⟩) h4
      simp only [n1]
      exact ih _ _ _ n4

/-- C22.  The `AddPblClient` calls of `RoutePblPortsPodInterface` are for the
container addresses in order, one client per address (for all of them when
it returns nil, for the first ones otherwise).  The client for an address
has `Addr` equal to the address, `TableID` equal to `PuntTableID` when
`EnableVCL` is set and to the pod VRF ID of the spec for the family of the
address otherwise, and `PortRanges` equal to `IfPortConfigs` mapped element
by element.  The cleanup stack grows by one `DelPblClient` for every index a
successful `AddPblClient` returned, the last one on top, and `PblIndex`
holds the last of these indexes (its former value when there is none).  And
`RoutePblPortsPodInterface` does return nil, so that the client of every
container address is added, when the dataplane calls succeed. -/
theorem RoutePblPortsPodInterface_clients (s : Server) (podSpec : LocalPodSpec)
    (stack : CleanupStack) (swIfIndex : Nat) (isL3 : Bool) :
    (∃ (calls : List Call) (clients : List PblClient),
      (s.RoutePblPortsPodInterface podSpec stack swIfIndex isL3).vpp.trace =
        s.vpp.trace ++ calls ∧
      calls.filterMap Call.addedClient = clients ∧
      clients.length ≤ podSpec.GetContainerIps.length ∧
      ((s.RoutePblPortsPodInterface podSpec stack swIfIndex isL3).result = .nil →
        clients.length = podSpec.GetContainerIps.length ∧
        (s.vpp.pblIndexes calls).length = podSpec.GetContainerIps.length) ∧
      (∀ (i : Nat) (hi : i < clients.length) (hj : i < podSpec.GetContainerIps.length),
        (clients.get ⟨i, hi⟩).Addr = (podSpec.GetContainerIps.get ⟨i, hj⟩).IP ∧
        (clients.get ⟨i, hi⟩).TableID =
          (if podSpec.EnableVCL then PuntTableID
            else if IsIP6 (podSpec.GetContainerIps.get ⟨i, hj⟩).IP then podSpec.V6VrfID
            else podSpec.V4VrfID) ∧
        (clients.get ⟨i, hi⟩).PortRanges =
          podSpec.IfPortConfigs.map (fun pc => ⟨pc.Start, pc.End, pc.Proto⟩)) ∧
      (s.RoutePblPortsPodInterface podSpec stack swIfIndex isL3).stack =
        ((s.vpp.pblIndexes calls).map Call.DelPblClient).reverse ++ stack ∧
      (s.RoutePblPortsPodInterface podSpec stack swIfIndex isL3).podSpec.PblIndex =
        (s.vpp.pblIndexes calls).getLast?.getD podSpec.PblIndex) ∧
    ((∀ n, s.vpp.faults n = none) →
      (s.RoutePblPortsPodInterface podSpec stack swIfIndex isL3).result = .nil) := by
  constructor
  · obtain ⟨calls, done, h1, h2, h3, h4, h5, h6⟩ :=
      RoutePblPortsPodInterface_loop_spec swIfIndex isL3 podSpec.GetContainerIps s.vpp podSpec
        stack
    refine ⟨calls, _, h1, h2, ?_, ?_, ?_, h5, ?_⟩
    · simpa using h3.length_le
    · intro hres
      obtain ⟨ha, hb⟩ := h4 hres
      exact ⟨by simp [ha], hb⟩
    · intro i hi hj
      have hi' : i < done.length := by simpa using hi
      have hd : done.get ⟨i, hi'⟩ = podSpec.GetContainerIps.get ⟨i, hj⟩ := by
        obtain ⟨t, ht⟩ := h3
        simp only [List.get_eq_getElem]
        simp only [← ht]
        rw [List.getElem_append_left]
      simp only [List.get_eq_getElem, List.getElem_map]
      simp only [List.get_eq_getElem] at hd
      have hf := pblClient_fields podSpec swIfIndex isL3 done[i]
      rw [hd] at hf
      rw [hd]
      exact hf
    · unfold Server.RoutePblPortsPodInterface
      rw [h6]
  · intro hf
    exact RoutePblPortsPodInterface_loop_all_ok swIfIndex isL3 _ _ _ _ hf

/-- C22 at an example: for the pod `podPorts`, on an empty dataplane whose
calls succeed, `RoutePblPortsPodInterface(7, isL3 = true)` returns nil; its
one call adds the client `pblClientPorts`, the dataplane returns the index
1, `DelPblClient 1` is pushed and `PblIndex` is 1. -/
theorem RoutePblPortsPodInterface_clients_witness :
    (∀ n, ({} : Server).vpp.faults n = none) ∧
    (Server.RoutePblPortsPodInterface {} podPorts [] 7 true).result = .nil ∧
    (Server.RoutePblPortsPodInterface {} podPorts [] 7 true).vpp.trace =
      [.AddPblClient pblClientPorts] ∧
    (Server.RoutePblPortsPodInterface {} podPorts [] 7 true).vpp.dp.pblClients =
      [(1, pblClientPorts)] ∧
    (Server.RoutePblPortsPodInterface {} podPorts [] 7 true).stack = [.DelPblClient 1] ∧
    (Server.RoutePblPortsPodInterface {} podPorts [] 7 true).podSpec.PblIndex = 1 :=
  ⟨fun _ => rfl,
    (RoutePblPortsPodInterface_clients {} podPorts [] 7 true).2 (fun _ => rfl),
    by decide, by decide, by decide, by decide⟩

/-! ## C23: the routes of `CreateVRFRoutesToPod` -/

/-- C23.  When `CreateVRFRoutesToPod` returns nil for a spec with `n` container
addresses, its calls are exactly `n` `RouteAdd` calls; the route of the
`i`-th call has the `i`-th container address as destination, table 0, and
the single path with `Table` equal to the pod VRF ID of the spec for the
family of the address, `SwIfIndex` equal to `InvalidID` and no gateway; the
cleanup stack grows by exactly the `RouteDel` entries of these `n` routes,
the last one on top. -/
theorem CreateVRFRoutesToPod_routes (s : Server) (podSpec : LocalPodSpec)
    (stack : CleanupStack)
    (hres : (s.CreateVRFRoutesToPod podSpec stack).result = .nil) :
    ∃ routes : List Route,
      routes.length = podSpec.GetContainerIps.length ∧
      (s.CreateVRFRoutesToPod podSpec stack).vpp.trace =
        s.vpp.trace ++ routes.map Call.RouteAdd ∧
      (s.CreateVRFRoutesToPod podSpec stack).stack =
        (routes.map Call.RouteDel).reverse ++ stack ∧
      ∀ (i : Nat) (hi : i < routes.length) (hj : i < podSpec.GetContainerIps.length),
        (routes.get ⟨i, hi⟩).Dst = podSpec.GetContainerIps.get ⟨i, hj⟩ ∧
        (routes.get ⟨i, hi⟩).Table = 0 ∧
        (routes.get ⟨i, hi⟩).Paths =
          [⟨[], InvalidID,
            if IsIP6 (podSpec.GetContainerIps.get ⟨i, hj⟩).IP then podSpec.V6VrfID
            else podSpec.V4VrfID⟩] := by
  obtain ⟨h1, h2⟩ := CreateVRFRoutesToPod_loop_spec podSpec _ _ _ hres
  refine ⟨podSpec.GetContainerIps.map podSpec.vrfRouteToPod, by simp, ?_, ?_, ?_⟩
  · unfold Server.CreateVRFRoutesToPod
    rw [h1]
    simp [Function.comp_def]
  · unfold Server.CreateVRFRoutesToPod
    rw [h2]
    simp [Function.comp_def]
  · intro i hi hj
    simp only [List.get_eq_getElem, List.getElem_map]
    refine ⟨rfl, rfl, ?_⟩
    simp only [LocalPodSpec.vrfRouteToPod, LocalPodSpec.GetVrfID, IPFamilyFromIPNet, IsIP6]
    split <;> simp [IPFamilyV4, IPFamilyV6, *]

/-- The hypothesis of C23 holds for the dual-stack pod `podDualStack` on an
empty dataplane. -/
theorem CreateVRFRoutesToPod_routes_witness :
    (Server.CreateVRFRoutesToPod {} podDualStack []).result = .nil ∧
    ∃ routes : List Route,
      routes.length = podDualStack.GetContainerIps.length ∧
      (Server.CreateVRFRoutesToPod {} podDualStack []).vpp.trace =
        ({} : Server).vpp.trace ++ routes.map Call.RouteAdd ∧
      (Server.CreateVRFRoutesToPod {} podDualStack []).stack =
        (routes.map Call.RouteDel).reverse ++ [] ∧
      ∀ (i : Nat) (hi : i < routes.length) (hj : i < podDualStack.GetContainerIps.length),
        (routes.get ⟨i, hi⟩).Dst = podDualStack.GetContainerIps.get ⟨i, hj⟩ ∧
        (routes.get ⟨i, hi⟩).Table = 0 ∧
        (routes.get ⟨i, hi⟩).Paths =
          [⟨[], InvalidID,
            if IsIP6 (podDualStack.GetContainerIps.get ⟨i, hj⟩).IP then podDualStack.V6VrfID
            else podDualStack.V4VrfID⟩] :=
  ⟨by decide, CreateVRFRoutesToPod_routes {} podDualStack [] (by decide)⟩

/-! ## C24: `PersistCniServerState` -/

/-- C24.  `PersistCniServerState` changes no path other than `fname` and
`fname~`.  When encoding fails it returns the "Error encoding pod data" error
and the file system is unchanged.  When the write of `fname~` fails it
returns the "Error writing file" error and the content at `fname` is
unchanged.  When the rename fails it returns the "Error moving file" error,
the content at `fname` is unchanged and `fname~` holds the encoded snapshot.
When nothing fails it returns nil, `fname` holds the encoded snapshot, which
was written to `fname~` and renamed, and `fname~` no longer exists. -/
theorem PersistCniServerState_frame (Pack : Packer) (d : Disk)
    (podInterfaceMap : List (GoString × LocalPodSpec)) (fname : GoString) :
    (∀ path, path ≠ fname → path ≠ fname ++ [126] →
      (PersistCniServerState Pack d podInterfaceMap fname).1.files path = d.files path) ∧
    (∀ err, Pack (savedStateOf podInterfaceMap) = .error err →
      (PersistCniServerState Pack d podInterfaceMap fname).2 =
        some (.wrapf err "Error encoding pod data") ∧
      (PersistCniServerState Pack d podInterfaceMap fname).1.files = d.files) ∧
    (∀ buf, Pack (savedStateOf podInterfaceMap) = .ok buf →
      (∀ msg left, d.writeFault = some (msg, left) →
        (PersistCniServerState Pack d podInterfaceMap fname).2 =
          some (.wrapf (.lib msg false) "Error writing file %s") ∧
        (PersistCniServerState Pack d podInterfaceMap fname).1.files fname = d.files fname ∧
        (PersistCniServerState Pack d podInterfaceMap fname).1.files (fname ++ [126]) = left) ∧
      (d.writeFault = none → ∀ msg, d.renameFault = some msg →
        (PersistCniServerState Pack d podInterfaceMap fname).2 =
          some (.wrapf (.lib msg false) "Error moving file %s") ∧
        (PersistCniServerState Pack d podInterfaceMap fname).1.files fname = d.files fname ∧
        (PersistCniServerState Pack d podInterfaceMap fname).1.files (fname ++ [126]) =
          .file buf) ∧
      (d.writeFault = none → d.renameFault = none →
        (PersistCniServerState Pack d podInterfaceMap fname).2 = none ∧
        (PersistCniServerState Pack d podInterfaceMap fname).1.files fname = .file buf ∧
        (PersistCniServerState Pack d podInterfaceMap fname).1.files (fname ++ [126]) =
          .absent)) := by
  have hne := tmpFile_ne fname
  have hne' : fname ≠ fname ++ [126] := fun h => hne h.symm
  obtain ⟨files, wf, rf⟩ := d
  unfold PersistCniServerState
  simp only [savedStateOf]
  cases hp : Pack ⟨CniServerStateFileVersion, podInterfaceMap.length,
      podInterfaceMap.map (fun entry => entry.2)⟩ with
  | error err => simp
  | ok buf =>
    rcases wf with _ | ⟨msg, left⟩
    · rcases rf with _ | msg
      · simp [WriteFile, Rename, Function.update, hne, hne']
        intro path h1 h2
        simp [h1, h2]
      · simp [WriteFile, Rename, Function.update, hne, hne']
        intro path h1 h2
        simp [h2]
    · simp [WriteFile, Function.update, hne, hne']
      intro path h1 h2
      simp [h2]

/-! ## C25: the fields of the pod spec that provisioning and teardown write -/

theorem UnroutePodInterface_loop_podSpec (s : Server) (podSpec : LocalPodSpec) (swIfIndex : Nat)
    (inPodVrf : Bool) :
    ∀ (ips : List IPNet) (vpp : VppLink),
      (Server.UnroutePodInterface.loop s podSpec swIfIndex inPodVrf ips vpp).podSpec
        = podSpec := by
  intro ips
  induction ips with
  | nil => intro vpp; rfl
  | cons ip rest ih =>
    intro vpp
    simp only [Server.UnroutePodInterface.loop]
    split
    · rfl
    · exact ih _

theorem DeletePodVRF_defaultRoutes_podSpec (s : Server) (podSpec : LocalPodSpec) :
    ∀ (families : List IPFamily) (idx : Nat) (vpp : VppLink),
      (Server.DeletePodVRF.defaultRoutes s podSpec idx families vpp).podSpec = podSpec := by
  intro families
  induction families with
  | nil => intro idx vpp; rfl
  | cons f rest ih =>
    intro idx vpp
    simp only [Server.DeletePodVRF.defaultRoutes]
    split
    · rfl
    · exact ih _ _

/-- C25.  For every server, spec, stack, interface and flags, and whichever
calls fail: the spec that `CreatePodVRF`, `CreatePodRPFVRF`,
`ActivateStrictRPF`, `RoutePodInterface`, `RoutePblPortsPodInterface`,
`CreateVRFRoutesToPod` and `SetupPuntRoutes` leave differs from the spec they
were given in no field other than `V4VrfID`, `V6VrfID`, `V4RPFVrfID`,
`V6RPFVrfID` and `PblIndex`; and the spec that `UnroutePodInterface`,
`UnroutePblPortsPodInterface`, `DeactivateStrictRPF`, `DeletePodVRF`,
`DeleteVRFRoutesToPod` and `RemovePuntRoutes` leave is the spec they were
given, also when they panic. -/
theorem provisioning_changes_handles_only (lib : Sha512Base64) (parse : SpoofParser)
    (s : Server) (podSpec : LocalPodSpec) (stack : CleanupStack) (swIfIndex : Nat)
    (isL3 inPodVrf : Bool) :
    (s.CreatePodVRF lib podSpec stack).podSpec.withoutHandles = podSpec.withoutHandles ∧
    (s.CreatePodRPFVRF lib podSpec stack).podSpec.withoutHandles = podSpec.withoutHandles ∧
    (s.ActivateStrictRPF lib parse podSpec stack).podSpec.withoutHandles =
      podSpec.withoutHandles ∧
    (s.RoutePodInterface podSpec stack swIfIndex isL3 inPodVrf).podSpec.withoutHandles =
      podSpec.withoutHandles ∧
    (s.RoutePblPortsPodInterface podSpec stack swIfIndex isL3).podSpec.withoutHandles =
      podSpec.withoutHandles ∧
    (s.CreateVRFRoutesToPod podSpec stack).podSpec.withoutHandles = podSpec.withoutHandles ∧
    (s.SetupPuntRoutes podSpec stack swIfIndex).podSpec.withoutHandles =
      podSpec.withoutHandles ∧
    (s.UnroutePodInterface podSpec swIfIndex inPodVrf).podSpec = podSpec ∧
    (s.UnroutePblPortsPodInterface podSpec swIfIndex).podSpec = podSpec ∧
    (s.DeactivateStrictRPF parse podSpec).podSpec = podSpec ∧
    (s.DeletePodVRF podSpec).podSpec = podSpec ∧
    (s.DeleteVRFRoutesToPod podSpec).podSpec = podSpec ∧
    (s.RemovePuntRoutes podSpec swIfIndex).podSpec = podSpec := by
  refine ⟨CreatePodVRF_withoutHandles lib s podSpec stack,
    CreatePodRPFVRF_loop_withoutHandles lib _ _ _ _,
    ActivateStrictRPF_withoutHandles lib parse s podSpec stack, ?_, ?_, ?_, ?_,
    UnroutePodInterface_loop_podSpec s podSpec swIfIndex inPodVrf _ _, rfl, rfl, ?_, rfl, rfl⟩
  · unfold Server.RoutePodInterface
    rw [RoutePodInterface_loop_podSpec]
  · obtain ⟨calls, done, -, -, -, -, -, h6⟩ :=
      RoutePblPortsPodInterface_loop_spec swIfIndex isL3 podSpec.GetContainerIps s.vpp podSpec
        stack
    unfold Server.RoutePblPortsPodInterface
    rw [h6]
    rfl
  · unfold Server.CreateVRFRoutesToPod
    rw [CreateVRFRoutesToPod_loop_podSpec]
  · unfold Server.SetupPuntRoutes
    rw [SetupPuntRoutes_loop_podSpec]
  · unfold Server.DeletePodVRF
    simp only []
    split <;> exact DeletePodVRF_defaultRoutes_podSpec s podSpec _ _ _

/-! ## C26: the number of routes of `AddRPFRoutes` -/

/-- C26 fails as stated.  For the dual-stack pod `podDualSpoof` (two container
addresses) and a parser that returns the one prefix 10.2.0.0/16,
`AddRPFRoutes` returns nil after four `RouteAdd` calls, not three: the route
to the prefix is added once for each container address, in the RPF VRF of the
family of that address.  Four `RouteDel` entries are pushed. -/
theorem AddRPFRoutes_four_routes :
    (podDualSpoof.GetContainerIps.length = 2 ∧
      parsePrefix podDualSpoof.AllowedSpoofingPrefixes = ([spoofPrefix], none)) ∧
    (Server.AddRPFRoutes parsePrefix {} podDualSpoof []).result = .nil ∧
    (Server.AddRPFRoutes parsePrefix {} podDualSpoof []).vpp.trace =
      [.RouteAdd (podDualSpoof.rpfRoute ⟨[10, 1, 2, 3], [255, 255, 255, 255]⟩),
        .RouteAdd (podDualSpoof.spoofRoute ⟨[10, 1, 2, 3], [255, 255, 255, 255]⟩ spoofPrefix),
        .RouteAdd (podDualSpoof.rpfRoute
          ⟨[253, 0, 0, 0, 0, 0, 0, 0, 0, 0, 0, 0, 0, 0, 0, 1], List.replicate 16 255⟩),
        .RouteAdd (podDualSpoof.spoofRoute
          ⟨[253, 0, 0, 0, 0, 0, 0, 0, 0, 0, 0, 0, 0, 0, 0, 1], List.replicate 16 255⟩
          spoofPrefix)] ∧
    (Server.AddRPFRoutes parsePrefix {} podDualSpoof []).vpp.trace.length = 4 ∧
    (Server.AddRPFRoutes parsePrefix {} podDualSpoof []).stack.length = 4 := by
  decide

/-- C26, amended.  When `AddRPFRoutes` returns nil for a spec with `n`
container addresses whose annotation parses to `m` prefixes (`m = 0` when
the annotation is empty), its calls are exactly the `RouteAdd` of the RPF
routes of the spec: for each container address its route followed by one
route per prefix, `n + n * m` calls; the cleanup stack grows by the `RouteDel`
of each of these routes, the last one on top. -/
theorem AddRPFRoutes_route_count (parse : SpoofParser) (s : Server) (podSpec : LocalPodSpec)
    (stack : CleanupStack)
    (hres : (s.AddRPFRoutes parse podSpec stack).result = .nil) :
    (s.AddRPFRoutes parse podSpec stack).vpp.trace =
      s.vpp.trace ++ (podSpec.rpfRoutes parse).map Call.RouteAdd ∧
    (s.AddRPFRoutes parse podSpec stack).stack =
      ((podSpec.rpfRoutes parse).map Call.RouteDel).reverse ++ stack ∧
    (podSpec.rpfRoutes parse).length =
      podSpec.GetContainerIps.length + podSpec.GetContainerIps.length *
        (if podSpec.AllowedSpoofingPrefixes = [] then 0
          else (parse podSpec.AllowedSpoofingPrefixes).1.length) := by
  have hr : podSpec.rpfRoutes parse = podSpec.rpfRoutesOf parse podSpec.GetContainerIps := rfl
  obtain ⟨h1, h2⟩ := AddRPFRoutes_loop_spec parse podSpec _ _ _ hres
  rw [hr]
  exact ⟨h1, h2, rpfRoutesOf_length parse podSpec _⟩

/-- The hypothesis of the amended C26 holds for the dual-stack pod
`podDualSpoof` on an empty dataplane. -/
theorem AddRPFRoutes_route_count_witness :
    (Server.AddRPFRoutes parsePrefix {} podDualSpoof []).result = .nil ∧
    (Server.AddRPFRoutes parsePrefix {} podDualSpoof []).vpp.trace =
      ({} : Server).vpp.trace ++ (podDualSpoof.rpfRoutes parsePrefix).map Call.RouteAdd ∧
    (Server.AddRPFRoutes parsePrefix {} podDualSpoof []).stack =
      ((podDualSpoof.rpfRoutes parsePrefix).map Call.RouteDel).reverse ++ [] ∧
    (podDualSpoof.rpfRoutes parsePrefix).length =
      podDualSpoof.GetContainerIps.length + podDualSpoof.GetContainerIps.length *
        (if podDualSpoof.AllowedSpoofingPrefixes = [] then 0
          else (parsePrefix podDualSpoof.AllowedSpoofingPrefixes).1.length) :=
  ⟨by decide, AddRPFRoutes_route_count parsePrefix {} podDualSpoof [] (by decide)⟩

/-! ## Helper lemmas for C27 to C30 -/

theorem foldl_update_isSome (str : IPNetString) (key : GoString) :
    ∀ (l : List IPNet) (m : StringSet),
      ((l.foldl (fun m aip => Function.update m (str aip) (some true)) m) key).isSome =
        ((m key).isSome || decide (key ∈ l.map str)) := by
  intro l
  induction l with
  | nil => intro m; simp
  | cons a rest ih =>
    intro m
    rw [List.foldl_cons, ih]
    by_cases h : key = str a
    · rw [h, Function.update_same]
      simp only [List.map_cons, List.mem_cons, true_or, Option.isSome_some, Bool.true_or,
        decide_True, Bool.or_true]
    · rw [Function.update_noteq h]
      simp only [List.map_cons, List.mem_cons, h, false_or]

theorem allowedIpsMap_isSome (str : IPNetString) (t : WireguardPeer) (key : GoString) :
    (t.allowedIpsMap str key).isSome = decide (key ∈ t.AllowedIPs.map str) := by
  unfold WireguardPeer.allowedIpsMap
  rw [foldl_update_isSome]
  simp

theorem IP_Equal_comm (a b : IP) : IP.Equal a b = IP.Equal b a := by
  unfold IP.Equal
  by_cases h : a.length = b.length
  · have h' : b.length = a.length := h.symm
    rw [if_pos h, if_pos h', Bool.eq_iff_iff]
    simp only [beq_iff_eq]
    exact eq_comm
  · have h' : ¬ b.length = a.length := fun e => h e.symm
    rw [if_neg h, if_neg h']
    by_cases h1 : a.length = 4 ∧ b.length = 16
    · have h2 : ¬ (b.length = 4 ∧ a.length = 16) := by omega
      have h3 : b.length = 16 ∧ a.length = 4 := ⟨h1.2, h1.1⟩
      have h4 : ¬ (a.length = 16 ∧ b.length = 4) := by omega
      rw [if_pos h1, if_neg h2, if_pos h3, Bool.eq_iff_iff]
      simp only [Bool.and_eq_true, beq_iff_eq]
      exact ⟨fun e => ⟨e.1, e.2.symm⟩, fun e => ⟨e.1, e.2.symm⟩⟩
    · by_cases h2 : a.length = 16 ∧ b.length = 4
      · have h3 : b.length = 4 ∧ a.length = 16 := ⟨h2.2, h2.1⟩
        rw [if_neg h1, if_pos h2, if_pos h3, Bool.eq_iff_iff]
        simp only [Bool.and_eq_true, beq_iff_eq]
        exact ⟨fun e => ⟨e.1, e.2.symm⟩, fun e => ⟨e.1, e.2.symm⟩⟩
      · have h3 : ¬ (b.length = 4 ∧ a.length = 16) := fun e => h2 ⟨e.2, e.1⟩
        have h4 : ¬ (b.length = 16 ∧ a.length = 4) := fun e => h1 ⟨e.2, e.1⟩
        rw [if_neg h1, if_neg h2, if_neg h3, if_neg h4]

theorem IP_Equal_of_length_eq (a b : IP) (h : a.length = b.length) :
    IP.Equal a b = true ↔ a = b := by
  simp [IP.Equal, h]

theorem Equal_iff (str : IPNetString) (t o : WireguardPeer) :
    t.Equal str (some o) = true ↔
      t.Index = o.Index ∧ t.PublicKey = o.PublicKey ∧ t.Port = o.Port ∧
      t.TableID = o.TableID ∧ t.SwIfIndex = o.SwIfIndex ∧ IP.Equal o.Addr t.Addr = true ∧
      t.PersistentKeepalive = o.PersistentKeepalive ∧
      t.AllowedIPs.length = o.AllowedIPs.length ∧
      ∀ x ∈ o.AllowedIPs.map str, x ∈ t.AllowedIPs.map str := by
  unfold WireguardPeer.Equal
  simp only [allowedIpsMap_isSome]
  by_cases h1 : o.Index = t.Index
  · by_cases h2 : o.PublicKey = t.PublicKey
    · by_cases h3 : o.Port = t.Port
      · by_cases h4 : o.TableID = t.TableID
        · by_cases h5 : o.SwIfIndex = t.SwIfIndex
          · by_cases h6 : IP.Equal o.Addr t.Addr = true
            · by_cases h7 : o.PersistentKeepalive = t.PersistentKeepalive
              · by_cases h8 : t.AllowedIPs.length = o.AllowedIPs.length
                · simp [h1, h2, h3, h4, h5, h6, h7, h8]
                · simp [h1, h2, h3, h4, h5, h6, h7, h8]
              · have h7' : ¬ t.PersistentKeepalive = o.PersistentKeepalive :=
                  fun e => h7 e.symm
                simp [h1, h2, h3, h4, h5, h6, h7, h7']
            · simp [h1, h2, h3, h4, h5, h6]
          · have h5' : ¬ t.SwIfIndex = o.SwIfIndex := fun e => h5 e.symm
            simp [h1, h2, h3, h4, h5, h5']
        · have h4' : ¬ t.TableID = o.TableID := fun e => h4 e.symm
          simp [h1, h2, h3, h4, h4']
      · have h3' : ¬ t.Port = o.Port := fun e => h3 e.symm
        simp [h1, h2, h3, h3']
    · have h2' : ¬ t.PublicKey = o.PublicKey := fun e => h2 e.symm
      simp [h1, h2, h2']
  · have h1' : ¬ t.Index = o.Index := fun e => h1 e.symm
    simp [h1, h1']

theorem same_strings_iff {l₁ l₂ : List GoString} (h₁ : l₁.Nodup) (h₂ : l₂.Nodup) :
    (l₁.length = l₂.length ∧ ∀ x ∈ l₂, x ∈ l₁) ↔ ∀ x, x ∈ l₁ ↔ x ∈ l₂ := by
  constructor
  · rintro ⟨hlen, hsub⟩
    have hp : List.Perm l₂ l₁ :=
      (List.subperm_of_subset h₂ hsub).perm_of_length_le (le_of_eq hlen)
    intro x
    exact hp.mem_iff.symm
  · intro h
    have hp : List.Perm l₁ l₂ := (List.perm_ext_iff_of_nodup h₁ h₂).2 h
    exact ⟨hp.length_eq, fun x hx => (h x).2 hx⟩

theorem Equal_iff_of_nodup (str : IPNetString) (t o : WireguardPeer)
    (ht : (t.AllowedIPs.map str).Nodup) (ho : (o.AllowedIPs.map str).Nodup) :
    t.Equal str (some o) = true ↔
      t.Index = o.Index ∧ t.PublicKey = o.PublicKey ∧ t.Port = o.Port ∧
      t.TableID = o.TableID ∧ t.SwIfIndex = o.SwIfIndex ∧ IP.Equal o.Addr t.Addr = true ∧
      t.PersistentKeepalive = o.PersistentKeepalive ∧
      ∀ x, x ∈ t.AllowedIPs.map str ↔ x ∈ o.AllowedIPs.map str := by
  rw [Equal_iff, ← same_strings_iff ht ho]
  simp only [List.length_map]

theorem DelAllowedIP_foldl (str : IPNetString) (addr : IPNet) :
    ∀ (l acc : List IPNet),
      l.foldl (fun allowedIps aip =>
        if str aip ≠ str addr then allowedIps ++ [aip] else allowedIps) acc =
        acc ++ l.filter (fun aip => decide (str aip ≠ str addr)) := by
  intro l
  induction l with
  | nil => intro acc; simp
  | cons a rest ih =>
    intro acc
    rw [List.foldl_cons, ih]
    by_cases h : str a = str addr
    · simp [h]
    · simp [h]

theorem DelAllowedIP_AllowedIPs (str : IPNetString) (t : WireguardPeer) (addr : IPNet) :
    (t.DelAllowedIP str addr).AllowedIPs =
      t.AllowedIPs.filter (fun aip => decide (str aip ≠ str addr)) := by
  unfold WireguardPeer.DelAllowedIP
  simp only []
  rw [DelAllowedIP_foldl]
  rfl

theorem uplinks_eq : ∀ (l specs : List UplinkInterfaceSpec) (n : Nat),
    NewVppManagerParams.uplinks l (specs, n) =
      (specs ++ l, n + (l.filter (fun uplink => uplink.IsMain)).length) := by
  intro l
  induction l with
  | nil => intro specs n; simp [NewVppManagerParams.uplinks]
  | cons a rest ih =>
    intro specs n
    rw [NewVppManagerParams.uplinks, ih]
    by_cases h : a.IsMain = true
    · simp [h]; omega
    · simp [h]

theorem validate_none (env : StartupEnv)
    (h : ∀ index uplink, env.Validate index uplink = none) :
    ∀ (l : List UplinkInterfaceSpec) (index : Nat),
      NewVppManagerParams.validate env index l = none := by
  intro l
  induction l with
  | nil => intro index; rfl
  | cons a rest ih =>
    intro index
    simp [NewVppManagerParams.validate, h, ih]

theorem finish_UplinksSpecs (env : StartupEnv) (params result : VppManagerParams)
    (h : NewVppManagerParams.finish env params = .ok result) :
    result.UplinksSpecs = params.UplinksSpecs := by
  unfold NewVppManagerParams.finish at h
  split at h
  · cases h
  · simp only [Except.ok.injEq] at h
    rw [← h]
    split <;> rfl

theorem finish_ok (env : StartupEnv) (params : VppManagerParams)
    (h : ∀ index uplink, env.Validate index uplink = none) :
    ∃ result, NewVppManagerParams.finish env params = .ok result := by
  unfold NewVppManagerParams.finish
  rw [validate_none env h]
  exact ⟨_, rfl⟩

theorem NewVppManagerParams_eq (env : StartupEnv) :
    NewVppManagerParams env =
      match env.collected with
      | [] =>
        .error "No interface specified. Specify an interface through the environment variable"
      | first :: others =>
        if env.taggedMain = 0 then
          NewVppManagerParams.finish env
            ⟨env.FetchNodeAnnotations, { first with IsMain := true } :: others, [], none, 0, []⟩
        else if env.taggedMain > 1 then .error "Too many interfaces tagged Main"
        else
          NewVppManagerParams.finish env
            ⟨env.FetchNodeAnnotations, first :: others, [], none, 0, []⟩ := by
  unfold NewVppManagerParams StartupEnv.collected StartupEnv.taggedMain
  simp only [uplinks_eq, Nat.zero_add]
  by_cases h : env.InterfaceVar = []
  · simp only [h, ne_eq, not_true_eq_false, if_false, List.nil_append]
    generalize env.UplinkInterfaces = l
    cases l <;> rfl
  · simp only [h, ne_eq, not_false_eq_true, if_true]
    rfl

theorem collected_filter (env : StartupEnv) :
    env.collected.filter (fun uplink => uplink.IsMain) =
      env.UplinkInterfaces.filter (fun uplink => uplink.IsMain) := by
  unfold StartupEnv.collected
  by_cases h : env.InterfaceVar = []
  · simp [h]
  · simp [h, StartupEnv.mainInterfaceSpec]

/-! ## C27: `WireguardPeer.Equal` -/

/-- C27.  For two peers whose `AllowedIPs` lists each hold no two entries with
the same text, `t.Equal(o)` is true exactly when `Index`, `PublicKey`,
`Port`, `TableID`, `SwIfIndex` and `PersistentKeepalive` are equal, the two
`Addr` are the same IP address (`net.IP.Equal`, which is equality of the
bytes for two addresses of the same length), and the two lists hold the same
set of texts.  `t.Equal(nil)` is false. -/
theorem WireguardPeer_Equal_iff (str : IPNetString) (t o : WireguardPeer)
    (ht : (t.AllowedIPs.map str).Nodup) (ho : (o.AllowedIPs.map str).Nodup) :
    (t.Equal str (some o) = true ↔
      t.Index = o.Index ∧ t.PublicKey = o.PublicKey ∧ t.Port = o.Port ∧
      t.TableID = o.TableID ∧ t.SwIfIndex = o.SwIfIndex ∧ IP.Equal o.Addr t.Addr = true ∧
      t.PersistentKeepalive = o.PersistentKeepalive ∧
      ∀ x, x ∈ t.AllowedIPs.map str ↔ x ∈ o.AllowedIPs.map str) ∧
    (o.Addr.length = t.Addr.length → (IP.Equal o.Addr t.Addr = true ↔ t.Addr = o.Addr)) ∧
    t.Equal str none = false :=
  ⟨Equal_iff_of_nodup str t o ht ho,
    fun h => (IP_Equal_of_length_eq _ _ h).trans eq_comm, rfl⟩

/-- The hypotheses of C27 hold for the peers `peerAB` and `peerBA`, which are
equal. -/
theorem WireguardPeer_Equal_iff_witness :
    ((peerAB.AllowedIPs.map exampleString).Nodup ∧
      (peerBA.AllowedIPs.map exampleString).Nodup ∧
      peerAB.Equal exampleString (some peerBA) = true) ∧
    (peerAB.Equal exampleString (some peerBA) = true ↔
      peerAB.Index = peerBA.Index ∧ peerAB.PublicKey = peerBA.PublicKey ∧
      peerAB.Port = peerBA.Port ∧ peerAB.TableID = peerBA.TableID ∧
      peerAB.SwIfIndex = peerBA.SwIfIndex ∧ IP.Equal peerBA.Addr peerAB.Addr = true ∧
      peerAB.PersistentKeepalive = peerBA.PersistentKeepalive ∧
      ∀ x, x ∈ peerAB.AllowedIPs.map exampleString ↔ x ∈ peerBA.AllowedIPs.map exampleString) ∧
    (peerBA.Addr.length = peerAB.Addr.length →
      (IP.Equal peerBA.Addr peerAB.Addr = true ↔ peerAB.Addr = peerBA.Addr)) ∧
    peerAB.Equal exampleString none = false :=
  ⟨by decide, WireguardPeer_Equal_iff exampleString peerAB peerBA (by decide) (by decide)⟩

/-! ## C28: symmetry of `WireguardPeer.Equal` -/

/-- C28 fails as stated.  For the peer `peerAB`, which allows two different
prefixes, and the peer `peerAA`, whose list holds the first of them twice,
`peerAB.Equal(peerAA)` is true and `peerAA.Equal(peerAB)` is false; the same
holds for every text function and every two prefixes with different texts. -/
theorem WireguardPeer_Equal_not_symmetric :
    (peerAB.Equal exampleString (some peerAA) = true ∧
      peerAA.Equal exampleString (some peerAB) = false) ∧
    (∀ (str : IPNetString) (a b : IPNet), str a ≠ str b →
      WireguardPeer.Equal str { AllowedIPs := [a, b] } (some { AllowedIPs := [a, a] }) = true ∧
      WireguardPeer.Equal str { AllowedIPs := [a, a] } (some { AllowedIPs := [a, b] }) = false) ∧
    ¬ ∀ (str : IPNetString) (t o : WireguardPeer),
      t.Equal str (some o) = o.Equal str (some t) := by
  have hgen : ∀ (str : IPNetString) (a b : IPNet), str a ≠ str b →
      WireguardPeer.Equal str { AllowedIPs := [a, b] } (some { AllowedIPs := [a, a] }) = true ∧
      WireguardPeer.Equal str { AllowedIPs := [a, a] } (some { AllowedIPs := [a, b] }) = false := by
    intro str a b hab
    have hba : ¬ str b = str a := fun e => hab e.symm
    constructor
    · rw [Equal_iff]
      simp [IP.Equal]
    · rw [← Bool.not_eq_true, Equal_iff]
      simp [IP.Equal, hba]
  refine ⟨by decide, hgen, ?_⟩
  intro h
  have h1 := hgen exampleString prefixA prefixB (by decide)
  have h2 := h exampleString { AllowedIPs := [prefixA, prefixB] }
    { AllowedIPs := [prefixA, prefixA] }
  rw [h1.1, h1.2] at h2
  exact Bool.noConfusion h2

/-- C28, amended.  For two peers whose `AllowedIPs` lists each hold no two
entries with the same text, `t.Equal(o) = o.Equal(t)`. -/
theorem WireguardPeer_Equal_symmetric (str : IPNetString) (t o : WireguardPeer)
    (ht : (t.AllowedIPs.map str).Nodup) (ho : (o.AllowedIPs.map str).Nodup) :
    t.Equal str (some o) = o.Equal str (some t) := by
  rw [Bool.eq_iff_iff, Equal_iff_of_nodup str t o ht ho, Equal_iff_of_nodup str o t ho ht,
    IP_Equal_comm o.Addr t.Addr]
  constructor
  · rintro ⟨h1, h2, h3, h4, h5, h6, h7, h8⟩
    exact ⟨h1.symm, h2.symm, h3.symm, h4.symm, h5.symm, h6, h7.symm, fun x => (h8 x).symm⟩
  · rintro ⟨h1, h2, h3, h4, h5, h6, h7, h8⟩
    exact ⟨h1.symm, h2.symm, h3.symm, h4.symm, h5.symm, h6, h7.symm, fun x => (h8 x).symm⟩

/-- The hypotheses of the amended C28 hold for the peers `peerAB` and
`peerBA`. -/
theorem WireguardPeer_Equal_symmetric_witness :
    ((peerAB.AllowedIPs.map exampleString).Nodup ∧
      (peerBA.AllowedIPs.map exampleString).Nodup) ∧
    peerAB.Equal exampleString (some peerBA) = peerBA.Equal exampleString (some peerAB) :=
  ⟨by decide, WireguardPeer_Equal_symmetric exampleString peerAB peerBA (by decide)
    (by decide)⟩

/-! ## C29: `AddAllowedIP` and `DelAllowedIP` -/

/-- C29.  If no two entries of `AllowedIPs` have the same text, the same holds
after `AddAllowedIP(addr)` and after `DelAllowedIP(addr)`.  `AddAllowedIP`
leaves the peer unchanged when an entry has the text of `addr`, and appends
`addr` at the end otherwise.  After `DelAllowedIP(addr)` no entry has the
text of `addr`: the list is the former list without the entries that have
this text, in the same order. -/
theorem AllowedIPs_mutators (str : IPNetString) (t : WireguardPeer) (addr : IPNet) :
    ((t.AllowedIPs.map str).Nodup →
      ((t.AddAllowedIP str addr).AllowedIPs.map str).Nodup ∧
      ((t.DelAllowedIP str addr).AllowedIPs.map str).Nodup) ∧
    (str addr ∈ t.AllowedIPs.map str → t.AddAllowedIP str addr = t) ∧
    (str addr ∉ t.AllowedIPs.map str →
      (t.AddAllowedIP str addr).AllowedIPs = t.AllowedIPs ++ [addr]) ∧
    str addr ∉ (t.DelAllowedIP str addr).AllowedIPs.map str ∧
    (t.DelAllowedIP str addr).AllowedIPs =
      t.AllowedIPs.filter (fun aip => decide (str aip ≠ str addr)) ∧
    (t.DelAllowedIP str addr).AllowedIPs.Sublist t.AllowedIPs := by
  have hdel := DelAllowedIP_AllowedIPs str t addr
  have hadd1 : str addr ∈ t.AllowedIPs.map str → t.AddAllowedIP str addr = t := by
    intro h
    simp [WireguardPeer.AddAllowedIP, allowedIpsMap_isSome, h]
  have hadd2 : str addr ∉ t.AllowedIPs.map str →
      (t.AddAllowedIP str addr).AllowedIPs = t.AllowedIPs ++ [addr] := by
    intro h
    simp [WireguardPeer.AddAllowedIP, allowedIpsMap_isSome, h]
  refine ⟨?_, hadd1, hadd2, ?_, hdel, ?_⟩
  · intro hn
    constructor
    · by_cases h : str addr ∈ t.AllowedIPs.map str
      · rw [hadd1 h]
        exact hn
      · rw [hadd2 h, List.map_append, List.map_singleton]
        exact List.Nodup.append hn (List.nodup_singleton _)
          (by
            intro x hx hx'
            rw [List.mem_singleton] at hx'
            exact h (hx' ▸ hx))
    · rw [hdel]
      exact (List.Sublist.map str (List.filter_sublist _)).nodup hn
  · rw [hdel]
    intro h
    obtain ⟨aip, hmem, heq⟩ := List.mem_map.1 h
    have := (List.mem_filter.1 hmem).2
    simp at this
    exact this heq
  · rw [hdel]
    exact List.filter_sublist _

/-! ## C30: the main uplink of `NewVppManagerParams` -/

/-- C30.  When `NewVppManagerParams` returns, `UplinksSpecs` is non-empty and
exactly one of its entries has `IsMain` set.  When no configured uplink is
tagged main, the list is the collected uplinks with `IsMain` set in the
first one; otherwise the list is the collected uplinks unchanged and its one
entry with `IsMain` is the one configured uplink that is tagged.  The call
panics when no uplink is collected and when more than one configured uplink
is tagged main; it returns when there is an uplink, at most one is tagged
main and every validation succeeds. -/
theorem NewVppManagerParams_main (env : StartupEnv) :
    (∀ params, NewVppManagerParams env = .ok params →
      params.UplinksSpecs ≠ [] ∧
      (params.UplinksSpecs.filter (fun uplink => uplink.IsMain)).length = 1 ∧
      (env.taggedMain = 0 → ∃ first others, env.collected = first :: others ∧
        params.UplinksSpecs = { first with IsMain := true } :: others) ∧
      (env.taggedMain ≠ 0 → params.UplinksSpecs = env.collected ∧
        params.UplinksSpecs.filter (fun uplink => uplink.IsMain) =
          env.UplinkInterfaces.filter (fun uplink => uplink.IsMain))) ∧
    (env.collected = [] → ∃ msg, NewVppManagerParams env = .error msg) ∧
    (1 < env.taggedMain → ∃ msg, NewVppManagerParams env = .error msg) ∧
    (env.collected ≠ [] → env.taggedMain ≤ 1 →
      (∀ index uplink, env.Validate index uplink = none) →
      ∃ params, NewVppManagerParams env = .ok params) := by
  have hfilter := collected_filter env
  have htag : env.taggedMain = (env.collected.filter (fun uplink => uplink.IsMain)).length := by
    rw [hfilter]; rfl
  rw [NewVppManagerParams_eq]
  cases hc : env.collected with
  | nil =>
    refine ⟨?_, ?_, ?_, ?_⟩
    · intro params h; cases h
    · intro _; exact ⟨_, rfl⟩
    · intro _; exact ⟨_, rfl⟩
    · intro h; exact absurd rfl h
  | cons first others =>
    simp only []
    rw [hc] at htag hfilter
    by_cases h0 : env.taggedMain = 0
    · rw [if_pos h0]
      have hnone : (first :: others).filter (fun uplink => uplink.IsMain) = [] := by
        apply List.eq_nil_of_length_eq_zero
        rw [← htag, h0]
      refine ⟨?_, ?_, ?_, ?_⟩
      · intro params h
        have hu := finish_UplinksSpecs env _ _ h
        simp only at hu
        have hothers : others.filter (fun uplink => uplink.IsMain) = [] := by
          rw [List.filter_cons] at hnone
          split at hnone
          · cases hnone
          · exact hnone
        refine ⟨by rw [hu]; simp, ?_, fun _ => ⟨first, others, rfl, hu⟩, fun h => absurd h0 h⟩
        rw [hu]
        simp [hothers]
      · intro h; cases h
      · intro h; omega
      · intro _ _ hv
        exact finish_ok env _ hv
    · rw [if_neg h0]
      by_cases h1 : env.taggedMain > 1
      · rw [if_pos h1]
        refine ⟨?_, ?_, ?_, ?_⟩
        · intro params h; cases h
        · intro h; cases h
        · intro _; exact ⟨_, rfl⟩
        · intro _ h; omega
      · rw [if_neg h1]
        have hone : env.taggedMain = 1 := by omega
        refine ⟨?_, ?_, ?_, ?_⟩
        · intro params h
          have hu := finish_UplinksSpecs env _ _ h
          simp only at hu
          refine ⟨by rw [hu]; simp, ?_, fun h => absurd h h0, fun _ => ⟨hu, ?_⟩⟩
          · rw [hu, ← htag, hone]
          · rw [hu, hfilter]
        · intro h; cases h
        · intro h; omega
        · intro _ _ hv
          exact finish_ok env _ hv

end CalicoVpp
